import Mathlib

/-!
Servidor-Unificado: device registry, check-in, status sweep, access filter,
device listing, commands and IP-range resolution.

A shallow embedding of the parts of the server that the device registry
(`routes/deviceRoutes.js`: the handlers of `POST /data`, `GET /`,
`POST /commands` and `POST /command-result`, and the helpers
`matchesUserPrefixes` and `escapeRegExp`), the status lifecycle sweep
(`scripts/updateDeviceStatus.js`, `scripts/updateDeviceStatusRelaoder.js`), the
IP-range resolver (`services/ipMappingService.js`) and the address normalisation
(`cleanIpAddress` of `controllers/totemController.js`) are made of, followed by
theorems about them.

Conventions.
* A JavaScript / BSON value is a `JVal`; an absent property reads as
  `JVal.undef`, exactly as a property lookup does in JavaScript.
* A MongoDB collection is a list of documents in natural (insertion) order.
* Everything the handlers use that lives outside the repository sources
  (JavaScript built-ins, the validator library's `isIP`, the BSSID mapping
  table, the regular-expression engine, the ObjectId cast, the `ip-address`
  library) is a field of `Env`, of `Lib` or of `IpLib`.
-/

namespace ServidorUnificado

/-! ## Values -/

/-- JavaScript / BSON values. The items of an array and the members of an
object are kept in their textual form: no handler modelled here looks inside them
except the validators of `security_policies.*`. -/
inductive JVal where
  | undef
  | null
  | bool (b : Bool)
  | num (n : Int)
  | str (s : String)
  | date (ms : Int)
  | arr (items : List String)
  | obj (members : List (String × String))
  deriving DecidableEq, Repr

namespace JVal

/-- JavaScript truthiness (`ToBoolean`). -/
def truthy : JVal → Bool
  | undef => false
  | null => false
  | bool b => b
  | num n => n != 0
  | str s => s != ""
  | date _ => true
  | arr _ => true
  | obj _ => true

/-- The JavaScript expression `v || d`. -/
def orElse (v d : JVal) : JVal := if v.truthy then v else d

/-- The JavaScript expression `v != null` (loose comparison): false exactly for
`undefined` and `null`. -/
def notNullish : JVal → Bool
  | undef => false
  | null => false
  | _ => true

/-- The JavaScript expression `a !== b`. Primitives compare by value; an array
or object is only identical to itself, and the two sides of the comparisons
modelled here are never the same reference. -/
def strictNe (a b : JVal) : Bool :=
  match a, b with
  | arr _, _ => true
  | obj _, _ => true
  | _, arr _ => true
  | _, obj _ => true
  | date _, _ => true
  | _, date _ => true
  | x, y => x != y

/-- The comparison a MongoDB filter `{ field: { $lt: <Date t> } }` makes: only a
stored date is comparable with a date operand, and it matches when it is
strictly earlier. -/
def dateLt (v : JVal) (t : Int) : Bool :=
  match v with
  | date ms => decide (ms < t)
  | _ => false

end JVal

/-! ## Documents -/

/-- The properties of a check-in payload (`req.body` of `POST /data`) and of a
`Device` document: the object literal `deviceData` of the handler has exactly
these keys, in this order, and the request validators name the same keys. -/
structure Fields where
  device_name : JVal := JVal.undef
  device_model : JVal := JVal.undef
  device_id : JVal := JVal.undef
  serial_number : JVal := JVal.undef
  imei : JVal := JVal.undef
  battery : JVal := JVal.undef
  network : JVal := JVal.undef
  host : JVal := JVal.undef
  sector : JVal := JVal.undef
  floor : JVal := JVal.undef
  mac_address_radio : JVal := JVal.undef
  last_sync : JVal := JVal.undef
  secure_android_id : JVal := JVal.undef
  ip_address : JVal := JVal.undef
  wifi_ipv6 : JVal := JVal.undef
  wifi_gateway_ip : JVal := JVal.undef
  wifi_broadcast : JVal := JVal.undef
  wifi_submask : JVal := JVal.undef
  last_seen : JVal := JVal.undef
  unit : JVal := JVal.undef
  provisioning_status : JVal := JVal.undef
  provisioning_token : JVal := JVal.undef
  enrollment_date : JVal := JVal.undef
  configuration_profile : JVal := JVal.undef
  owner_organization : JVal := JVal.undef
  compliance_status : JVal := JVal.undef
  installed_apps : JVal := JVal.undef
  security_policies : JVal := JVal.undef
  status : JVal := JVal.undef
  is_online : JVal := JVal.undef
  maintenance_status : JVal := JVal.undef
  maintenance_ticket : JVal := JVal.undef
  maintenance_reason : JVal := JVal.undef
  maintenance_history : JVal := JVal.undef
  deriving DecidableEq, Repr

/-- Modelled from the spec: `models/Device.js` is not part of the sources. A
`Device` document is its MongoDB `_id` together with the properties the handlers
read and write; it is keyed by `serial_number`, and `last_seen` is a timestamp. -/
structure Device extends Fields where
  _id : Nat := 0
  deriving DecidableEq, Repr

/-! ## The status sweep (`scripts/updateDeviceStatus.js`) -/

def OFFLINE_THRESHOLD_MINUTES : Int := 60

def UNMONITORED_THRESHOLD_DAYS : Int := 5

/-- The result of `Model.updateMany(filter, update)`: the collection afterwards
and `modifiedCount`, the number of matched documents the update changed. -/
structure UpdateResult where
  devices : List Device
  modifiedCount : Nat
  deriving DecidableEq, Repr

/-- Mongoose `Device.updateMany(filter, { $set: ... })`. -/
def updateMany (filter : Device → Bool) (set : Device → Device) (ds : List Device) :
    UpdateResult :=
  { devices := ds.map (fun d => if filter d then set d else d)
    modifiedCount := (ds.filter (fun d => filter d && decide (set d ≠ d))).length }

/-- Filter of stage 1:
`{ last_seen: { $lt: offlineThreshold }, status: 'online', maintenance_status: { $ne: true } }`. -/
def offlineFilter (offlineThreshold : Int) (d : Device) : Bool :=
  d.last_seen.dateLt offlineThreshold && d.status == JVal.str "online" &&
    d.maintenance_status != JVal.bool true

/-- Update of stage 1: `{ $set: { status: 'offline', is_online: false } }`. -/
def offlineSet (d : Device) : Device :=
  { d with status := JVal.str "offline", is_online := JVal.bool false }

/-- Filter of stage 2:
`{ last_seen: { $lt: unmonitoredThreshold }, status: 'offline', maintenance_status: { $ne: true } }`. -/
def unmonitoredFilter (unmonitoredThreshold : Int) (d : Device) : Bool :=
  d.last_seen.dateLt unmonitoredThreshold && d.status == JVal.str "offline" &&
    d.maintenance_status != JVal.bool true

/-- Update of stage 2: `{ $set: { status: 'Sem Monitorar' } }`. -/
def unmonitoredSet (d : Device) : Device :=
  { d with status := JVal.str "Sem Monitorar" }

/-- Stage 1 of the sweep ("ETAPA 1"), run when `Date.now()` reads `now`. -/
def markOffline (now : Int) (ds : List Device) : UpdateResult :=
  let offlineThreshold := now - OFFLINE_THRESHOLD_MINUTES * 60 * 1000
  updateMany (offlineFilter offlineThreshold) offlineSet ds

/-- Stage 2 of the sweep ("ETAPA 2"), run when `Date.now()` reads `now`. -/
def markUnmonitored (now : Int) (ds : List Device) : UpdateResult :=
  let unmonitoredThreshold := now - UNMONITORED_THRESHOLD_DAYS * 24 * 60 * 60 * 1000
  updateMany (unmonitoredFilter unmonitoredThreshold) unmonitoredSet ds

/-- What one run of the sweep leaves behind: the collection, and the two
`modifiedCount`s its log lines report. -/
structure SweepResult where
  devices : List Device
  offlineCount : Nat
  unmonitoredCount : Nat
  deriving DecidableEq, Repr

/-- The sweep `updateDeviceStatus`. The function reads the clock twice, once per
stage: `now1` and `now2` are the two readings of `Date.now()`. -/
def updateDeviceStatus (now1 now2 : Int) (ds : List Device) : SweepResult :=
  let offlineResult := markOffline now1 ds
  let unmonitoredResult := markUnmonitored now2 offlineResult.devices
  { devices := unmonitoredResult.devices
    offlineCount := offlineResult.modifiedCount
    unmonitoredCount := unmonitoredResult.modifiedCount }

/-- The effect of one run of the sweep on a single document. -/
def sweepDevice (now1 now2 : Int) (d : Device) : Device :=
  let d1 := if offlineFilter (now1 - OFFLINE_THRESHOLD_MINUTES * 60 * 1000) d then offlineSet d else d
  if unmonitoredFilter (now2 - UNMONITORED_THRESHOLD_DAYS * 24 * 60 * 60 * 1000) d1 then
    unmonitoredSet d1 else d1

/-! ## The check-in handler (`routes/deviceRoutes.js`, `POST /data`) -/

/-- Modelled from the spec: `utils/mappings.js` is not part of the sources. The
result of resolving a radio/AP identifier is a `{ sector, floor }` pair. -/
structure Location where
  sector : JVal
  floor : JVal
  deriving DecidableEq, Repr

/-- An error thrown by an awaited database call, as far as the `catch` block of
the check-in handler looks at it: its `code` property (`JVal.undef` when the
error has none). -/
structure DbError where
  code : JVal
  deriving DecidableEq, Repr

/-- What the check-in handler takes from outside the repository sources. -/
structure Env where
  /-- The binding of the identifier `unitName` in the global scope. The handler
  reads `unitName` at the `unit:` property of `deviceData`, and nothing in
  `deviceRoutes.js` declares it (`mapIpToUnit` is imported and never called), so
  the read resolves globally: `none` is an unbound identifier, whose read throws
  a `ReferenceError`; `some v` is a global of that name holding `v`. -/
  unitName : Option JVal
  /-- Modelled from the spec: `mapMacAddressRadioToLocation` of
  `utils/mappings.js`, which resolves an unmapped identifier to a sentinel
  rather than failing. -/
  mapMacAddressRadioToLocation : JVal → Location
  /-- JavaScript `new Date(ms).toISOString()`. -/
  toISOString : Int → String
  /-- JavaScript `Date.parse`: `none` is `NaN` (an invalid date). -/
  parseDate : String → Option Int
  /-- The `isIP` check of the validator library. -/
  isIP : String → Bool
  /-- The error with which `Device.findOne` rejects in the request served when the
  clock reads the given time; `none` when the call succeeds. -/
  findOneError : Int → Option DbError := fun _ => none
  /-- The error with which `historyEntry.save()` rejects in that request; `none`
  when the call succeeds. -/
  saveError : Int → Option DbError := fun _ => none
  /-- The error with which `Device.findOneAndUpdate` rejects in that request;
  `none` when the call succeeds. -/
  upsertError : Int → Option DbError := fun _ => none

/-! ### Request validation (express-validator chains of `POST /data`) -/

/-- The string a validator of express-validator sees for a scalar value. -/
def stringify : JVal → String
  | JVal.undef => ""
  | JVal.null => ""
  | JVal.bool b => if b then "true" else "false"
  | JVal.num n => toString n
  | JVal.str s => s
  | JVal.date _ => ""
  | JVal.arr _ => ""
  | JVal.obj _ => "[object Object]"

/-- The strings a standard validator is run on: every item of an array, or the
value itself. -/
def validatedStrings : JVal → List String
  | JVal.arr items => items
  | v => [stringify v]

/-- A standard validator `check` applied to the value of a field. -/
def passes (check : String → Bool) (v : JVal) : Bool := (validatedStrings v).all check

/-- A chain `.optional().check()`: skipped when the field is `undefined`. -/
def optionalPasses (check : String → Bool) (v : JVal) : Bool :=
  if v = JVal.undef then true else passes check v

/-- The member `key` of an object, as read by a field path `a.key`. -/
def member (v : JVal) (key : String) : JVal :=
  match v with
  | JVal.obj members =>
    match members.find? (fun m => m.1 == key) with
    | some m => JVal.str m.2
    | none => JVal.undef
  | _ => JVal.undef

/-- Validator `notEmpty()`. -/
def notEmpty (s : String) : Bool := s != ""

/-- The value of a string of decimal digits. -/
def digitsValue (ds : List Char) : Nat :=
  ds.foldl (fun acc c => 10 * acc + (c.toNat - 48)) 0

/-- The integer a string denotes under the pattern `^[-+]?[0-9]+$`, if it
matches. This is the pattern validator `isInt()` applies when the option
`allow_leading_zeroes` is not set to false, as in every `isInt` chain of the
handler: leading zeros are accepted. -/
def intOfString (s : String) : Option Int :=
  let unsigned : List Char → Option Nat := fun ds =>
    match ds with
    | [] => none
    | c :: rest =>
      if (c :: rest).all Char.isDigit then some (digitsValue (c :: rest))
      else none
  match s.toList with
  | '-' :: ds => (unsigned ds).map (fun n => - (n : Int))
  | '+' :: ds => (unsigned ds).map (fun n => (n : Int))
  | ds => (unsigned ds).map (fun n => (n : Int))

/-- Validator `isInt({ min, max })`. -/
def isInt (min : Option Int) (max : Option Int) (s : String) : Bool :=
  match intOfString s with
  | none => false
  | some n =>
    (match min with
      | some lo => decide (lo ≤ n)
      | none => true) &&
    (match max with
      | some hi => decide (n ≤ hi)
      | none => true)

/-- Validator `isIn([...])`. -/
def isIn (allowed : List String) (s : String) : Bool := allowed.contains s

/-- Validator `isBoolean()`. -/
def isBoolean (s : String) : Bool := ["true", "false", "1", "0"].contains s

def isHexDigit (c : Char) : Bool :=
  c.isDigit || ('a' ≤ c && c ≤ 'f') || ('A' ≤ c && c ≤ 'F')

def isMacSeparator (c : Char) : Bool := c == ':' || c == '-'

/-- Validator `matches(/^([0-9A-Fa-f]{2}[:-]){5}([0-9A-Fa-f]{2})$/)`. -/
def matchesMac (s : String) : Bool :=
  match s.toList with
  | [a1, a2, s1, b1, b2, s2, c1, c2, s3, d1, d2, s4, e1, e2, s5, f1, f2] =>
    [a1, a2, b1, b2, c1, c2, d1, d2, e1, e2, f1, f2].all isHexDigit &&
      [s1, s2, s3, s4, s5].all isMacSeparator
  | _ => false

/-- The validation chains of `POST /data` that carry a check, in source order,
each with the name of its field and whether it passes. Chains that are only
`.optional()` cannot fail and are left out. The last entry is the custom
validator of the whole body. -/
def validators (env : Env) (body : Fields) : List (String × Bool) :=
  [ ("device_id", passes notEmpty body.device_id),
    ("device_name", passes notEmpty body.device_name),
    ("serial_number", passes notEmpty body.serial_number),
    ("battery", optionalPasses (isInt (some 0) (some 100)) body.battery),
    ("ip_address", optionalPasses env.isIP body.ip_address),
    ("mac_address_radio", optionalPasses matchesMac body.mac_address_radio),
    ("wifi_gateway_ip", optionalPasses env.isIP body.wifi_gateway_ip),
    ("wifi_broadcast", optionalPasses env.isIP body.wifi_broadcast),
    ("provisioning_status",
      optionalPasses (isIn ["pending", "in_progress", "completed", "failed"])
        body.provisioning_status),
    ("compliance_status",
      optionalPasses (isIn ["compliant", "non_compliant", "unknown"]) body.compliance_status),
    ("security_policies.password_required",
      optionalPasses isBoolean (member body.security_policies "password_required")),
    ("security_policies.encryption_enabled",
      optionalPasses isBoolean (member body.security_policies "encryption_enabled")),
    ("security_policies.screen_lock_timeout",
      optionalPasses (isInt (some 0) none) (member body.security_policies "screen_lock_timeout")),
    ("security_policies.allow_unknown_sources",
      optionalPasses isBoolean (member body.security_policies "allow_unknown_sources")),
    ("status", optionalPasses (isIn ["online", "offline", "Sem Monitorar"]) body.status),
    ("is_online", optionalPasses isBoolean body.is_online),
    ("maintenance_status", optionalPasses isBoolean body.maintenance_status),
    ("", !(!body.imei.truthy && !body.serial_number.truthy)) ]

/-- The fields reported by `validationResult(req)`. -/
def validationErrors (env : Env) (body : Fields) : List String :=
  ((validators env body).filter (fun c => !c.2)).map Prod.fst

/-! ### The handler -/

/-- Modelled from the spec: `models/LocationHistory.js` is not part of the
sources. An entry holds the serial number, the attachment identifier, the
resolved sector and floor, and a timestamp (`none` is an invalid date). -/
structure LocationHistory where
  serial_number : JVal
  bssid : JVal
  sector : JVal
  floor : JVal
  timestamp : Option Int
  deriving DecidableEq, Repr

/-- The two collections the check-in handler reads and writes. -/
structure Store where
  devices : List Device
  history : List LocationHistory
  deriving DecidableEq, Repr

/-- The HTTP status the handler answers with, and the collections afterwards. -/
structure Outcome where
  status : Nat
  store : Store
  deriving DecidableEq, Repr

/-- The time value of JavaScript `new Date(v)`; `none` is an invalid date. -/
def newDate (env : Env) : JVal → Option Int
  | JVal.undef => none
  | JVal.null => some 0
  | JVal.bool b => some (if b then 1 else 0)
  | JVal.num n => if -8640000000000000 ≤ n ∧ n ≤ 8640000000000000 then some n else none
  | JVal.str s => env.parseDate s
  | JVal.date ms => some ms
  | JVal.arr items => env.parseDate (",".intercalate items)
  | JVal.obj _ => env.parseDate "[object Object]"

/-- The object literal `deviceData` of the handler. Evaluating it throws a
`ReferenceError` when `unitName` is unbound. -/
def deviceData (env : Env) (now : Int) (data : Fields) (location : Location) :
    Except String Fields :=
  match env.unitName with
  | none => Except.error "ReferenceError: unitName is not defined"
  | some unitName =>
    Except.ok
      { device_name := data.device_name.orElse (JVal.str "unknown")
        device_model := data.device_model.orElse (JVal.str "N/A")
        device_id := data.device_id.orElse (JVal.str "unknown")
        serial_number := data.serial_number.orElse (JVal.str "N/A")
        imei := data.imei.orElse (JVal.str "N/A")
        battery := if data.battery.notNullish then data.battery else JVal.null
        network := data.network.orElse (JVal.str "N/A")
        host := data.host.orElse (JVal.str "N/A")
        sector := location.sector
        floor := location.floor
        mac_address_radio := data.mac_address_radio.orElse (JVal.str "N/A")
        last_sync := data.last_sync.orElse (JVal.str "N/A")
        secure_android_id := data.secure_android_id.orElse (JVal.str "N/A")
        ip_address := data.ip_address.orElse (JVal.str "N/A")
        wifi_ipv6 := data.wifi_ipv6.orElse (JVal.str "N/A")
        wifi_gateway_ip := data.wifi_gateway_ip.orElse (JVal.str "N/A")
        wifi_broadcast := data.wifi_broadcast.orElse (JVal.str "N/A")
        wifi_submask := data.wifi_submask.orElse (JVal.str "N/A")
        last_seen := data.last_seen.orElse (JVal.str (env.toISOString now))
        unit := if unitName.strictNe (JVal.str "Desconhecido") then unitName else JVal.str "N/A"
        provisioning_status := data.provisioning_status.orElse (JVal.str "N/A")
        provisioning_token := data.provisioning_token.orElse (JVal.str "N/A")
        enrollment_date := data.enrollment_date.orElse (JVal.str "N/A")
        configuration_profile := data.configuration_profile.orElse (JVal.str "N/A")
        owner_organization := data.owner_organization.orElse (JVal.str "N/A")
        compliance_status := data.compliance_status.orElse (JVal.str "unknown")
        installed_apps := data.installed_apps.orElse (JVal.arr [])
        security_policies := data.security_policies.orElse (JVal.obj [])
        status := data.status.orElse (JVal.str "unknown")
        is_online := data.is_online.orElse (JVal.bool false)
        maintenance_status := data.maintenance_status.orElse (JVal.bool false)
        maintenance_ticket := data.maintenance_ticket.orElse (JVal.str "")
        maintenance_reason := data.maintenance_reason.orElse (JVal.str "")
        maintenance_history := data.maintenance_history.orElse (JVal.arr []) }

/-- Mongoose `Device.findOne({ serial_number: sn })`. -/
def findOne (devices : List Device) (sn : JVal) : Option Device :=
  devices.find? (fun d => d.serial_number == sn)

/-- Applies `f` to the first document that satisfies `p`. -/
def updateFirst (p : Device → Bool) (f : Device → Device) : List Device → List Device
  | [] => []
  | d :: ds => if p d then f d :: ds else d :: updateFirst p f ds

/-- An `_id` no document of the collection has. -/
def freshId (devices : List Device) : Nat := (devices.map (fun d => d._id)).foldr max 0 + 1

/-- Mongoose `Device.findOneAndUpdate({ serial_number: sn }, { $set: deviceData },
{ new: true, upsert: true, setDefaultsOnInsert: true })`: the first document with
that serial number gets every property of `deviceData`; when there is none, a
new document made of them is inserted. -/
def findOneAndUpdate (devices : List Device) (sn : JVal) (deviceData : Fields) : List Device :=
  if devices.any (fun d => d.serial_number == sn) then
    updateFirst (fun d => d.serial_number == sn) (fun d => { d with toFields := deviceData })
      devices
  else
    devices ++ [{ toFields := deviceData, _id := freshId devices }]

/-- The status the `catch` block of the check-in handler answers with: 409 for a
duplicate-key error (`err.code === 11000`), 500 for every other error. -/
def catchStatus (err : DbError) : Nat :=
  if err.code = JVal.num 11000 then 409 else 500

/-- The handler of `POST /data`, for a request that passed authentication and
rate limiting, answered when the clock reads `now`. Each of the three awaited
database calls may reject; the `catch` block then answers 409 or 500, and what
was written before the failing call stays written. The `ReferenceError` of
`deviceData` has no `code`, so it is answered 500. -/
def postData (env : Env) (now : Int) (body : Fields) (st : Store) : Outcome :=
  if !(validationErrors env body).isEmpty then { status := 400, store := st }
  else
    let data := body
    let location :=
      env.mapMacAddressRadioToLocation (data.mac_address_radio.orElse (JVal.str "N/A"))
    match deviceData env now data location with
    | Except.error _ => { status := 500, store := st }
    | Except.ok deviceData =>
      match env.findOneError now with
      | some err => { status := catchStatus err, store := st }
      | none =>
        let existingDevice := findOne st.devices deviceData.serial_number
        let saved : Except DbError (List LocationHistory) :=
          match existingDevice with
          | some existing =>
            if existing.mac_address_radio.strictNe deviceData.mac_address_radio then
              match env.saveError now with
              | some err => Except.error err
              | none =>
                Except.ok (st.history ++
                  [{ serial_number := deviceData.serial_number
                     bssid := deviceData.mac_address_radio
                     sector := location.sector
                     floor := location.floor
                     timestamp := newDate env deviceData.last_seen }])
            else Except.ok st.history
          | none => Except.ok st.history
        match saved with
        | Except.error err => { status := catchStatus err, store := st }
        | Except.ok history =>
          match env.upsertError now with
          | some err =>
            { status := catchStatus err, store := { devices := st.devices, history := history } }
          | none =>
            let devices := findOneAndUpdate st.devices deviceData.serial_number deviceData
            { status := 200, store := { devices := devices, history := history } }

/-- The LocationHistory document the handler builds with `new LocationHistory(...)`
when the attachment identifier changed. -/
def historyEntry (env : Env) (location : Location) (deviceData : Fields) : LocationHistory :=
  { serial_number := deviceData.serial_number
    bssid := deviceData.mac_address_radio
    sector := location.sector
    floor := location.floor
    timestamp := newDate env deviceData.last_seen }

/-- A run of check-ins, one after the other: the statuses answered, and the
collections after the last one. -/
def postDataSeq (env : Env) : List (Int × Fields) → Store → List Nat × Store
  | [], st => ([], st)
  | (now, body) :: rest, st =>
    let o := postData env now body st
    let r := postDataSeq env rest o.store
    (o.status :: r.1, r.2)

/-! ## The repair script (`scripts/updateDeviceStatusRelaoder.js`) -/

/-- The body of the loop of `fixDeviceStatus` for one document. The script reads
the clock once for each of its two thresholds (`now1`, `now2`). A comparison
with an invalid date is false. -/
def fixDevice (env : Env) (now1 now2 : Int) (device : Device) : Device :=
  let fortyFiveMinutesAgo := now1 - 45 * 60 * 1000
  let fiveDaysAgo := now2 - 5 * 24 * 60 * 60 * 1000
  let originalStatus := device.status
  if device.maintenance_status.truthy then device
  else
    let lastSeen := if device.last_seen.truthy then newDate env device.last_seen else some 0
    let lastSync := if device.last_sync.truthy then newDate env device.last_sync else some 0
    let verdict : String × Bool :=
      if lastSeen.any (fun t => decide (t > fortyFiveMinutesAgo)) then ("online", true)
      else if lastSync.any (fun t => decide (t < fiveDaysAgo)) then ("Sem Monitorar", false)
      else ("offline", false)
    if (JVal.str verdict.1).strictNe originalStatus then
      { device with status := JVal.str verdict.1, is_online := JVal.bool verdict.2 }
    else device

/-- The repair script `fixDeviceStatus` over the whole collection. -/
def fixDeviceStatus (env : Env) (now1 now2 : Int) (allDevices : List Device) : List Device :=
  allDevices.map (fixDevice env now1 now2)

/-! ## The access filter (`routes/deviceRoutes.js`) -/

/-- What the route handlers of `deviceRoutes.js` other than the check-in take
from outside the repository sources. Strings are handled as lists of characters. -/
structure Lib where
  /-- JavaScript `String.prototype.toLowerCase`. -/
  toLowerCase : List Char → List Char
  /-- The case folding the regular-expression engine applies to each character
  under the flag `i`. -/
  fold : Char → Char
  /-- Whether the regular-expression engine accepts a pattern. -/
  regexValid : List Char → Bool
  /-- The regular-expression engine on an arbitrary pattern with the flag `i`:
  whether the pattern matches somewhere in the subject. -/
  regexSearch : List Char → List Char → Bool
  /-- Mongoose's cast of a request value to an ObjectId, as the hexadecimal
  string of the id; `none` is a `CastError`. -/
  castObjectId : JVal → Option String

/-- Modelled from the spec: `middleware/auth.js` and the user model are not part
of the sources. The caller `req.user`: a name, a role ('user' is the
non-administrative one) and the sector string, a comma-separated list of
device-name prefixes, `none` when the user has none. -/
structure User where
  username : String
  role : String
  sector : Option String
  deriving DecidableEq, Repr

/-- JavaScript white space and line terminators, the characters `trim` strips. -/
def isWhiteSpace (c : Char) : Bool :=
  [9, 10, 11, 12, 13, 32, 160, 5760, 8232, 8233, 8239, 8287, 12288, 65279].contains c.toNat ||
    (decide (8192 ≤ c.toNat) && decide (c.toNat ≤ 8202))

/-- JavaScript `String.prototype.trim`. -/
def trim (cs : List Char) : List Char :=
  ((cs.dropWhile isWhiteSpace).reverse.dropWhile isWhiteSpace).reverse

/-- JavaScript `String.prototype.split(sep)` for a one-character separator. -/
def split (sep : Char) : List Char → List (List Char)
  | [] => [[]]
  | c :: cs =>
    if c = sep then [] :: split sep cs
    else
      match split sep cs with
      | [] => [[c]]
      | first :: rest => (c :: first) :: rest

/-- The helper `matchesUserPrefixes(deviceName, userSector)`. `none` is the
`TypeError` thrown by `deviceName.toLowerCase()` when the name is not a string. -/
def matchesUserPrefixes (lib : Lib) (deviceName : JVal) (userSector : Option String) :
    Option Bool :=
  match userSector with
  | none => some false
  | some userSector =>
    if userSector = "" ∨ trim userSector.toList = [] then some false
    else
      let prefixes :=
        ((split ',' userSector.toList).map (fun p => lib.toLowerCase (trim p))).filter
          (fun p => decide (p.length > 0))
      if prefixes.length = 0 then some false
      else
        match deviceName with
        | JVal.str name =>
          let lowerDeviceName := lib.toLowerCase name.toList
          some (prefixes.any (fun p => p.isPrefixOf lowerDeviceName))
        | _ => none

/-- The backslash character. -/
def backslash : Char := Char.ofNat 92

/-- The characters of the class `[.*+?^$\x7b\x7d()|[\]\\]` of `escapeRegExp`. -/
def isRegExpSpecial (c : Char) : Bool :=
  ['.', '*', '+', '?', '^', '$', Char.ofNat 123, Char.ofNat 125, '(', ')', '|', '[', ']',
    backslash].contains c

/-- The helper `escapeRegExp`: `string.replace(/[...]/g, '\\$&')` puts a
backslash before every character of the class. -/
def escapeRegExp : List Char → List Char
  | [] => []
  | c :: cs =>
    if isRegExpSpecial c then backslash :: c :: escapeRegExp cs else c :: escapeRegExp cs

/-! ### Regular expressions -/

/-- The text a pattern denotes when it is made only of ordinary characters and of
syntax characters escaped by a backslash; `none` for any other pattern. -/
def literalOfPattern : List Char → Option (List Char)
  | [] => some []
  | c :: cs =>
    if c = backslash then
      match cs with
      | [] => none
      | e :: rest =>
        if isRegExpSpecial e then (literalOfPattern rest).map (fun l => e :: l) else none
    else if isRegExpSpecial c then none
    else (literalOfPattern cs).map (fun l => c :: l)

/-- A regular expression with the flag `i` tested on a string. A pattern `^`
followed by a literal text matches when the subject starts with that text,
characters being compared after case folding; every other pattern is left to the
engine. -/
def regexTest (lib : Lib) (source subject : List Char) : Bool :=
  match source with
  | '^' :: body =>
    match literalOfPattern body with
    | some text => (text.map lib.fold).isPrefixOf (subject.map lib.fold)
    | none => lib.regexSearch source subject
  | _ => lib.regexSearch source subject

/-- A MongoDB condition `{ field: { $regex: source, $options: 'i' } }` on the
value of the field: only a string can match. -/
def matchesRegex (lib : Lib) (source : List Char) (v : JVal) : Bool :=
  match v with
  | JVal.str s => regexTest lib source s.toList
  | _ => false

/-- What the theorems on the access filter assume of `toLowerCase`: it turns only
the empty string into the empty string, and on a string of ASCII characters it
lowers the letters A to Z and nothing else. JavaScript's `toLowerCase` does both. -/
def LowersLikeJS (lib : Lib) : Prop :=
  (∀ q, lib.toLowerCase q = [] → q = []) ∧
    (∀ q, (∀ c ∈ q, c.toNat < 128) → lib.toLowerCase q = q.map Char.toLower)

/-- What the theorems on the listing assume of the case folding the
regular-expression engine applies under the flag `i`: two ASCII characters fold
alike exactly when they are the same letter up to case. The engines of JavaScript
and of MongoDB both do so. -/
def FoldsAscii (lib : Lib) : Prop :=
  ∀ a b : Char, a.toNat < 128 → b.toNat < 128 →
    (lib.fold a = lib.fold b ↔ a.toLower = b.toLower)

/-- The access filter in the words of the spec: the device name starts,
case-insensitively, with at least one of the comma-separated prefixes of the
sector string, entries being trimmed and empty entries ignored. -/
def startsWithSomePrefix (lib : Lib) (name : String) (sector : String) : Prop :=
  ∃ entry ∈ split ',' sector.toList, trim entry ≠ [] ∧
    lib.toLowerCase (trim entry) <+: lib.toLowerCase name.toList

/-! ## The device listing (`routes/deviceRoutes.js`, `GET /`) -/

/-- The rank of a value's type in the BSON comparison order. -/
def bsonRank : JVal → Nat
  | JVal.undef => 1
  | JVal.null => 1
  | JVal.num _ => 2
  | JVal.str _ => 3
  | JVal.obj _ => 4
  | JVal.arr _ => 5
  | JVal.bool _ => 8
  | JVal.date _ => 9

/-- The order MongoDB sorts values by: by type first, then by value. Two objects,
or two arrays, are not told apart. -/
def bsonLe (a b : JVal) : Bool :=
  match a, b with
  | JVal.num x, JVal.num y => decide (x ≤ y)
  | JVal.str x, JVal.str y => !decide (y < x)
  | JVal.bool x, JVal.bool y => !x || y
  | JVal.date x, JVal.date y => decide (x ≤ y)
  | _, _ => decide (bsonRank a ≤ bsonRank b)

/-- The cursor modifier `.sort({ last_seen: -1 })`. -/
def sortByLastSeenDesc (devices : List Device) : List Device :=
  devices.insertionSort (fun a b => bsonLe b.last_seen a.last_seen = true)

/-- The answer of `GET /`: the HTTP status and, when the body has one, the list
`devices`, each document with the `isOnline` flag computed for it. -/
structure ListOutcome where
  status : Nat
  devices : Option (List (Device × Bool))
  deriving DecidableEq, Repr

/-- The conditions `query.$or` built from the caller's prefixes: one
`{ device_name: { $regex: new RegExp('^' + escapeRegExp(prefix), 'i') } }` per prefix,
given by the source of its regular expression. -/
def prefixPatterns (prefixes : List (List Char)) : List (List Char) :=
  prefixes.map (fun p => '^' :: escapeRegExp p)

/-- Whether a document satisfies `{ $or: [...] }` over the prefix conditions. -/
def satisfiesPrefixQuery (lib : Lib) (patterns : List (List Char)) (d : Device) : Bool :=
  patterns.any (fun source => matchesRegex lib source d.device_name)

/-- Whether a document satisfies `searchQuery`: the search term, used as a regular
expression with the option `i`, matches device_name, serial_number or imei. -/
def satisfiesSearchQuery (lib : Lib) (searchTerm : List Char) (d : Device) : Bool :=
  matchesRegex lib searchTerm d.device_name || matchesRegex lib searchTerm d.serial_number ||
    matchesRegex lib searchTerm d.imei

/-- The end of the handler: sort the documents found, compute `isOnline` (last
seen less than 5 minutes ago) for each and answer 200. -/
def respondWithDevices (env : Env) (now : Int) (found : List Device) : ListOutcome :=
  { status := 200
    devices := some ((sortByLastSeenDesc found).map (fun device =>
      (device, (newDate env device.last_seen).any
        (fun lastSeen => decide (now - lastSeen < 5 * 60 * 1000))))) }

/-- The part of the handler after the prefix filter was built. `orConditions` is
`query.$or`, if set. With a search term and `query.$or` set, the handler assigns
`query.$and = [query, searchQuery]`: the query then contains itself, `Device.find`
throws on it and the `catch` answers 500. -/
def findDevices (lib : Lib) (env : Env) (now : Int) (orConditions : Option (List (List Char)))
    (search : Option String) (devices : List Device) : ListOutcome :=
  let searching :=
    match search with
    | some text => text != ""
    | none => false
  if searching then
    let searchTerm := trim ((search.getD "").toList)
    match orConditions with
    | some _ => { status := 500, devices := none }
    | none =>
      if lib.regexValid searchTerm then
        respondWithDevices env now (devices.filter (satisfiesSearchQuery lib searchTerm))
      else { status := 500, devices := none }
  else
    match orConditions with
    | some patterns =>
      respondWithDevices env now (devices.filter (satisfiesPrefixQuery lib patterns))
    | none => respondWithDevices env now devices

/-- The handler of `GET /` for the caller `user`, with `search` the query
parameter `req.query.search`. -/
def getDevices (lib : Lib) (env : Env) (now : Int) (user : User) (search : Option String)
    (devices : List Device) : ListOutcome :=
  if user.role = "user" then
    match user.sector with
    | none => { status := 403, devices := none }
    | some sector =>
      if sector = "" ∨ trim sector.toList = [] then { status := 403, devices := none }
      else
        let prefixes :=
          ((split ',' sector.toList).map trim).filter (fun p => decide (p.length > 0))
        if prefixes.length = 0 then { status := 200, devices := some [] }
        else findDevices lib env now (some (prefixPatterns prefixes)) search devices
  else findDevices lib env now none search devices

/-! ## Commands (`routes/deviceRoutes.js`, `POST /commands` and `POST /command-result`) -/

/-- Modelled from the spec: `models/Command.js` is not part of the sources. A
`Command` document holds its `_id`, the target device name and serial number, the
command kind, the parameters `packageName` and `apkUrl`, the status, the result,
the issuing user, the creation time and the execution time (`none` until a result
is reported). -/
structure Command where
  _id : String
  device_name : JVal := JVal.undef
  serial_number : JVal := JVal.undef
  command : JVal := JVal.undef
  packageName : JVal := JVal.undef
  apkUrl : JVal := JVal.undef
  status : JVal := JVal.undef
  result : JVal := JVal.undef
  createdBy : String := ""
  createdAt : Int := 0
  executedAt : Option Int := none
  deriving DecidableEq, Repr

/-- The two collections the command handlers read and write. -/
structure Db where
  devices : List Device
  commands : List Command
  deriving DecidableEq, Repr

/-- The properties `POST /commands` reads from `req.body`. -/
structure CommandRequest where
  serial_number : JVal := JVal.undef
  command : JVal := JVal.undef
  device_name : JVal := JVal.undef
  packageName : JVal := JVal.undef
  apkUrl : JVal := JVal.undef
  maintenance_status : JVal := JVal.undef
  maintenance_ticket : JVal := JVal.undef
  maintenance_reason : JVal := JVal.undef
  deriving DecidableEq, Repr

/-- The properties `POST /command-result` reads from `req.body`. -/
structure ResultReport where
  command_id : JVal := JVal.undef
  serial_number : JVal := JVal.undef
  success : JVal := JVal.undef
  result : JVal := JVal.undef
  error_message : JVal := JVal.undef
  deriving DecidableEq, Repr

/-- The HTTP status a command handler answers with, and the collections
afterwards. -/
structure CommandOutcome where
  status : Nat
  db : Db
  deriving DecidableEq, Repr

/-- The check `req.user.role === 'user' && !matchesUserPrefixes(device.device_name,
req.user.sector)` of the single-device handlers; `none` when it throws. -/
def outsidePrefixes (lib : Lib) (user : User) (device : Device) : Option Bool :=
  if user.role = "user" then
    (matchesUserPrefixes lib device.device_name user.sector).map (fun inside => !inside)
  else some false

/-- The update `POST /commands` makes for the command 'set_maintenance'. -/
def setMaintenance (body : CommandRequest) (d : Device) : Device :=
  { d with
    maintenance_status :=
      JVal.bool (decide (body.maintenance_status = JVal.str "true" ∨
        body.maintenance_status = JVal.bool true))
    maintenance_ticket := body.maintenance_ticket.orElse JVal.null
    maintenance_reason := body.maintenance_reason.orElse JVal.null }

/-- The handler of `POST /commands` for the caller `user`, when the clock reads
`now`; `newId` is the `_id` a created Command gets. The handler declares
validators but never reads their result. -/
def postCommands (lib : Lib) (now : Int) (newId : String) (user : User)
    (body : CommandRequest) (db : Db) : CommandOutcome :=
  match findOne db.devices body.serial_number with
  | none => { status := 404, db := db }
  | some device =>
    match outsidePrefixes lib user device with
    | none => { status := 500, db := db }
    | some true => { status := 403, db := db }
    | some false =>
      if body.command = JVal.str "set_maintenance" then
        { status := 200
          db := { db with
            devices := updateFirst (fun d => d.serial_number == body.serial_number)
              (setMaintenance body) db.devices } }
      else
        { status := 200
          db := { db with
            commands := db.commands ++
              [{ _id := newId
                 device_name := body.device_name.orElse device.device_name
                 serial_number := body.serial_number
                 command := body.command
                 packageName := body.packageName
                 apkUrl := body.apkUrl
                 status := JVal.str "sent"
                 createdBy := user.username
                 createdAt := now }] } }

/-- The update of `POST /command-result`: `{ status: success ? 'completed' :
'failed', result: result || error_message, executedAt: new Date() }`. -/
def resolveCommand (now : Int) (report : ResultReport) (c : Command) : Command :=
  { c with
    status := JVal.str (if report.success.truthy then "completed" else "failed")
    result := report.result.orElse report.error_message
    executedAt := some now }

/-- Applies `f` to the first Command that satisfies `p`. -/
def updateFirstCommand (p : Command → Bool) (f : Command → Command) :
    List Command → List Command
  | [] => []
  | c :: cs => if p c then f c :: cs else c :: updateFirstCommand p f cs

/-- The greatest `createdAt` among the Commands that satisfy `p`. -/
def latestCreatedAt (p : Command → Bool) : List Command → Option Int
  | [] => none
  | c :: cs =>
    match latestCreatedAt p cs with
    | none => if p c then some c.createdAt else none
    | some t => if p c && decide (t < c.createdAt) then some c.createdAt else some t

/-- The filter `{ serial_number, status: 'sent' }`. -/
def sentFor (serial_number : JVal) (c : Command) : Bool :=
  c.serial_number == serial_number && c.status == JVal.str "sent"

/-- The document a result report is aimed at. With a `command_id`, the Command of
that `_id` (`findByIdAndUpdate`; `none` is a `CastError`); without, the Command
`findOneAndUpdate` picks with `{ serial_number, status: 'sent' }` and
`sort: { createdAt: -1 }`: one with the greatest creation time, the first of them
in the collection when several share it. -/
def reportTarget (lib : Lib) (report : ResultReport) (commands : List Command) :
    Option (Command → Bool) :=
  if report.command_id.truthy then
    (lib.castObjectId report.command_id).map (fun id => fun c => c._id == id)
  else
    match latestCreatedAt (sentFor report.serial_number) commands with
    | some t => some (fun c => sentFor report.serial_number c && c.createdAt == t)
    | none => some (fun _ => false)

/-- The handler of `POST /command-result` for the caller `user`, when the clock
reads `now`. -/
def postCommandResult (lib : Lib) (now : Int) (user : User) (report : ResultReport)
    (db : Db) : CommandOutcome :=
  if !report.serial_number.truthy && !report.command_id.truthy then
    { status := 400, db := db }
  else
    match reportTarget lib report db.commands with
    | none => { status := 500, db := db }
    | some target =>
      match db.commands.find? target with
      | none => { status := 404, db := db }
      | some found =>
        let command := resolveCommand now report found
        let written : Db :=
          { db with
            commands := updateFirstCommand target (resolveCommand now report) db.commands }
        match findOne db.devices command.serial_number with
        | none => { status := 200, db := written }
        | some device =>
          match outsidePrefixes lib user device with
          | none => { status := 500, db := written }
          | some true => { status := 403, db := written }
          | some false => { status := 200, db := written }

/-- A run of result reports by one caller, one after the other, at the given
clock readings: the statuses answered, and the collections after the last one. -/
def postCommandResultSeq (lib : Lib) (user : User) :
    List (Int × ResultReport) → Db → List Nat × Db
  | [], db => ([], db)
  | (now, report) :: rest, db =>
    let o := postCommandResult lib now user report db
    let r := postCommandResultSeq lib user rest o.db
    (o.status :: r.1, r.2)

/-! ## IP-range resolution (`services/ipMappingService.js`) -/

/-- The constructors of the `ip-address` library followed by
`BigInt(address.bigInteger())`: the integer value of an address in text form,
`none` when the expression throws. -/
structure IpLib where
  address4 : List Char → Option Nat
  address6 : List Char → Option Nat

/-- A document of the collection `IpMapping` (`models/IpMapping.js`): a location
name and the two ends of a range, all strings. -/
structure IpMapping where
  location : String
  ipStart : String
  ipEnd : String
  deriving DecidableEq, Repr

/-- The function `ipToBigInt(ip)`; `none` is an absent (`null`) argument. -/
def ipToBigInt (iplib : IpLib) (ip : Option String) : Nat :=
  match ip with
  | none => 0
  | some ip =>
    if ip = "" then 0
    else
      let cleanedIp :=
        if "::ffff:".toList.isPrefixOf ip.toList then ip.toList.drop 7 else ip.toList
      match iplib.address4 cleanedIp with
      | some value => value
      | none =>
        match iplib.address6 cleanedIp with
        | some value => value
        | none => 0

/-- The `for` loop of `getLocationFromIp` over the mappings still to visit. -/
def scanMappings (iplib : IpLib) (clientIpNum : Nat) : List IpMapping → String
  | [] => "Localização Desconhecida"
  | mapping :: rest =>
    let startIpNum := ipToBigInt iplib (some mapping.ipStart)
    let endIpNum := ipToBigInt iplib (some mapping.ipEnd)
    if clientIpNum ≥ startIpNum ∧ clientIpNum ≤ endIpNum then mapping.location
    else scanMappings iplib clientIpNum rest

/-- The function `getLocationFromIp(clientIp)`. `found` is what
`IpMapping.find({})` yields, in the order of the store; `none` when the query
fails. -/
def getLocationFromIp (iplib : IpLib) (clientIp : Option String)
    (found : Option (List IpMapping)) : String :=
  match clientIp with
  | none => "Localização Desconhecida"
  | some ip =>
    if ip = "" then "Localização Desconhecida"
    else
      match found with
      | none => "Erro ao Mapear IP"
      | some mappings =>
        if mappings.length = 0 then "Localização Desconhecida"
        else scanMappings iplib (ipToBigInt iplib (some ip)) mappings

/-! ## Address normalisation (`controllers/totemController.js`) -/

/-- The call `.replace(/[\\[\\]]/g, '')`: the expression is a class of two
characters, the backslash and `[`, followed by a literal `]`; every such pair is
removed. -/
def removeBracketPairs : List Char → List Char
  | [] => []
  | [c] => [c]
  | c :: d :: rest =>
    if (c = '[' ∨ c = backslash) ∧ d = ']' then removeBracketPairs rest
    else c :: removeBracketPairs (d :: rest)

/-- The function `cleanIpAddress(rawIp)`; `none` is `null`. -/
def cleanIpAddress (rawIp : Option String) : Option String :=
  match rawIp with
  | none => none
  | some rawIp =>
    if rawIp = "" then none
    else if "::ffff:".toList.isPrefixOf rawIp.toList then
      some (String.mk (rawIp.toList.drop 7))
    else if rawIp.toList.contains ',' then
      some (String.mk (trim ((split ',' rawIp.toList).headD [])))
    else some (String.mk (removeBracketPairs rawIp.toList))

/-! ## The sweep under storage failures (`scripts/updateDeviceStatus.js`) -/

/-- A line the sweep writes to the log. -/
inductive LogEntry where
  | markedOffline (count : Nat)
  | markedUnmonitored (count : Nat)
  | nothingToUpdate
  | error
  deriving DecidableEq, Repr

/-- A call of `Device.updateMany` that throws after it has written the first
`written` documents that match: the collection it leaves behind. MongoDB does not
undo the documents an update has already written. -/
def updateManyInterrupted (filter : Device → Bool) (set : Device → Device) :
    Nat → List Device → List Device
  | _, [] => []
  | 0, ds => ds
  | written + 1, d :: ds =>
    if filter d then set d :: updateManyInterrupted filter set written ds
    else d :: updateManyInterrupted filter set (written + 1) ds

/-- What a run of the sweep leaves behind: the collection and the log. The
function has no `throw` outside its `try` block and its `catch` block only logs,
so a run always returns. -/
structure SweepRun where
  devices : List Device
  log : List LogEntry
  deriving DecidableEq, Repr

/-- The function `updateDeviceStatus` where each of the two `updateMany` calls may
fail: `fault1` (`fault2`) is `none` when the call of stage 1 (stage 2) succeeds
and `some written` when it throws after writing that many documents. The `catch`
block logs the error and returns. -/
def runUpdateDeviceStatus (now1 now2 : Int) (fault1 fault2 : Option Nat)
    (ds : List Device) : SweepRun :=
  match fault1 with
  | some written =>
    { devices := updateManyInterrupted
        (offlineFilter (now1 - OFFLINE_THRESHOLD_MINUTES * 60 * 1000)) offlineSet written ds
      log := [LogEntry.error] }
  | none =>
    let offlineResult := markOffline now1 ds
    let log1 :=
      if offlineResult.modifiedCount > 0 then
        [LogEntry.markedOffline offlineResult.modifiedCount]
      else []
    match fault2 with
    | some written =>
      { devices := updateManyInterrupted
          (unmonitoredFilter (now2 - UNMONITORED_THRESHOLD_DAYS * 24 * 60 * 60 * 1000))
          unmonitoredSet written offlineResult.devices
        log := log1 ++ [LogEntry.error] }
    | none =>
      let unmonitoredResult := markUnmonitored now2 offlineResult.devices
      let log2 :=
        if unmonitoredResult.modifiedCount > 0 then
          [LogEntry.markedUnmonitored unmonitoredResult.modifiedCount]
        else []
      let log3 :=
        if offlineResult.modifiedCount = 0 ∧ unmonitoredResult.modifiedCount = 0 then
          [LogEntry.nothingToUpdate]
        else []
      { devices := unmonitoredResult.devices, log := log1 ++ log2 ++ log3 }

/-! ## Example inputs -/

/-- The environment the repository sources give the handler: no global
`unitName` exists. The library functions are simple stand-ins: the BSSID table
knows one access point, times print as their number of milliseconds. Every
database call succeeds. -/
def sourceEnv : Env :=
  { unitName := none
    mapMacAddressRadioToLocation := fun mac =>
      if mac = JVal.str "AA:BB:CC:DD:EE:02" then
        { sector := JVal.str "Laboratorio", floor := JVal.str "2" }
      else { sector := JVal.str "Desconhecido", floor := JVal.str "Desconhecido" }
    toISOString := fun ms => toString ms
    parseDate := intOfString
    isIP := fun _ => false }

/-- The same environment with a global `unitName` defined. -/
def boundEnv : Env := { sourceEnv with unitName := some (JVal.str "Unidade A") }

/-- The environment `boundEnv` in which every `Device.findOneAndUpdate` rejects
with a duplicate-key error. -/
def duplicateKeyEnv : Env :=
  { boundEnv with upsertError := fun _ => some { code := JVal.num 11000 } }

def emptyStore : Store := { devices := [], history := [] }

/-- A minimal valid check-in of serial number SN-1 from the access point `mac`. -/
def checkIn (mac : String) : Fields :=
  { device_id := JVal.str "D1", device_name := JVal.str "LAB-07",
    serial_number := JVal.str "SN-1", mac_address_radio := JVal.str mac }

/-- A valid check-in that supplies an empty `network` and a `sector`. -/
def checkInEmptyNetwork : Fields :=
  { device_id := JVal.str "D1", device_name := JVal.str "LAB-07",
    serial_number := JVal.str "SN-1", network := JVal.str "", sector := JVal.str "Sala 3" }

/-- A valid check-in of SN-1 that supplies a battery level, a network name, the
status 'online' and a last_seen. -/
def checkInFull : Fields :=
  { device_id := JVal.str "D1", device_name := JVal.str "LAB-07",
    serial_number := JVal.str "SN-1", mac_address_radio := JVal.str "AA:BB:CC:DD:EE:02",
    battery := JVal.num 80, network := JVal.str "wifi-lab", status := JVal.str "online",
    last_seen := JVal.str "2025-01-01T00:00:00.000Z" }

/-- A valid check-in of SN-1 that carries the status 'online' and no last_seen. -/
def checkInOnline : Fields :=
  { device_id := JVal.str "D1", device_name := JVal.str "LAB-07",
    serial_number := JVal.str "SN-1", mac_address_radio := JVal.str "AA:BB:CC:DD:EE:01",
    status := JVal.str "online" }

/-- A store holding one 'offline' Device SN-1 attached to AA:BB:CC:DD:EE:01. -/
def offlineStore : Store :=
  { devices :=
      [{ device_id := JVal.str "D1", device_name := JVal.str "LAB-07",
         serial_number := JVal.str "SN-1", mac_address_radio := JVal.str "AA:BB:CC:DD:EE:01",
         status := JVal.str "offline", is_online := JVal.bool false,
         last_seen := JVal.str "0", _id := 1 }]
    history := [] }

/-- A store holding one 'Sem Monitorar' Device SN-1 attached to AA:BB:CC:DD:EE:01. -/
def unmonitoredStore : Store :=
  { devices :=
      [{ device_id := JVal.str "D1", device_name := JVal.str "LAB-07",
         serial_number := JVal.str "SN-1", mac_address_radio := JVal.str "AA:BB:CC:DD:EE:01",
         status := JVal.str "Sem Monitorar", is_online := JVal.bool false,
         last_seen := JVal.str "0", _id := 1 }]
    history := [] }

/-- A Device last seen at time 0, still marked 'online'. -/
def staleOnlineDevice : Device :=
  { status := JVal.str "online", is_online := JVal.bool true, last_seen := JVal.date 0,
    serial_number := JVal.str "SN-1" }

/-- The same Device under maintenance. -/
def staleMaintenanceDevice : Device :=
  { staleOnlineDevice with
    maintenance_status := JVal.bool true
    maintenance_ticket := JVal.str "T-1" }

/-- A Device last seen 70 minutes and last synchronised 6 days before the
instant 518400000 (6 days after time 0), still marked 'online'. -/
def staleSyncDevice : Device :=
  { status := JVal.str "online", is_online := JVal.bool true,
    last_seen := JVal.date (518400000 - 70 * 60 * 1000),
    last_sync := JVal.date (518400000 - 6 * 24 * 60 * 60 * 1000),
    maintenance_status := JVal.bool false, serial_number := JVal.str "SN-2" }

/-- A store holding one Device SN-1 that is under maintenance. -/
def maintenanceStore : Store :=
  { devices :=
      [{ device_id := JVal.str "D1", device_name := JVal.str "LAB-07",
         serial_number := JVal.str "SN-1", mac_address_radio := JVal.str "AA:BB:CC:DD:EE:01",
         status := JVal.str "online", is_online := JVal.bool true, last_seen := JVal.str "0",
         maintenance_status := JVal.bool true, maintenance_ticket := JVal.str "T-1",
         maintenance_reason := JVal.str "tela partida",
         maintenance_history := JVal.arr ["entrada T-1"], _id := 1 }]
    history := [] }

/-- A stand-in for the library functions on ASCII text: lower-casing and case
folding lower the letters A to Z, every search pattern is valid and matches
nothing, and an id is cast from the string that spells it. -/
def asciiLib : Lib :=
  { toLowerCase := fun cs => cs.map Char.toLower
    fold := Char.toLower
    regexValid := fun _ => true
    regexSearch := fun _ _ => false
    castObjectId := fun v =>
      match v with
      | JVal.str id => some id
      | _ => none }

/-- A non-administrative caller with the prefixes LAB- and HR-. -/
def labUser : User := { username := "ana", role := "user", sector := some "LAB-,HR-" }

/-- The letter U+0130, capital I with a dot above. -/
def capitalDottedI : Char := Char.ofNat 304

/-- The combining character U+0307, a dot above. -/
def combiningDot : Char := Char.ofNat 775

/-- A stand-in for the library functions in which `toLowerCase` turns the letter
U+0130 into the two characters U+0069 U+0307, as JavaScript's does, and lowers
the letters A to Z; the rest is as in `asciiLib`. -/
def dottedLib : Lib :=
  { asciiLib with
    toLowerCase := fun cs =>
      cs.flatMap (fun c => if c = capitalDottedI then ['i', combiningDot] else [c.toLower]) }

/-- A non-administrative caller whose only prefix is the letter i followed by the
combining dot above. -/
def dottedUser : User :=
  { username := "eda", role := "user", sector := some (String.mk ['i', combiningDot]) }

/-- A Device whose name is the single letter U+0130. -/
def dottedDevice : Device :=
  { device_name := JVal.str (String.mk [capitalDottedI]), serial_number := JVal.str "SN-7",
    _id := 7 }

/-- A non-administrative caller whose sector string is a single comma. -/
def commaUser : User := { username := "rui", role := "user", sector := some "," }

/-- An administrative caller. -/
def adminUser : User := { username := "root", role := "admin", sector := none }

/-- Two Devices, LAB-07 (SN-1) and IT-1 (SN-9), and two Commands still 'sent' for
SN-1, `c1` created at time 100 and `c2` at time 200, and one for SN-9. -/
def commandDb : Db :=
  { devices :=
      [{ device_name := JVal.str "LAB-07", serial_number := JVal.str "SN-1", _id := 1 },
       { device_name := JVal.str "IT-1", serial_number := JVal.str "SN-9", _id := 2 }]
    commands :=
      [{ _id := "c1", device_name := JVal.str "LAB-07", serial_number := JVal.str "SN-1",
         command := JVal.str "lock", status := JVal.str "sent", createdBy := "root",
         createdAt := 100 },
       { _id := "c2", device_name := JVal.str "LAB-07", serial_number := JVal.str "SN-1",
         command := JVal.str "reboot", status := JVal.str "sent", createdBy := "root",
         createdAt := 200 },
       { _id := "c9", device_name := JVal.str "IT-1", serial_number := JVal.str "SN-9",
         command := JVal.str "wipe", status := JVal.str "sent", createdBy := "root",
         createdAt := 150 }] }

/-- A result report for serial number SN-1 that names no command. -/
def reportBySerial : ResultReport :=
  { serial_number := JVal.str "SN-1", success := JVal.bool true, result := JVal.str "ok" }

/-- One Device LAB-07 (SN-1) and one Command for it that was already reported
'completed' at time 250. -/
def resolvedDb : Db :=
  { devices := [{ device_name := JVal.str "LAB-07", serial_number := JVal.str "SN-1", _id := 1 }]
    commands :=
      [{ _id := "c5", device_name := JVal.str "LAB-07", serial_number := JVal.str "SN-1",
         command := JVal.str "lock", status := JVal.str "completed", result := JVal.str "ok",
         createdBy := "root", createdAt := 100, executedAt := some 250 }] }

/-- A failure report that names the Command `c5`. -/
def reportFailureById : ResultReport :=
  { command_id := JVal.str "c5", success := JVal.bool false,
    error_message := JVal.str "timeout" }

/-- A success report that names the Command `c9`, of the Device IT-1. -/
def reportForOtherDevice : ResultReport :=
  { command_id := JVal.str "c9", success := JVal.bool true, result := JVal.str "done" }

/-- A check-in that identifies the device by its equipment ID (imei) only. -/
def checkInImeiOnly : Fields :=
  { device_id := JVal.str "D1", device_name := JVal.str "LAB-07",
    imei := JVal.str "356938035643809" }

/-- A stand-in for the `ip-address` library: the value of an IPv4 address written
as four decimal numbers from 0 to 255 separated by dots. -/
def dottedQuad (cs : List Char) : Option Nat :=
  match (split '.' cs).map (fun part => intOfString (String.mk part)) with
  | [some a, some b, some c, some d] =>
    if 0 ≤ a ∧ a ≤ 255 ∧ 0 ≤ b ∧ b ≤ 255 ∧ 0 ≤ c ∧ c ≤ 255 ∧ 0 ≤ d ∧ d ≤ 255 then
      some (((a * 256 + b) * 256 + c) * 256 + d).toNat
    else none
  | _ => none

/-- A stand-in for the `ip-address` library that knows dotted IPv4 addresses and
no IPv6 address. -/
def exampleIpLib : IpLib := { address4 := dottedQuad, address6 := fun _ => none }

/-- A stand-in for the `ip-address` library that knows dotted IPv4 addresses and
the one IPv6 address "::1", of value 1. -/
def loopbackIpLib : IpLib :=
  { address4 := dottedQuad
    address6 := fun cs => if cs = "::1".toList then some 1 else none }

/-- The ranges [10, 20] for "X" and [15, 25] for "Y", in that order. -/
def overlappingMappings : List IpMapping :=
  [{ location := "X", ipStart := "0.0.0.10", ipEnd := "0.0.0.20" },
   { location := "Y", ipStart := "0.0.0.15", ipEnd := "0.0.0.25" }]

/-- One range that starts at the address 0.0.0.0. -/
def zeroRangeMappings : List IpMapping :=
  [{ location := "Sede", ipStart := "0.0.0.0", ipEnd := "0.0.0.255" }]

/-! ## Theorems: the status sweep -/

theorem updateMany_devices (filter : Device → Bool) (set : Device → Device) (ds : List Device) :
    (updateMany filter set ds).devices = ds.map (fun d => if filter d then set d else d) := rfl

theorem updateDeviceStatus_devices (now1 now2 : Int) (ds : List Device) :
    (updateDeviceStatus now1 now2 ds).devices = ds.map (sweepDevice now1 now2) := by
  simp [updateDeviceStatus, markOffline, markUnmonitored, updateMany, sweepDevice,
    List.map_map, Function.comp_def]

theorem updateDeviceStatus_getElem? (now1 now2 : Int) (ds : List Device) (i : Nat) :
    (updateDeviceStatus now1 now2 ds).devices[i]? = (ds[i]?).map (sweepDevice now1 now2) := by
  rw [updateDeviceStatus_devices, List.getElem?_map]

theorem updateMany_of_no_match (filter : Device → Bool) (set : Device → Device)
    (ds : List Device) (h : ∀ d ∈ ds, filter d = false) :
    updateMany filter set ds = { devices := ds, modifiedCount := 0 } := by
  have h1 : ds.map (fun d => if filter d then set d else d) = ds := by
    conv_rhs => rw [← List.map_id ds]
    apply List.map_congr_left
    intro d hd
    simp [h d hd]
  have h2 : ds.filter (fun d => filter d && decide (set d ≠ d)) = [] := by
    rw [List.filter_eq_nil_iff]
    intro d hd
    simp [h d hd]
  unfold updateMany
  rw [h1, h2]
  rfl

@[simp] theorem offlineSet_status (d : Device) : (offlineSet d).status = JVal.str "offline" := rfl

@[simp] theorem offlineSet_is_online (d : Device) :
    (offlineSet d).is_online = JVal.bool false := rfl

@[simp] theorem offlineSet_last_seen (d : Device) : (offlineSet d).last_seen = d.last_seen := rfl

@[simp] theorem offlineSet_maintenance_status (d : Device) :
    (offlineSet d).maintenance_status = d.maintenance_status := rfl

@[simp] theorem unmonitoredSet_status (d : Device) :
    (unmonitoredSet d).status = JVal.str "Sem Monitorar" := rfl

@[simp] theorem unmonitoredSet_is_online (d : Device) :
    (unmonitoredSet d).is_online = d.is_online := rfl

@[simp] theorem unmonitoredSet_last_seen (d : Device) :
    (unmonitoredSet d).last_seen = d.last_seen := rfl

@[simp] theorem unmonitoredSet_maintenance_status (d : Device) :
    (unmonitoredSet d).maintenance_status = d.maintenance_status := rfl

theorem offlineFilter_iff (t : Int) (d : Device) :
    offlineFilter t d = true ↔
      d.last_seen.dateLt t = true ∧ d.status = JVal.str "online" ∧
        d.maintenance_status ≠ JVal.bool true := by
  simp [offlineFilter, and_assoc]

theorem unmonitoredFilter_iff (t : Int) (d : Device) :
    unmonitoredFilter t d = true ↔
      d.last_seen.dateLt t = true ∧ d.status = JVal.str "offline" ∧
        d.maintenance_status ≠ JVal.bool true := by
  simp [unmonitoredFilter, and_assoc]

theorem sweepDevice_eq (now1 now2 : Int) (d : Device) :
    sweepDevice now1 now2 d =
      if offlineFilter (now1 - OFFLINE_THRESHOLD_MINUTES * 60 * 1000) d then
        (if unmonitoredFilter (now2 - UNMONITORED_THRESHOLD_DAYS * 24 * 60 * 60 * 1000)
            (offlineSet d) then unmonitoredSet (offlineSet d) else offlineSet d)
      else
        (if unmonitoredFilter (now2 - UNMONITORED_THRESHOLD_DAYS * 24 * 60 * 60 * 1000) d
          then unmonitoredSet d else d) := by
  unfold sweepDevice
  by_cases h : offlineFilter (now1 - OFFLINE_THRESHOLD_MINUTES * 60 * 1000) d = true
  · simp only [h, if_true]
  · simp only [h]
    rfl

theorem sweepDevice_maintenance (now1 now2 : Int) (d : Device)
    (hm : d.maintenance_status = JVal.bool true) : sweepDevice now1 now2 d = d := by
  have h1 : ∀ t, offlineFilter t d = false := by
    intro t
    simp [offlineFilter, hm]
  have h2 : ∀ t, unmonitoredFilter t d = false := by
    intro t
    simp [unmonitoredFilter, hm]
  rw [sweepDevice_eq, h1, h2]
  rfl

theorem offlineFilter_sweepDevice (now1 now2 : Int) (d : Device) :
    offlineFilter (now1 - OFFLINE_THRESHOLD_MINUTES * 60 * 1000) (sweepDevice now1 now2 d)
      = false := by
  rw [sweepDevice_eq]
  generalize now1 - OFFLINE_THRESHOLD_MINUTES * 60 * 1000 = a
  generalize now2 - UNMONITORED_THRESHOLD_DAYS * 24 * 60 * 60 * 1000 = b
  by_cases h1 : offlineFilter a d = true
  · rw [if_pos h1]
    by_cases h2 : unmonitoredFilter b (offlineSet d) = true
    · rw [if_pos h2]
      simp [offlineFilter]
    · rw [if_neg h2]
      simp [offlineFilter]
  · rw [if_neg h1]
    by_cases h2 : unmonitoredFilter b d = true
    · rw [if_pos h2]
      simp [offlineFilter]
    · rw [if_neg h2]
      simpa using h1

theorem unmonitoredFilter_sweepDevice (now1 now2 : Int) (d : Device) :
    unmonitoredFilter (now2 - UNMONITORED_THRESHOLD_DAYS * 24 * 60 * 60 * 1000)
      (sweepDevice now1 now2 d) = false := by
  rw [sweepDevice_eq]
  generalize now1 - OFFLINE_THRESHOLD_MINUTES * 60 * 1000 = a
  generalize now2 - UNMONITORED_THRESHOLD_DAYS * 24 * 60 * 60 * 1000 = b
  by_cases h1 : offlineFilter a d = true
  · rw [if_pos h1]
    by_cases h2 : unmonitoredFilter b (offlineSet d) = true
    · rw [if_pos h2]
      simp [unmonitoredFilter]
    · rw [if_neg h2]
      simpa using h2
  · rw [if_neg h1]
    by_cases h2 : unmonitoredFilter b d = true
    · rw [if_pos h2]
      simp [unmonitoredFilter]
    · rw [if_neg h2]
      simpa using h2

/-- C5. One run of the sweep at clock value `now`: an 'online' Device that is not
in maintenance and whose last_seen is strictly earlier than now minus 60 minutes
is no longer 'online' afterwards and has is_online = false, and it is 'offline'
when its last_seen is not older than now minus 5 days; an 'online' Device whose
last_seen is not earlier than now minus 60 minutes is left unchanged; a Device
last seen 70 minutes ago becomes 'offline'. -/
theorem sweep_demotes_stale_online (now : Int) (ds : List Device) (i : Nat) (d : Device)
    (hd : ds[i]? = some d) (hs : d.status = JVal.str "online") :
    ∃ d', (updateDeviceStatus now now ds).devices[i]? = some d' ∧
      (∀ ms, d.last_seen = JVal.date ms → ms < now - 60 * 60 * 1000 →
        d.maintenance_status ≠ JVal.bool true →
          d'.status ≠ JVal.str "online" ∧ d'.is_online = JVal.bool false ∧
          (now - 5 * 24 * 60 * 60 * 1000 ≤ ms → d'.status = JVal.str "offline")) ∧
      ((∀ ms, d.last_seen = JVal.date ms → now - 60 * 60 * 1000 ≤ ms) → d' = d) ∧
      (d.last_seen = JVal.date (now - 70 * 60 * 1000) →
        d.maintenance_status ≠ JVal.bool true → d'.status = JVal.str "offline") := by
  refine ⟨sweepDevice now now d, ?_, ?_, ?_, ?_⟩
  · rw [updateDeviceStatus_getElem?, hd]
    rfl
  · intro ms hms hlt hm
    have h1 : offlineFilter (now - OFFLINE_THRESHOLD_MINUTES * 60 * 1000) d = true := by
      rw [offlineFilter_iff]
      refine ⟨?_, hs, hm⟩
      simp only [hms, JVal.dateLt, OFFLINE_THRESHOLD_MINUTES, decide_eq_true_eq]
      exact hlt
    rw [sweepDevice_eq, if_pos h1]
    by_cases h2 : unmonitoredFilter (now - UNMONITORED_THRESHOLD_DAYS * 24 * 60 * 60 * 1000)
        (offlineSet d) = true
    · rw [if_pos h2]
      refine ⟨by simp, by simp, ?_⟩
      intro hge
      rw [unmonitoredFilter_iff] at h2
      have h3 := h2.1
      simp only [offlineSet_last_seen, hms, JVal.dateLt, UNMONITORED_THRESHOLD_DAYS,
        decide_eq_true_eq] at h3
      omega
    · rw [if_neg h2]
      exact ⟨by simp, by simp, fun _ => by simp⟩
  · intro hge
    have h1 : offlineFilter (now - OFFLINE_THRESHOLD_MINUTES * 60 * 1000) d = false := by
      rw [Bool.eq_false_iff, Ne, offlineFilter_iff]
      rintro ⟨h, -, -⟩
      cases hls : d.last_seen <;> simp only [hls, JVal.dateLt, decide_eq_true_eq] at h <;>
        try exact Bool.noConfusion h
      have := hge _ hls
      simp only [OFFLINE_THRESHOLD_MINUTES] at h
      omega
    have h2 : unmonitoredFilter (now - UNMONITORED_THRESHOLD_DAYS * 24 * 60 * 60 * 1000) d
        = false := by
      simp [unmonitoredFilter, hs]
    rw [sweepDevice_eq, h1, h2]
    rfl
  · intro hls hm
    have h1 : offlineFilter (now - OFFLINE_THRESHOLD_MINUTES * 60 * 1000) d = true := by
      rw [offlineFilter_iff]
      refine ⟨?_, hs, hm⟩
      simp only [hls, JVal.dateLt, OFFLINE_THRESHOLD_MINUTES, decide_eq_true_eq]
      omega
    have h2 : unmonitoredFilter (now - UNMONITORED_THRESHOLD_DAYS * 24 * 60 * 60 * 1000)
        (offlineSet d) = false := by
      rw [Bool.eq_false_iff, Ne, unmonitoredFilter_iff]
      rintro ⟨h, -, -⟩
      simp only [offlineSet_last_seen, hls, JVal.dateLt, UNMONITORED_THRESHOLD_DAYS,
        decide_eq_true_eq] at h
      omega
    rw [sweepDevice_eq, if_pos h1, h2]
    rfl

theorem sweep_demotes_stale_online_witness :
    ∃ d', (updateDeviceStatus 4200000 4200000 [staleOnlineDevice]).devices[0]? = some d' ∧
      (∀ ms, staleOnlineDevice.last_seen = JVal.date ms → ms < 4200000 - 60 * 60 * 1000 →
        staleOnlineDevice.maintenance_status ≠ JVal.bool true →
          d'.status ≠ JVal.str "online" ∧ d'.is_online = JVal.bool false ∧
          (4200000 - 5 * 24 * 60 * 60 * 1000 ≤ ms → d'.status = JVal.str "offline")) ∧
      ((∀ ms, staleOnlineDevice.last_seen = JVal.date ms → 4200000 - 60 * 60 * 1000 ≤ ms) →
        d' = staleOnlineDevice) ∧
      (staleOnlineDevice.last_seen = JVal.date (4200000 - 70 * 60 * 1000) →
        staleOnlineDevice.maintenance_status ≠ JVal.bool true →
          d'.status = JVal.str "offline") :=
  sweep_demotes_stale_online 4200000 [staleOnlineDevice] 0 staleOnlineDevice rfl rfl

/-- C7. Maintenance override: a run of the sweep, whatever the two clock readings
and however old last_seen is, leaves every Device whose maintenance_status is true
completely unchanged. -/
theorem sweep_skips_maintenance (now1 now2 : Int) (ds : List Device) (i : Nat) (d : Device)
    (hd : ds[i]? = some d) (hm : d.maintenance_status = JVal.bool true) :
    (updateDeviceStatus now1 now2 ds).devices[i]? = some d ∧
      (markOffline now1 ds).devices[i]? = some d := by
  constructor
  · rw [updateDeviceStatus_getElem?, hd, Option.map_some', sweepDevice_maintenance _ _ _ hm]
  · have h1 : offlineFilter (now1 - OFFLINE_THRESHOLD_MINUTES * 60 * 1000) d = false := by
      simp [offlineFilter, hm]
    simp only [markOffline, updateMany_devices, List.getElem?_map, hd, Option.map_some', h1]
    rfl

theorem sweep_skips_maintenance_witness :
    (updateDeviceStatus 864000000 864000000
        [staleOnlineDevice, staleMaintenanceDevice]).devices[1]? = some staleMaintenanceDevice ∧
      (markOffline 864000000 [staleOnlineDevice, staleMaintenanceDevice]).devices[1]?
        = some staleMaintenanceDevice :=
  sweep_skips_maintenance 864000000 864000000 [staleOnlineDevice, staleMaintenanceDevice] 1
    staleMaintenanceDevice rfl rfl

/-- C8. The sweep only ever demotes. For every collection and clock readings,
each of the two stages changes a Device's status only along online -> offline
(stage 1) or offline -> 'Sem Monitorar' (stage 2); a Device that is 'online'
after the run was not touched; a Device whose status is 'unknown' or
'Sem Monitorar' is not changed; and no field other than status and is_online is
modified. -/
theorem sweep_only_demotes (now1 now2 : Int) (ds : List Device) (i : Nat) (d : Device)
    (hd : ds[i]? = some d) :
    ∃ d1 d2, (markOffline now1 ds).devices[i]? = some d1 ∧
      (markUnmonitored now2 (markOffline now1 ds).devices).devices[i]? = some d2 ∧
      (updateDeviceStatus now1 now2 ds).devices[i]? = some d2 ∧
      (d1 = d ∨ (d.status = JVal.str "online" ∧ d1.status = JVal.str "offline")) ∧
      (d2 = d1 ∨ (d1.status = JVal.str "offline" ∧ d2.status = JVal.str "Sem Monitorar")) ∧
      (d2.status = JVal.str "online" → d2 = d) ∧
      (d.status = JVal.str "unknown" ∨ d.status = JVal.str "Sem Monitorar" → d2 = d) ∧
      { d2 with status := d.status, is_online := d.is_online } = d := by
  generalize ha : now1 - OFFLINE_THRESHOLD_MINUTES * 60 * 1000 = a
  generalize hb : now2 - UNMONITORED_THRESHOLD_DAYS * 24 * 60 * 60 * 1000 = b
  have e1 : (markOffline now1 ds).devices[i]?
      = some (if offlineFilter a d then offlineSet d else d) := by
    simp only [markOffline, updateMany_devices, List.getElem?_map, hd, Option.map_some', ha]
  have e2 : ∀ d1, (markOffline now1 ds).devices[i]? = some d1 →
      (markUnmonitored now2 (markOffline now1 ds).devices).devices[i]?
        = some (if unmonitoredFilter b d1 then unmonitoredSet d1 else d1) := by
    intro d1 h
    simp only [markUnmonitored, updateMany_devices, List.getElem?_map, h, Option.map_some', hb]
  refine ⟨_, _, e1, e2 _ e1, e2 _ e1, ?_⟩
  by_cases h1 : offlineFilter a d = true
  · rw [if_pos h1]
    have hs := ((offlineFilter_iff a d).1 h1).2.1
    by_cases h2 : unmonitoredFilter b (offlineSet d) = true
    · rw [if_pos h2]
      refine ⟨Or.inr ⟨hs, rfl⟩, Or.inr ⟨rfl, rfl⟩, ?_, ?_, ?_⟩
      · simp
      · rw [hs]
        simp
      · rfl
    · rw [if_neg h2]
      refine ⟨Or.inr ⟨hs, rfl⟩, Or.inl rfl, ?_, ?_, ?_⟩
      · simp
      · rw [hs]
        simp
      · rfl
  · rw [if_neg h1]
    by_cases h2 : unmonitoredFilter b d = true
    · rw [if_pos h2]
      have hs := ((unmonitoredFilter_iff b d).1 h2).2.1
      refine ⟨Or.inl rfl, Or.inr ⟨hs, rfl⟩, ?_, ?_, ?_⟩
      · simp
      · rw [hs]
        simp
      · rfl
    · rw [if_neg h2]
      exact ⟨Or.inl rfl, Or.inl rfl, fun _ => rfl, fun _ => rfl, rfl⟩

theorem sweep_only_demotes_witness :
    ∃ d1 d2, (markOffline 864000000 [staleOnlineDevice]).devices[0]? = some d1 ∧
      (markUnmonitored 864000000 (markOffline 864000000 [staleOnlineDevice]).devices).devices[0]?
        = some d2 ∧
      (updateDeviceStatus 864000000 864000000 [staleOnlineDevice]).devices[0]? = some d2 ∧
      (d1 = staleOnlineDevice ∨
        (staleOnlineDevice.status = JVal.str "online" ∧ d1.status = JVal.str "offline")) ∧
      (d2 = d1 ∨ (d1.status = JVal.str "offline" ∧ d2.status = JVal.str "Sem Monitorar")) ∧
      (d2.status = JVal.str "online" → d2 = staleOnlineDevice) ∧
      (staleOnlineDevice.status = JVal.str "unknown" ∨
        staleOnlineDevice.status = JVal.str "Sem Monitorar" → d2 = staleOnlineDevice) ∧
      { d2 with status := staleOnlineDevice.status, is_online := staleOnlineDevice.is_online }
        = staleOnlineDevice :=
  sweep_only_demotes 864000000 864000000 [staleOnlineDevice] 0 staleOnlineDevice rfl

/-- C9. The sweep is idempotent: running it a second time with the same clock
readings (in particular twice at the same instant now) yields the same
collection as running it once, and the second run reports zero rows changed for
both transition kinds. -/
theorem sweep_idempotent (now1 now2 : Int) (ds : List Device) :
    updateDeviceStatus now1 now2 (updateDeviceStatus now1 now2 ds).devices =
      { devices := (updateDeviceStatus now1 now2 ds).devices
        offlineCount := 0
        unmonitoredCount := 0 } := by
  have h1 : markOffline now1 (updateDeviceStatus now1 now2 ds).devices =
      { devices := (updateDeviceStatus now1 now2 ds).devices, modifiedCount := 0 } := by
    apply updateMany_of_no_match
    intro d hd
    rw [updateDeviceStatus_devices, List.mem_map] at hd
    obtain ⟨d0, -, rfl⟩ := hd
    exact offlineFilter_sweepDevice now1 now2 d0
  have h2 : markUnmonitored now2 (updateDeviceStatus now1 now2 ds).devices =
      { devices := (updateDeviceStatus now1 now2 ds).devices, modifiedCount := 0 } := by
    apply updateMany_of_no_match
    intro d hd
    rw [updateDeviceStatus_devices, List.mem_map] at hd
    obtain ⟨d0, -, rfl⟩ := hd
    exact unmonitoredFilter_sweepDevice now1 now2 d0
  generalize hr : (updateDeviceStatus now1 now2 ds).devices = r at h1 h2
  simp only [updateDeviceStatus, h1, h2]

/-- C6 (counterexample). Swept at the instant 518400000, an 'online' Device not
in maintenance, last seen 70 minutes and last synchronised 6 days earlier, ends
'offline' and not 'Sem Monitorar'. -/
theorem sweep_last_sync_counterexample :
    staleSyncDevice.last_seen = JVal.date (518400000 - 70 * 60 * 1000) ∧
      staleSyncDevice.last_sync = JVal.date (518400000 - 6 * 24 * 60 * 60 * 1000) ∧
      (updateDeviceStatus 518400000 518400000 [staleSyncDevice]).devices =
        [{ staleSyncDevice with status := JVal.str "offline", is_online := JVal.bool false }] ∧
      ((updateDeviceStatus 518400000 518400000 [staleSyncDevice]).devices.map
        (fun d => d.status)) ≠ [JVal.str "Sem Monitorar"] := by
  refine ⟨rfl, rfl, ?_, ?_⟩
  · decide
  · decide

/-- C6 (amended). For every Device that is not in maintenance, has status
'online' and last_seen = now minus 70 minutes, sweeping at time now moves it to
'offline' with is_online = false and no further, whatever its last_sync is; and
for any Device, a run that leaves it 'Sem Monitorar' when it was not before
found its last_seen, not its last_sync, older than now minus 5 days. -/
theorem sweep_unmonitored_needs_last_seen (now : Int) (ds : List Device) (i : Nat) (d : Device)
    (hd : ds[i]? = some d) :
    ∃ d', (updateDeviceStatus now now ds).devices[i]? = some d' ∧
      (d.status = JVal.str "online" → d.maintenance_status ≠ JVal.bool true →
        d.last_seen = JVal.date (now - 70 * 60 * 1000) →
          d' = { d with status := JVal.str "offline", is_online := JVal.bool false }) ∧
      (d'.status = JVal.str "Sem Monitorar" → d.status ≠ JVal.str "Sem Monitorar" →
        ∃ ms, d.last_seen = JVal.date ms ∧ ms < now - 5 * 24 * 60 * 60 * 1000) := by
  refine ⟨sweepDevice now now d, ?_, ?_, ?_⟩
  · rw [updateDeviceStatus_getElem?, hd]
    rfl
  · intro hs hm hls
    have h1 : offlineFilter (now - OFFLINE_THRESHOLD_MINUTES * 60 * 1000) d = true := by
      rw [offlineFilter_iff]
      refine ⟨?_, hs, hm⟩
      simp only [hls, JVal.dateLt, OFFLINE_THRESHOLD_MINUTES, decide_eq_true_eq]
      omega
    have h2 : unmonitoredFilter (now - UNMONITORED_THRESHOLD_DAYS * 24 * 60 * 60 * 1000)
        (offlineSet d) = false := by
      rw [Bool.eq_false_iff, Ne, unmonitoredFilter_iff]
      rintro ⟨h, -, -⟩
      simp only [offlineSet_last_seen, hls, JVal.dateLt, UNMONITORED_THRESHOLD_DAYS,
        decide_eq_true_eq] at h
      omega
    rw [sweepDevice_eq, if_pos h1, h2]
    rfl
  · intro hs' hs
    have key : ∀ x : Device, x.last_seen = d.last_seen →
        unmonitoredFilter (now - UNMONITORED_THRESHOLD_DAYS * 24 * 60 * 60 * 1000) x = true →
        ∃ ms, d.last_seen = JVal.date ms ∧ ms < now - 5 * 24 * 60 * 60 * 1000 := by
      intro x hx h
      rw [unmonitoredFilter_iff, hx] at h
      have h3 := h.1
      cases hls : d.last_seen <;> simp only [hls, JVal.dateLt, decide_eq_true_eq] at h3 <;>
        try exact Bool.noConfusion h3
      exact ⟨_, rfl, by simpa [UNMONITORED_THRESHOLD_DAYS] using h3⟩
    rw [sweepDevice_eq] at hs'
    by_cases h1 : offlineFilter (now - OFFLINE_THRESHOLD_MINUTES * 60 * 1000) d = true
    · rw [if_pos h1] at hs'
      by_cases h2 : unmonitoredFilter (now - UNMONITORED_THRESHOLD_DAYS * 24 * 60 * 60 * 1000)
          (offlineSet d) = true
      · exact key (offlineSet d) rfl h2
      · rw [if_neg h2] at hs'
        simp at hs'
    · rw [if_neg h1] at hs'
      by_cases h2 : unmonitoredFilter (now - UNMONITORED_THRESHOLD_DAYS * 24 * 60 * 60 * 1000)
          d = true
      · exact key _ rfl h2
      · rw [if_neg h2] at hs'
        exact absurd hs' hs

theorem sweep_unmonitored_needs_last_seen_witness :
    ∃ d', (updateDeviceStatus 518400000 518400000 [staleSyncDevice]).devices[0]? = some d' ∧
      (staleSyncDevice.status = JVal.str "online" →
        staleSyncDevice.maintenance_status ≠ JVal.bool true →
        staleSyncDevice.last_seen = JVal.date (518400000 - 70 * 60 * 1000) →
          d' = { staleSyncDevice with
                 status := JVal.str "offline"
                 is_online := JVal.bool false }) ∧
      (d'.status = JVal.str "Sem Monitorar" →
        staleSyncDevice.status ≠ JVal.str "Sem Monitorar" →
        ∃ ms, staleSyncDevice.last_seen = JVal.date ms ∧
          ms < 518400000 - 5 * 24 * 60 * 60 * 1000) :=
  sweep_unmonitored_needs_last_seen 518400000 [staleSyncDevice] 0 staleSyncDevice rfl

/-! ## Theorems: the check-in handler -/

theorem postData_invalid (env : Env) (now : Int) (body : Fields) (st : Store)
    (hv : validationErrors env body ≠ []) :
    postData env now body st = { status := 400, store := st } := by
  unfold postData
  have : (validationErrors env body).isEmpty = false := by
    cases h : validationErrors env body with
    | nil => exact absurd h hv
    | cons a l => rfl
  simp [this]

theorem postData_unbound (env : Env) (now : Int) (body : Fields) (st : Store)
    (hv : validationErrors env body = []) (hu : env.unitName = none) :
    postData env now body st = { status := 500, store := st } := by
  unfold postData
  simp [hv, deviceData, hu]

theorem catchStatus_ne_200 (err : DbError) : catchStatus err ≠ 200 := by
  unfold catchStatus
  split <;> decide

/-- A check-in is answered 200 only when the payload passed validation and
`unitName` is bound. -/
theorem postData_status_200 (env : Env) (now : Int) (body : Fields) (st : Store)
    (h : (postData env now body st).status = 200) :
    validationErrors env body = [] ∧ ∃ u, env.unitName = some u := by
  by_cases hv : validationErrors env body = []
  · cases hu : env.unitName with
    | none =>
      rw [postData_unbound env now body st hv hu] at h
      simp at h
    | some u => exact ⟨hv, u, rfl⟩
  · rw [postData_invalid env now body st hv] at h
    simp at h

/-- What a check-in that is answered 200 leaves behind: the upsert of
`deviceData`, and the history with one more entry when a row of the serial
number existed with another attachment identifier. -/
theorem postData_eq_of_200 (env : Env) (now : Int) (body : Fields) (st : Store) (dd : Fields)
    (h : (postData env now body st).status = 200)
    (hd : deviceData env now body
      (env.mapMacAddressRadioToLocation (body.mac_address_radio.orElse (JVal.str "N/A")))
        = Except.ok dd) :
    postData env now body st =
      { status := 200
        store :=
          { devices := findOneAndUpdate st.devices dd.serial_number dd
            history :=
              match findOne st.devices dd.serial_number with
              | some existing =>
                if existing.mac_address_radio.strictNe dd.mac_address_radio then
                  st.history ++ [historyEntry env
                    (env.mapMacAddressRadioToLocation
                      (body.mac_address_radio.orElse (JVal.str "N/A"))) dd]
                else st.history
              | none => st.history } } := by
  have hv := (postData_status_200 env now body st h).1
  unfold postData at h ⊢
  simp only [hv, List.isEmpty_nil, Bool.not_true, Bool.false_eq_true, if_false, hd] at h ⊢
  cases hf : env.findOneError now with
  | some err =>
    simp only [hf] at h
    exact absurd h (catchStatus_ne_200 err)
  | none =>
    simp only [hf] at h ⊢
    cases he : findOne st.devices dd.serial_number with
    | none =>
      simp only [he] at h ⊢
      cases hup : env.upsertError now with
      | some err =>
        simp only [hup] at h
        exact absurd h (catchStatus_ne_200 err)
      | none => rfl
    | some existing =>
      simp only [he] at h ⊢
      by_cases hne : existing.mac_address_radio.strictNe dd.mac_address_radio = true
      · simp only [hne, if_true] at h ⊢
        cases hsv : env.saveError now with
        | some err =>
          simp only [hsv] at h
          exact absurd h (catchStatus_ne_200 err)
        | none =>
          simp only [hsv] at h ⊢
          cases hup : env.upsertError now with
          | some err =>
            simp only [hup] at h
            exact absurd h (catchStatus_ne_200 err)
          | none => rfl
      · simp only [hne, Bool.false_eq_true, if_false] at h ⊢
        cases hup : env.upsertError now with
        | some err =>
          simp only [hup] at h
          exact absurd h (catchStatus_ne_200 err)
        | none => rfl

/-- When `unitName` is bound and the three database calls succeed, a valid
check-in is answered 200. -/
theorem postData_ok (env : Env) (now : Int) (body : Fields) (st : Store)
    (hv : validationErrors env body = []) (hu : ∃ u, env.unitName = some u)
    (hf : env.findOneError now = none) (hsv : env.saveError now = none)
    (hup : env.upsertError now = none) :
    (postData env now body st).status = 200 := by
  obtain ⟨u, hu⟩ := hu
  unfold postData
  simp only [hv, List.isEmpty_nil, Bool.not_true, Bool.false_eq_true, if_false, deviceData, hu,
    hf, hsv, hup]
  cases findOne st.devices (body.serial_number.orElse (JVal.str "N/A")) with
  | none => rfl
  | some existing =>
    by_cases hne : existing.mac_address_radio.strictNe
        (body.mac_address_radio.orElse (JVal.str "N/A")) = true
    · simp only [hne, if_true]
    · simp only [hne, Bool.false_eq_true, if_false]

theorem find?_updateFirst (p : Device → Bool) (f : Device → Device)
    (hf : ∀ d, p d = true → p (f d) = true) (ds : List Device) :
    (updateFirst p f ds).find? p = (ds.find? p).map f := by
  induction ds with
  | nil => rfl
  | cons d t ih =>
    by_cases hp : p d = true
    · simp [updateFirst, hp, hf d hp]
    · simp [updateFirst, hp, ih]

theorem countP_updateFirst (p : Device → Bool) (f : Device → Device)
    (hf : ∀ d, p d = true → p (f d) = true) (ds : List Device) :
    (updateFirst p f ds).countP p = ds.countP p := by
  induction ds with
  | nil => rfl
  | cons d t ih =>
    by_cases hp : p d = true
    · simp [updateFirst, hp, hf d hp, List.countP_cons]
    · simp [updateFirst, hp, ih, List.countP_cons]

/-- After the upsert, looking the serial number up finds a document that holds
exactly the properties of `deviceData`. -/
theorem findOne_findOneAndUpdate (ds : List Device) (sn : JVal) (dd : Fields)
    (h : dd.serial_number = sn) :
    findOne (findOneAndUpdate ds sn dd) sn =
      some { toFields := dd
             _id := match findOne ds sn with
               | some e => e._id
               | none => freshId ds } := by
  unfold findOneAndUpdate findOne
  by_cases hany : ds.any (fun d => d.serial_number == sn) = true
  · rw [if_pos hany, find?_updateFirst]
    · obtain ⟨x, hx⟩ := Option.isSome_iff_exists.1
        (List.find?_isSome.2 (List.any_eq_true.1 hany))
      rw [hx]
      rfl
    · intro d _
      simp [h]
  · rw [if_neg hany]
    have hnone : ds.find? (fun d => d.serial_number == sn) = none := by
      rw [List.find?_eq_none]
      intro x hx hpx
      exact hany (List.any_eq_true.2 ⟨x, hx, hpx⟩)
    rw [List.find?_append, hnone]
    simp [h]

/-- The upsert never adds a second document of a serial number: it leaves their
number as it was, or makes it one when there was none. -/
theorem countP_findOneAndUpdate (ds : List Device) (sn : JVal) (dd : Fields)
    (h : dd.serial_number = sn) :
    (findOneAndUpdate ds sn dd).countP (fun d => d.serial_number == sn) =
      max 1 (ds.countP (fun d => d.serial_number == sn)) := by
  unfold findOneAndUpdate
  by_cases hany : ds.any (fun d => d.serial_number == sn) = true
  · rw [if_pos hany, countP_updateFirst]
    · have : 0 < ds.countP (fun d => d.serial_number == sn) := by
        rw [List.countP_pos_iff]
        exact List.any_eq_true.1 hany
      omega
    · intro d _
      simp [h]
  · rw [if_neg hany]
    have h0 : ds.countP (fun d => d.serial_number == sn) = 0 := by
      rw [List.countP_eq_zero]
      intro x hx hpx
      exact hany (List.any_eq_true.2 ⟨x, hx, hpx⟩)
    rw [List.countP_append, h0]
    simp [h]

theorem deviceData_bound (env : Env) (now : Int) (data : Fields) (location : Location)
    (u : JVal) (hu : env.unitName = some u) :
    ∃ dd, deviceData env now data location = Except.ok dd ∧
      dd.serial_number = data.serial_number.orElse (JVal.str "N/A") ∧
      dd.mac_address_radio = data.mac_address_radio.orElse (JVal.str "N/A") ∧
      dd.last_seen = data.last_seen.orElse (JVal.str (env.toISOString now)) ∧
      dd.status = data.status.orElse (JVal.str "unknown") ∧
      dd.is_online = data.is_online.orElse (JVal.bool false) ∧
      dd.maintenance_status = data.maintenance_status.orElse (JVal.bool false) := by
  simp only [deviceData, hu]
  exact ⟨_, rfl, rfl, rfl, rfl, rfl, rfl, rfl⟩

theorem validationErrors_nil (env : Env) (body : Fields)
    (hv : validationErrors env body = []) :
    passes notEmpty body.serial_number = true ∧
      optionalPasses matchesMac body.mac_address_radio = true ∧
      optionalPasses (isIn ["online", "offline", "Sem Monitorar"]) body.status = true := by
  simp only [validationErrors, validators, List.map_eq_nil_iff, List.filter_eq_nil_iff] at hv
  refine ⟨?_, ?_, ?_⟩
  · have := hv ("serial_number", passes notEmpty body.serial_number) (by simp)
    simpa using this
  · have := hv ("mac_address_radio", optionalPasses matchesMac body.mac_address_radio)
      (by simp)
    simpa using this
  · have := hv ("status",
      optionalPasses (isIn ["online", "offline", "Sem Monitorar"]) body.status) (by simp)
    simpa using this

theorem matchesMac_ne_empty (a : String) (h : matchesMac a = true) : a ≠ "" := by
  rintro rfl
  simp [matchesMac] at h

theorem orElse_str (a : String) (d : JVal) (h : a ≠ "") :
    (JVal.str a).orElse d = JVal.str a := by
  simp [JVal.orElse, JVal.truthy, h]

theorem strictNe_str (a b : String) :
    (JVal.str a).strictNe (JVal.str b) = decide (a ≠ b) := by
  by_cases h : a = b
  · subst h
    simp [JVal.strictNe]
  · have : JVal.str a ≠ JVal.str b := fun e => h (JVal.str.inj e)
    simp [JVal.strictNe, h, this]

/-- One successful check-in of serial number `s` from access point `a`: the row
of `s` afterwards is attached to `a`, and the history grew by one entry exactly
when a row of `s` existed with another attachment identifier. -/
theorem postData_step (env : Env) (now : Int) (body : Fields) (st : Store) (s a : String)
    (hs : body.serial_number = JVal.str s) (hm : body.mac_address_radio = JVal.str a)
    (h : (postData env now body st).status = 200) :
    (∃ row, findOne (postData env now body st).store.devices (JVal.str s) = some row ∧
      row.mac_address_radio = JVal.str a) ∧
    (postData env now body st).store.history =
      match findOne st.devices (JVal.str s) with
      | some existing =>
        if existing.mac_address_radio.strictNe (JVal.str a) then
          st.history ++
            [{ serial_number := JVal.str s
               bssid := JVal.str a
               sector := (env.mapMacAddressRadioToLocation (JVal.str a)).sector
               floor := (env.mapMacAddressRadioToLocation (JVal.str a)).floor
               timestamp :=
                 newDate env (body.last_seen.orElse (JVal.str (env.toISOString now))) }]
        else st.history
      | none => st.history := by
  obtain ⟨hv, u, hu⟩ := postData_status_200 env now body st h
  obtain ⟨h1, h2, -⟩ := validationErrors_nil env body hv
  have hs0 : s ≠ "" := by
    rw [hs] at h1
    simpa [passes, validatedStrings, stringify, notEmpty] using h1
  have ha0 : a ≠ "" := by
    rw [hm] at h2
    apply matchesMac_ne_empty
    simpa [optionalPasses, passes, validatedStrings, stringify] using h2
  obtain ⟨dd, hd, hsn, hmac, hls, -⟩ := deviceData_bound env now body
    (env.mapMacAddressRadioToLocation (body.mac_address_radio.orElse (JVal.str "N/A"))) u hu
  rw [hs, orElse_str s _ hs0] at hsn
  rw [hm, orElse_str a _ ha0] at hmac
  rw [postData_eq_of_200 env now body st dd h hd]
  simp only
  rw [hsn, findOne_findOneAndUpdate _ _ _ hsn]
  refine ⟨⟨_, rfl, hmac⟩, ?_⟩
  rw [hmac, hm, orElse_str a _ ha0]
  simp only [historyEntry, hsn, hmac, hls]

/-! ### The check-in with the sources as they are

Nothing in the sources declares `unitName`, so the handler runs with
`env.unitName = none`: building `deviceData` throws before any database call. -/

/-- C1 (the code at the failing input). With the sources as they are, a check-in
that passes validation and supplies a battery level, a network name, a status
and a last_seen is answered 500, not 200. On an empty store no Device row is
stored under its serial number; on a store that holds a row of that serial
number, the row keeps what it held and takes none of the payload's values. -/
theorem checkin_valid_payload_source_env :
    validationErrors sourceEnv checkInFull = [] ∧
      postData sourceEnv 5 checkInFull emptyStore = { status := 500, store := emptyStore } ∧
      findOne (postData sourceEnv 5 checkInFull emptyStore).store.devices (JVal.str "SN-1")
        = none ∧
      postData sourceEnv 5 checkInFull offlineStore
        = { status := 500, store := offlineStore } ∧
      (postData sourceEnv 5 checkInFull offlineStore).store.devices.map
          (fun d => (d.serial_number, d.battery, d.network, d.status, d.last_seen))
        = [(JVal.str "SN-1", JVal.undef, JVal.undef, JVal.str "offline", JVal.str "0")] := by
  refine ⟨?_, ?_, ?_, ?_, ?_⟩ <;> decide

/-- C2 (the code at the failing input). With the sources as they are, the same
valid check-in performed twice on an empty store is answered 500 both times and
leaves no Device row with its serial number. -/
theorem checkin_twice_source_env :
    validationErrors sourceEnv (checkIn "AA:BB:CC:DD:EE:01") = [] ∧
      postDataSeq sourceEnv
          [(1, checkIn "AA:BB:CC:DD:EE:01"), (2, checkIn "AA:BB:CC:DD:EE:01")] emptyStore
        = ([500, 500], emptyStore) ∧
      (postDataSeq sourceEnv
          [(1, checkIn "AA:BB:CC:DD:EE:01"), (2, checkIn "AA:BB:CC:DD:EE:01")]
          emptyStore).2.devices.countP (fun d => d.serial_number == JVal.str "SN-1") = 0 := by
  decide

/-- C3 (the code at the failing input). With the sources as they are, a valid
check-in of SN-1 from access point AA:BB:CC:DD:EE:02, while the stored row of
SN-1 is attached to AA:BB:CC:DD:EE:01, is answered 500 and appends no
LocationHistory entry. -/
theorem checkin_changed_attachment_source_env :
    validationErrors sourceEnv (checkIn "AA:BB:CC:DD:EE:02") = [] ∧
      offlineStore.devices.map (fun d => (d.serial_number, d.mac_address_radio))
        = [(JVal.str "SN-1", JVal.str "AA:BB:CC:DD:EE:01")] ∧
      postData sourceEnv 5 (checkIn "AA:BB:CC:DD:EE:02") offlineStore
        = { status := 500, store := offlineStore } ∧
      (postData sourceEnv 5 (checkIn "AA:BB:CC:DD:EE:02") offlineStore).store.history = [] := by
  decide

/-- C4 (the code at the failing input). With the sources as they are, five valid
check-ins of SN-1 with attachment identifiers A, A, B, B, A on an empty store are
all answered 500 and leave no LocationHistory entry and no Device row. -/
theorem checkin_sequence_source_env :
    validationErrors sourceEnv (checkIn "AA:BB:CC:DD:EE:01") = [] ∧
      validationErrors sourceEnv (checkIn "AA:BB:CC:DD:EE:02") = [] ∧
      postDataSeq sourceEnv
          [(1, checkIn "AA:BB:CC:DD:EE:01"), (2, checkIn "AA:BB:CC:DD:EE:01"),
           (3, checkIn "AA:BB:CC:DD:EE:02"), (4, checkIn "AA:BB:CC:DD:EE:02"),
           (5, checkIn "AA:BB:CC:DD:EE:01")] emptyStore
        = ([500, 500, 500, 500, 500], emptyStore) ∧
      (postDataSeq sourceEnv
          [(1, checkIn "AA:BB:CC:DD:EE:01"), (2, checkIn "AA:BB:CC:DD:EE:01"),
           (3, checkIn "AA:BB:CC:DD:EE:02"), (4, checkIn "AA:BB:CC:DD:EE:02"),
           (5, checkIn "AA:BB:CC:DD:EE:01")] emptyStore).2.history.length = 0 := by
  refine ⟨?_, ?_, ?_, ?_⟩ <;> decide

/-- C10 (the code at the failing input). With the sources as they are, a Device
stored 'offline' (or 'Sem Monitorar') sends a valid check-in without last_seen,
so that last_seen would be the current time: whether the payload carries the
status 'online' or no status at all, the check-in is answered 500 and the stored
status stays 'offline' (or 'Sem Monitorar'). -/
theorem checkin_offline_source_env :
    validationErrors sourceEnv checkInOnline = [] ∧
      checkInOnline.status = JVal.str "online" ∧ checkInOnline.last_seen = JVal.undef ∧
      validationErrors sourceEnv (checkIn "AA:BB:CC:DD:EE:01") = [] ∧
      (checkIn "AA:BB:CC:DD:EE:01").status = JVal.undef ∧
      (checkIn "AA:BB:CC:DD:EE:01").last_seen = JVal.undef ∧
      postData sourceEnv 5 checkInOnline offlineStore
        = { status := 500, store := offlineStore } ∧
      postData sourceEnv 5 (checkIn "AA:BB:CC:DD:EE:01") offlineStore
        = { status := 500, store := offlineStore } ∧
      (postData sourceEnv 5 checkInOnline offlineStore).store.devices.map
          (fun d => (d.serial_number, d.status))
        = [(JVal.str "SN-1", JVal.str "offline")] ∧
      postData sourceEnv 5 checkInOnline unmonitoredStore
        = { status := 500, store := unmonitoredStore } ∧
      (postData sourceEnv 5 checkInOnline unmonitoredStore).store.devices.map
          (fun d => (d.serial_number, d.status))
        = [(JVal.str "SN-1", JVal.str "Sem Monitorar")] := by
  refine ⟨?_, ?_, ?_, ?_, ?_, ?_, ?_, ?_, ?_, ?_, ?_⟩ <;> decide

/-- C20. A routine check-in never changes maintenance state. With the sources as
they are (`unitName` is not bound), for every existing Device and every valid
check-in payload, for its serial number or for another, whatever maintenance
fields the payload carries and whether or not a database call would fail: the
check-in is answered 500, the collections are left as they were, and so the
Device's maintenance_status, maintenance_ticket, maintenance_reason and
maintenance_history after the check-in equal their values before it. -/
theorem checkin_keeps_maintenance (env : Env) (now : Int) (body : Fields) (st : Store)
    (s : String) (old : Device)
    (hu : env.unitName = none)
    (hv : validationErrors env body = [])
    (hold : findOne st.devices (JVal.str s) = some old) :
    (postData env now body st).status = 500 ∧
    (postData env now body st).store = st ∧
    ∃ row, findOne (postData env now body st).store.devices (JVal.str s) = some row ∧
      row = old ∧
      row.maintenance_status = old.maintenance_status ∧
      row.maintenance_ticket = old.maintenance_ticket ∧
      row.maintenance_reason = old.maintenance_reason ∧
      row.maintenance_history = old.maintenance_history := by
  rw [postData_unbound env now body st hv hu]
  exact ⟨rfl, rfl, old, hold, rfl, rfl, rfl, rfl, rfl⟩

theorem checkin_keeps_maintenance_witness :
    (postData sourceEnv 5 (checkIn "AA:BB:CC:DD:EE:01") maintenanceStore).status = 500 ∧
    (postData sourceEnv 5 (checkIn "AA:BB:CC:DD:EE:01") maintenanceStore).store
      = maintenanceStore ∧
    ∃ row, findOne (postData sourceEnv 5 (checkIn "AA:BB:CC:DD:EE:01")
          maintenanceStore).store.devices (JVal.str "SN-1") = some row ∧
      row =
        { device_id := JVal.str "D1", device_name := JVal.str "LAB-07",
          serial_number := JVal.str "SN-1",
          mac_address_radio := JVal.str "AA:BB:CC:DD:EE:01",
          status := JVal.str "online", is_online := JVal.bool true,
          last_seen := JVal.str "0", maintenance_status := JVal.bool true,
          maintenance_ticket := JVal.str "T-1",
          maintenance_reason := JVal.str "tela partida",
          maintenance_history := JVal.arr ["entrada T-1"], _id := 1 } ∧
      row.maintenance_status = JVal.bool true ∧
      row.maintenance_ticket = JVal.str "T-1" ∧
      row.maintenance_reason = JVal.str "tela partida" ∧
      row.maintenance_history = JVal.arr ["entrada T-1"] :=
  checkin_keeps_maintenance sourceEnv 5 (checkIn "AA:BB:CC:DD:EE:01") maintenanceStore "SN-1"
    { device_id := JVal.str "D1", device_name := JVal.str "LAB-07",
      serial_number := JVal.str "SN-1", mac_address_radio := JVal.str "AA:BB:CC:DD:EE:01",
      status := JVal.str "online", is_online := JVal.bool true, last_seen := JVal.str "0",
      maintenance_status := JVal.bool true, maintenance_ticket := JVal.str "T-1",
      maintenance_reason := JVal.str "tela partida",
      maintenance_history := JVal.arr ["entrada T-1"], _id := 1 }
    rfl (by decide) (by decide)

/-! ### What the handler is written to do once `unitName` is bound

The theorems of this part hold in every environment, but their hypothesis that a
check-in is answered 200 can only be met in one that binds `unitName`; the
closed examples are evaluated in `boundEnv`. They record what the rest of the
handler is written to do, which the sources as they are never reach. -/

/-- Whenever `POST /data` answers 200, the payload passed validation and the
Device row then stored under the payload's serial number holds, whatever was
stored before: each plain field with the payload's value when that value is
truthy and with its default otherwise, battery with the payload's value unless
that is null or absent, sector and floor as resolved from mac_address_radio, unit
as derived from `unitName`, and last_seen with the payload's last_seen when truthy
and the current time otherwise. -/
theorem postData_row (env : Env) (now : Int) (body : Fields) (st : Store)
    (h : (postData env now body st).status = 200) :
    validationErrors env body = [] ∧
    ∃ unitName row, env.unitName = some unitName ∧
      findOne (postData env now body st).store.devices
        (body.serial_number.orElse (JVal.str "N/A")) = some row ∧
      row.toFields =
        { device_name := body.device_name.orElse (JVal.str "unknown")
          device_model := body.device_model.orElse (JVal.str "N/A")
          device_id := body.device_id.orElse (JVal.str "unknown")
          serial_number := body.serial_number.orElse (JVal.str "N/A")
          imei := body.imei.orElse (JVal.str "N/A")
          battery :=
            if body.battery = JVal.undef ∨ body.battery = JVal.null then JVal.null
            else body.battery
          network := body.network.orElse (JVal.str "N/A")
          host := body.host.orElse (JVal.str "N/A")
          sector := (env.mapMacAddressRadioToLocation
            (body.mac_address_radio.orElse (JVal.str "N/A"))).sector
          floor := (env.mapMacAddressRadioToLocation
            (body.mac_address_radio.orElse (JVal.str "N/A"))).floor
          mac_address_radio := body.mac_address_radio.orElse (JVal.str "N/A")
          last_sync := body.last_sync.orElse (JVal.str "N/A")
          secure_android_id := body.secure_android_id.orElse (JVal.str "N/A")
          ip_address := body.ip_address.orElse (JVal.str "N/A")
          wifi_ipv6 := body.wifi_ipv6.orElse (JVal.str "N/A")
          wifi_gateway_ip := body.wifi_gateway_ip.orElse (JVal.str "N/A")
          wifi_broadcast := body.wifi_broadcast.orElse (JVal.str "N/A")
          wifi_submask := body.wifi_submask.orElse (JVal.str "N/A")
          last_seen := body.last_seen.orElse (JVal.str (env.toISOString now))
          unit :=
            if unitName.strictNe (JVal.str "Desconhecido") then unitName else JVal.str "N/A"
          provisioning_status := body.provisioning_status.orElse (JVal.str "N/A")
          provisioning_token := body.provisioning_token.orElse (JVal.str "N/A")
          enrollment_date := body.enrollment_date.orElse (JVal.str "N/A")
          configuration_profile := body.configuration_profile.orElse (JVal.str "N/A")
          owner_organization := body.owner_organization.orElse (JVal.str "N/A")
          compliance_status := body.compliance_status.orElse (JVal.str "unknown")
          installed_apps := body.installed_apps.orElse (JVal.arr [])
          security_policies := body.security_policies.orElse (JVal.obj [])
          status := body.status.orElse (JVal.str "unknown")
          is_online := body.is_online.orElse (JVal.bool false)
          maintenance_status := body.maintenance_status.orElse (JVal.bool false)
          maintenance_ticket := body.maintenance_ticket.orElse (JVal.str "")
          maintenance_reason := body.maintenance_reason.orElse (JVal.str "")
          maintenance_history := body.maintenance_history.orElse (JVal.arr []) } := by
  obtain ⟨hv, u, hu⟩ := postData_status_200 env now body st h
  refine ⟨hv, u, ?_⟩
  obtain ⟨dd, hd, hsn, -⟩ := deviceData_bound env now body
    (env.mapMacAddressRadioToLocation (body.mac_address_radio.orElse (JVal.str "N/A"))) u hu
  rw [postData_eq_of_200 env now body st dd h hd]
  simp only
  rw [← hsn, findOne_findOneAndUpdate _ _ _ rfl]
  refine ⟨_, hu, rfl, ?_⟩
  simp only [deviceData, hu, Except.ok.injEq] at hd
  rw [← hd]
  have hb : (if body.battery.notNullish = true then body.battery else JVal.null) =
      (if body.battery = JVal.undef ∨ body.battery = JVal.null then JVal.null
        else body.battery) := by
    cases body.battery <;> simp [JVal.notNullish]
  rw [hb]

/-- Were `unitName` bound: a payload that passes validation and supplies
network = "" and sector = "Sala 3" is answered 200, and the row stored holds the
network 'N/A' and the sector resolved from mac_address_radio, not the supplied
values. -/
theorem bound_checkin_falsy_example :
    validationErrors boundEnv checkInEmptyNetwork = [] ∧
      checkInEmptyNetwork.network = JVal.str "" ∧
      checkInEmptyNetwork.sector = JVal.str "Sala 3" ∧
      (postData boundEnv 5 checkInEmptyNetwork emptyStore).status = 200 ∧
      (postData boundEnv 5 checkInEmptyNetwork emptyStore).store.devices.map
        (fun d => (d.serial_number, d.network, d.sector))
        = [(JVal.str "SN-1", JVal.str "N/A", JVal.str "Desconhecido")] := by
  decide

/-- Were `unitName` bound: from an empty store, five check-ins of SN-1 with
attachment identifiers A, A, B, B, A are all answered 200 and leave 2
LocationHistory entries, for B and then for A. -/
theorem bound_checkin_sequence_example :
    postDataSeq boundEnv
        [(1, checkIn "AA:BB:CC:DD:EE:01"), (2, checkIn "AA:BB:CC:DD:EE:01"),
         (3, checkIn "AA:BB:CC:DD:EE:02"), (4, checkIn "AA:BB:CC:DD:EE:02"),
         (5, checkIn "AA:BB:CC:DD:EE:01")] emptyStore
      = ([200, 200, 200, 200, 200],
         { devices :=
             [{ device_name := JVal.str "LAB-07", device_model := JVal.str "N/A",
                device_id := JVal.str "D1", serial_number := JVal.str "SN-1",
                imei := JVal.str "N/A", battery := JVal.null, network := JVal.str "N/A",
                host := JVal.str "N/A", sector := JVal.str "Desconhecido",
                floor := JVal.str "Desconhecido",
                mac_address_radio := JVal.str "AA:BB:CC:DD:EE:01",
                last_sync := JVal.str "N/A", secure_android_id := JVal.str "N/A",
                ip_address := JVal.str "N/A", wifi_ipv6 := JVal.str "N/A",
                wifi_gateway_ip := JVal.str "N/A", wifi_broadcast := JVal.str "N/A",
                wifi_submask := JVal.str "N/A", last_seen := JVal.str "5",
                unit := JVal.str "Unidade A", provisioning_status := JVal.str "N/A",
                provisioning_token := JVal.str "N/A", enrollment_date := JVal.str "N/A",
                configuration_profile := JVal.str "N/A",
                owner_organization := JVal.str "N/A",
                compliance_status := JVal.str "unknown", installed_apps := JVal.arr [],
                security_policies := JVal.obj [], status := JVal.str "unknown",
                is_online := JVal.bool false, maintenance_status := JVal.bool false,
                maintenance_ticket := JVal.str "", maintenance_reason := JVal.str "",
                maintenance_history := JVal.arr [], _id := 1 }]
           history :=
             [{ serial_number := JVal.str "SN-1", bssid := JVal.str "AA:BB:CC:DD:EE:02",
                sector := JVal.str "Laboratorio", floor := JVal.str "2",
                timestamp := some 3 },
              { serial_number := JVal.str "SN-1", bssid := JVal.str "AA:BB:CC:DD:EE:01",
                sector := JVal.str "Desconhecido", floor := JVal.str "Desconhecido",
                timestamp := some 5 }] }) := by
  decide

/-- Starting from a store with no Device row for serial number `s`, five check-ins
of `s` with attachment identifiers A, A, B, B, A (A and B distinct) that are all
answered 200 add exactly 2 LocationHistory entries, one per change of
attachment: the entry of the third check-in (for B) followed by the entry of the
fifth (for A), each stamped with its check-in's last_seen. The first check-in
finds no row to compare with and adds none. -/
theorem postDataSeq_history (env : Env) (st : Store) (s a b : String)
    (t1 t2 t3 t4 t5 : Int) (p1 p2 p3 p4 p5 : Fields)
    (hab : a ≠ b) (hnew : findOne st.devices (JVal.str s) = none)
    (hs1 : p1.serial_number = JVal.str s) (hs2 : p2.serial_number = JVal.str s)
    (hs3 : p3.serial_number = JVal.str s) (hs4 : p4.serial_number = JVal.str s)
    (hs5 : p5.serial_number = JVal.str s)
    (hm1 : p1.mac_address_radio = JVal.str a) (hm2 : p2.mac_address_radio = JVal.str a)
    (hm3 : p3.mac_address_radio = JVal.str b) (hm4 : p4.mac_address_radio = JVal.str b)
    (hm5 : p5.mac_address_radio = JVal.str a)
    (hok : (postDataSeq env [(t1, p1), (t2, p2), (t3, p3), (t4, p4), (t5, p5)] st).1
      = [200, 200, 200, 200, 200]) :
    (postDataSeq env [(t1, p1), (t2, p2), (t3, p3), (t4, p4), (t5, p5)] st).2.history =
      st.history ++
        [{ serial_number := JVal.str s
           bssid := JVal.str b
           sector := (env.mapMacAddressRadioToLocation (JVal.str b)).sector
           floor := (env.mapMacAddressRadioToLocation (JVal.str b)).floor
           timestamp := newDate env (p3.last_seen.orElse (JVal.str (env.toISOString t3))) },
         { serial_number := JVal.str s
           bssid := JVal.str a
           sector := (env.mapMacAddressRadioToLocation (JVal.str a)).sector
           floor := (env.mapMacAddressRadioToLocation (JVal.str a)).floor
           timestamp := newDate env (p5.last_seen.orElse (JVal.str (env.toISOString t5))) }] := by
  simp only [postDataSeq, List.cons.injEq, and_true] at hok ⊢
  obtain ⟨h1, h2, h3, h4, h5⟩ := hok
  have hba : b ≠ a := fun e => hab e.symm
  obtain ⟨⟨r1, hr1, hr1m⟩, hh1⟩ := postData_step env t1 p1 st s a hs1 hm1 h1
  rw [hnew] at hh1
  generalize postData env t1 p1 st = o1 at *
  obtain ⟨⟨r2, hr2, hr2m⟩, hh2⟩ := postData_step env t2 p2 o1.store s a hs2 hm2 h2
  rw [hr1] at hh2
  simp only [hr1m, strictNe_str, ne_eq, not_true_eq_false, decide_False,
    Bool.false_eq_true, if_false] at hh2
  generalize postData env t2 p2 o1.store = o2 at *
  obtain ⟨⟨r3, hr3, hr3m⟩, hh3⟩ := postData_step env t3 p3 o2.store s b hs3 hm3 h3
  rw [hr2] at hh3
  simp only [hr2m, strictNe_str, ne_eq, hab, not_false_eq_true, decide_True, if_true] at hh3
  generalize postData env t3 p3 o2.store = o3 at *
  obtain ⟨⟨r4, hr4, hr4m⟩, hh4⟩ := postData_step env t4 p4 o3.store s b hs4 hm4 h4
  rw [hr3] at hh4
  simp only [hr3m, strictNe_str, ne_eq, not_true_eq_false, decide_False,
    Bool.false_eq_true, if_false] at hh4
  generalize postData env t4 p4 o3.store = o4 at *
  obtain ⟨-, hh5⟩ := postData_step env t5 p5 o4.store s a hs5 hm5 h5
  rw [hr4] at hh5
  simp only [hr4m, strictNe_str, ne_eq, hba, not_false_eq_true, decide_True, if_true] at hh5
  rw [hh5, hh4, hh3, hh2, hh1]
  simp

/-- Were `unitName` bound: a Device stored 'offline' checks in with a payload that
carries no status and no last_seen (so last_seen is the current time); the
check-in is answered 200 and the stored status afterwards is 'unknown'. -/
theorem bound_checkin_status_example :
    offlineStore.devices.map (fun d => (d.serial_number, d.status))
        = [(JVal.str "SN-1", JVal.str "offline")] ∧
      (checkIn "AA:BB:CC:DD:EE:01").status = JVal.undef ∧
      (checkIn "AA:BB:CC:DD:EE:01").last_seen = JVal.undef ∧
      (postData boundEnv 5 (checkIn "AA:BB:CC:DD:EE:01") offlineStore).status = 200 ∧
      (postData boundEnv 5 (checkIn "AA:BB:CC:DD:EE:01") offlineStore).store.devices.map
        (fun d => (d.serial_number, d.status, d.last_seen))
        = [(JVal.str "SN-1", JVal.str "unknown", JVal.str (boundEnv.toISOString 5))] := by
  decide

/-- After a check-in answered 200 for the serial number of an existing Device,
whatever its stored status was, the stored status is the payload's status when
the payload carries one and 'unknown' otherwise: it is 'online' exactly when the
payload's status is 'online'. The freshness of last_seen plays no part. -/
theorem postData_status_of_payload (env : Env) (now : Int) (body : Fields) (st : Store)
    (s : String) (old : Device)
    (hs : body.serial_number = JVal.str s) (hold : findOne st.devices (JVal.str s) = some old)
    (h : (postData env now body st).status = 200) :
    ∃ row, findOne (postData env now body st).store.devices (JVal.str s) = some row ∧
      row._id = old._id ∧
      row.status = body.status.orElse (JVal.str "unknown") ∧
      (body.status = JVal.undef → row.status = JVal.str "unknown") ∧
      (row.status = JVal.str "online" ↔ body.status = JVal.str "online") := by
  obtain ⟨hv, u, hu⟩ := postData_status_200 env now body st h
  obtain ⟨h1, -, -⟩ := validationErrors_nil env body hv
  have hs0 : s ≠ "" := by
    rw [hs] at h1
    simpa [passes, validatedStrings, stringify, notEmpty] using h1
  obtain ⟨dd, hd, hsn, -, -, hst, -⟩ := deviceData_bound env now body
    (env.mapMacAddressRadioToLocation (body.mac_address_radio.orElse (JVal.str "N/A"))) u hu
  rw [hs, orElse_str s _ hs0] at hsn
  rw [postData_eq_of_200 env now body st dd h hd]
  simp only
  rw [hsn, findOne_findOneAndUpdate _ _ _ hsn, hold]
  refine ⟨_, rfl, rfl, hst, ?_, ?_⟩
  · intro hu'
    simp only [hst, hu']
    rfl
  · simp only [hst]
    constructor
    · intro hr
      unfold JVal.orElse at hr
      by_cases ht : body.status.truthy = true
      · rw [if_pos ht] at hr
        exact hr
      · rw [if_neg ht] at hr
        simp at hr
    · intro hb
      rw [hb]
      rfl

/-- Were `unitName` bound and the upsert rejected with a duplicate-key error: the
check-in of SN-1 from another access point is answered 409, the Device rows are
as they were, and the history entry saved before the upsert stays. -/
theorem bound_checkin_duplicate_key_example :
    (postData duplicateKeyEnv 5 (checkIn "AA:BB:CC:DD:EE:02") offlineStore).status = 409 ∧
      (postData duplicateKeyEnv 5 (checkIn "AA:BB:CC:DD:EE:02") offlineStore).store.devices
        = offlineStore.devices ∧
      (postData duplicateKeyEnv 5 (checkIn "AA:BB:CC:DD:EE:02") offlineStore).store.history
        = [{ serial_number := JVal.str "SN-1", bssid := JVal.str "AA:BB:CC:DD:EE:02",
             sector := JVal.str "Laboratorio", floor := JVal.str "2", timestamp := some 5 }] := by
  refine ⟨?_, ?_, ?_⟩ <;> decide

/-- The history after a check-in that is answered 200 is the history before it,
followed by one entry exactly when a row of its serial number existed with
another attachment identifier. -/
theorem postData_history (env : Env) (now : Int) (body : Fields) (st : Store)
    (h : (postData env now body st).status = 200) :
    (postData env now body st).store.history =
      st.history ++
        (if (findOne st.devices (body.serial_number.orElse (JVal.str "N/A"))).any
              (fun existing => existing.mac_address_radio.strictNe
                (body.mac_address_radio.orElse (JVal.str "N/A"))) = true
         then
          ([{ serial_number := body.serial_number.orElse (JVal.str "N/A")
              bssid := body.mac_address_radio.orElse (JVal.str "N/A")
              sector := (env.mapMacAddressRadioToLocation
                (body.mac_address_radio.orElse (JVal.str "N/A"))).sector
              floor := (env.mapMacAddressRadioToLocation
                (body.mac_address_radio.orElse (JVal.str "N/A"))).floor
              timestamp :=
                newDate env (body.last_seen.orElse (JVal.str (env.toISOString now))) }] :
            List LocationHistory)
         else []) := by
  obtain ⟨hv, u, hu⟩ := postData_status_200 env now body st h
  obtain ⟨dd, hd, hsn, hmac, hls, -⟩ := deviceData_bound env now body
    (env.mapMacAddressRadioToLocation (body.mac_address_radio.orElse (JVal.str "N/A"))) u hu
  rw [postData_eq_of_200 env now body st dd h hd]
  simp only [hsn, hmac, historyEntry, hls]
  cases findOne st.devices (body.serial_number.orElse (JVal.str "N/A")) with
  | none => simp
  | some existing =>
    by_cases hne : existing.mac_address_radio.strictNe
        (body.mac_address_radio.orElse (JVal.str "N/A")) = true
    · simp [hne]
    · simp [hne]

/-- Replaying a check-in, both runs being answered 200: the replay adds no history
entry, leaves one row of the serial number when there was at most one before,
and leaves every field of that row but last_seen as the first run set it. The
attachment identifier is a string, or absent. -/
theorem postData_replay (env : Env) (now1 now2 : Int) (body : Fields) (st : Store)
    (hmac : body.mac_address_radio = JVal.undef ∨ ∃ a, body.mac_address_radio = JVal.str a)
    (huniq : st.devices.countP
      (fun d => d.serial_number == body.serial_number.orElse (JVal.str "N/A")) ≤ 1)
    (h : (postData env now1 body st).status = 200)
    (h2 : (postData env now2 body (postData env now1 body st).store).status = 200) :
    (postData env now2 body (postData env now1 body st).store).store.history
      = (postData env now1 body st).store.history ∧
    (postData env now2 body (postData env now1 body st).store).store.devices.countP
      (fun d => d.serial_number == body.serial_number.orElse (JVal.str "N/A")) = 1 ∧
    ∃ r1 r2,
      findOne (postData env now1 body st).store.devices
        (body.serial_number.orElse (JVal.str "N/A")) = some r1 ∧
      findOne (postData env now2 body (postData env now1 body st).store).store.devices
        (body.serial_number.orElse (JVal.str "N/A")) = some r2 ∧
      r2._id = r1._id ∧
      { r2.toFields with last_seen := r1.last_seen } = r1.toFields := by
  obtain ⟨hv, u, hu⟩ := postData_status_200 env now1 body st h
  obtain ⟨dd1, hd1, hsn1, hmac1, -⟩ := deviceData_bound env now1 body
    (env.mapMacAddressRadioToLocation (body.mac_address_radio.orElse (JVal.str "N/A"))) u hu
  obtain ⟨dd2, hd2, hsn2, hmac2, -⟩ := deviceData_bound env now2 body
    (env.mapMacAddressRadioToLocation (body.mac_address_radio.orElse (JVal.str "N/A"))) u hu
  have hdd : { dd2 with last_seen := dd1.last_seen } = dd1 := by
    simp only [deviceData, hu, Except.ok.injEq] at hd1 hd2
    rw [← hd1, ← hd2]
  have hsame : (body.mac_address_radio.orElse (JVal.str "N/A")).strictNe
      (body.mac_address_radio.orElse (JVal.str "N/A")) = false := by
    rcases hmac with hm | ⟨a, hm⟩
    · rw [hm]
      decide
    · rw [hm]
      by_cases ha : a = ""
      · subst ha
        decide
      · rw [orElse_str a _ ha, strictNe_str]
        simp
  generalize hsn : body.serial_number.orElse (JVal.str "N/A") = sn at *
  rw [postData_eq_of_200 env now1 body st dd1 h hd1] at h2 ⊢
  simp only at h2 ⊢
  rw [postData_eq_of_200 env now2 body _ dd2 h2 hd2]
  simp only [hsn1, hsn2]
  rw [findOne_findOneAndUpdate _ _ _ hsn1]
  simp only [hmac1, hmac2, hsame, Bool.false_eq_true, if_false]
  refine ⟨trivial, ?_, ?_⟩
  · rw [countP_findOneAndUpdate _ _ _ hsn2, countP_findOneAndUpdate _ _ _ hsn1]
    omega
  · rw [findOne_findOneAndUpdate _ _ _ hsn2, findOne_findOneAndUpdate _ _ _ hsn1]
    exact ⟨_, _, rfl, rfl, rfl, hdd⟩

/-- Were `unitName` bound: a Device under maintenance (status true, ticket 'T-1', a
reason, one history entry) checks in with a payload that carries no maintenance
field; the check-in is answered 200 and the upsert resets the four maintenance
fields to false, '', '' and []. -/
theorem bound_checkin_maintenance_example :
    validationErrors boundEnv (checkIn "AA:BB:CC:DD:EE:01") = [] ∧
      (checkIn "AA:BB:CC:DD:EE:01").maintenance_status = JVal.undef ∧
      maintenanceStore.devices.map
          (fun d => (d.maintenance_status, d.maintenance_ticket, d.maintenance_reason,
            d.maintenance_history))
        = [(JVal.bool true, JVal.str "T-1", JVal.str "tela partida",
            JVal.arr ["entrada T-1"])] ∧
      (postData boundEnv 5 (checkIn "AA:BB:CC:DD:EE:01") maintenanceStore).status = 200 ∧
      (postData boundEnv 5 (checkIn "AA:BB:CC:DD:EE:01") maintenanceStore).store.devices.map
          (fun d => (d.maintenance_status, d.maintenance_ticket, d.maintenance_reason,
            d.maintenance_history))
        = [(JVal.bool false, JVal.str "", JVal.str "", JVal.arr [])] := by
  decide

/-- Every check-in that is answered 200 overwrites the four maintenance fields of
the row with the payload's values, or with false, '', '' and [] where the payload
has none. -/
theorem postData_overwrites_maintenance (env : Env) (now : Int) (body : Fields) (st : Store)
    (h : (postData env now body st).status = 200) :
    ∃ row, findOne (postData env now body st).store.devices
        (body.serial_number.orElse (JVal.str "N/A")) = some row ∧
      row.maintenance_status = body.maintenance_status.orElse (JVal.bool false) ∧
      row.maintenance_ticket = body.maintenance_ticket.orElse (JVal.str "") ∧
      row.maintenance_reason = body.maintenance_reason.orElse (JVal.str "") ∧
      row.maintenance_history = body.maintenance_history.orElse (JVal.arr []) := by
  obtain ⟨hv, u, hu⟩ := postData_status_200 env now body st h
  obtain ⟨dd, hd, hsn, -⟩ := deviceData_bound env now body
    (env.mapMacAddressRadioToLocation (body.mac_address_radio.orElse (JVal.str "N/A"))) u hu
  rw [postData_eq_of_200 env now body st dd h hd]
  simp only
  rw [← hsn, findOne_findOneAndUpdate _ _ _ rfl]
  simp only [deviceData, hu, Except.ok.injEq] at hd
  refine ⟨_, rfl, ?_, ?_, ?_, ?_⟩ <;> rw [← hd]

/-! ## Theorems: the repair script -/

/-- Unlike the sweep, the repair script does read last_sync: a Device not in
maintenance, marked 'online', last seen 70 minutes and last synchronised 6 days
before `now`, is set directly to 'Sem Monitorar'. -/
theorem fixDevice_reads_last_sync (env : Env) (now : Int) (d : Device)
    (hs : d.status = JVal.str "online") (hm : d.maintenance_status.truthy = false)
    (hseen : d.last_seen = JVal.date (now - 70 * 60 * 1000))
    (hsync : d.last_sync = JVal.date (now - 6 * 24 * 60 * 60 * 1000)) :
    fixDevice env now now d =
      { d with status := JVal.str "Sem Monitorar", is_online := JVal.bool false } := by
  have h1 : ¬ (now - 70 * 60 * 1000 > now - 45 * 60 * 1000) := by omega
  have h2 : now - 6 * 24 * 60 * 60 * 1000 < now - 5 * 24 * 60 * 60 * 1000 := by omega
  unfold fixDevice
  simp only [hm, Bool.false_eq_true, if_false, hseen, hsync, hs]
  simp [JVal.truthy, newDate, h1, h2, JVal.strictNe]

theorem fixDevice_reads_last_sync_witness :
    fixDevice sourceEnv 518400000 518400000 staleSyncDevice =
      { staleSyncDevice with
        status := JVal.str "Sem Monitorar"
        is_online := JVal.bool false } :=
  fixDevice_reads_last_sync sourceEnv 518400000 staleSyncDevice rfl rfl rfl rfl

/-! ## Theorems: the access filter -/

theorem trim_eq_nil_iff (cs : List Char) :
    trim cs = [] ↔ ∀ c ∈ cs, isWhiteSpace c = true := by
  unfold trim
  rw [List.reverse_eq_nil_iff, List.dropWhile_eq_nil_iff]
  constructor
  · intro h
    have hd : cs.dropWhile isWhiteSpace = [] := by
      cases hcs : cs.dropWhile isWhiteSpace with
      | nil => rfl
      | cons a l =>
        have ha : isWhiteSpace a = true := h a (by simp [hcs])
        have hn := List.head_dropWhile_not isWhiteSpace cs (by simp [hcs])
        simp [hcs] at hn
        rw [hn] at ha
        exact absurd ha (by decide)
    exact List.dropWhile_eq_nil_iff.1 hd
  · intro h x hx
    have hx' : x ∈ cs.dropWhile isWhiteSpace := List.mem_reverse.1 hx
    exact h x ((List.dropWhile_sublist _).subset hx')

theorem mem_of_mem_split (sep : Char) (cs : List Char) :
    ∀ entry ∈ split sep cs, ∀ c ∈ entry, c ∈ cs := by
  induction cs with
  | nil =>
    intro entry he c hc
    simp [split] at he
    subst he
    exact hc
  | cons a t ih =>
    intro entry he c hc
    unfold split at he
    by_cases ha : a = sep
    · rw [if_pos ha] at he
      rcases List.mem_cons.1 he with rfl | he'
      · simp at hc
      · exact List.mem_cons_of_mem _ (ih entry he' c hc)
    · rw [if_neg ha] at he
      cases hsp : split sep t with
      | nil =>
        rw [hsp] at he
        simp at he
        subst he
        simp at hc
        subst hc
        exact List.mem_cons_self _ _
      | cons first rest =>
        rw [hsp] at he
        rcases List.mem_cons.1 he with rfl | he'
        · rcases List.mem_cons.1 hc with rfl | hc'
          · exact List.mem_cons_self _ _
          · exact List.mem_cons_of_mem _ (ih first (by simp [hsp]) c hc')
        · exact List.mem_cons_of_mem _ (ih entry (by simp [hsp, he']) c hc)

theorem toLowerCase_eq_nil_iff (lib : Lib) (h : LowersLikeJS lib) (q : List Char) :
    lib.toLowerCase q = [] ↔ q = [] := by
  constructor
  · exact h.1 q
  · rintro rfl
    simpa using h.2 [] (by simp)

theorem trim_toList_eq_nil_of_blank (s : String) (h : s = "" ∨ trim s.toList = []) :
    trim s.toList = [] := by
  rcases h with rfl | h
  · rfl
  · exact h

/-- On a device name that is a string, `matchesUserPrefixes` returns, and it
returns true exactly when the name starts with one of the prefixes in the sense
of `startsWithSomePrefix`. -/
theorem matchesUserPrefixes_str (lib : Lib)
    (hnil : ∀ q, lib.toLowerCase q = [] ↔ q = []) (n s : String) :
    (∃ b, matchesUserPrefixes lib (JVal.str n) (some s) = some b) ∧
      (matchesUserPrefixes lib (JVal.str n) (some s) = some true ↔
        startsWithSomePrefix lib n s) := by
  unfold matchesUserPrefixes startsWithSomePrefix
  by_cases hblank : s = "" ∨ trim s.toList = []
  · simp only [if_pos hblank]
    refine ⟨⟨false, rfl⟩, ?_⟩
    constructor
    · intro hc
      simp at hc
    · rintro ⟨entry, he, hne, -⟩
      exfalso
      apply hne
      rw [trim_eq_nil_iff]
      intro c hc
      exact (trim_eq_nil_iff _).1 (trim_toList_eq_nil_of_blank s hblank) c
        (mem_of_mem_split ',' _ entry he c hc)
  · simp only [if_neg hblank]
    by_cases hP : (((split ',' s.toList).map (fun p => lib.toLowerCase (trim p))).filter
        (fun p => decide (p.length > 0))).length = 0
    · simp only [if_pos hP]
      refine ⟨⟨false, rfl⟩, ?_⟩
      constructor
      · intro hc
        simp at hc
      · rintro ⟨entry, he, hne, -⟩
        exfalso
        rw [List.length_eq_zero, List.filter_eq_nil_iff] at hP
        have := hP (lib.toLowerCase (trim entry)) (List.mem_map.2 ⟨entry, he, rfl⟩)
        simp only [gt_iff_lt, decide_eq_true_eq, List.length_pos, ne_eq, not_not] at this
        exact hne ((hnil _).1 this)
    · simp only [if_neg hP]
      refine ⟨⟨_, rfl⟩, ?_⟩
      simp only [Option.some.injEq, List.any_eq_true, List.mem_filter, List.mem_map,
        gt_iff_lt, decide_eq_true_eq, List.length_pos, ne_eq, List.isPrefixOf_iff_prefix]
      constructor
      · rintro ⟨p, ⟨⟨entry, he, rfl⟩, hne⟩, hpre⟩
        exact ⟨entry, he, fun h0 => hne ((hnil _).2 h0), hpre⟩
      · rintro ⟨entry, he, hne, hpre⟩
        exact ⟨_, ⟨⟨entry, he, rfl⟩, fun h0 => hne ((hnil _).1 h0)⟩,
          hpre⟩

theorem matchesUserPrefixes_blank (lib : Lib) (deviceName : JVal) (s : String)
    (hs : trim s.toList = []) : matchesUserPrefixes lib deviceName (some s) = some false := by
  unfold matchesUserPrefixes
  simp only [if_pos (Or.inr hs : s = "" ∨ trim s.toList = [])]

theorem asciiLib_lowersLikeJS : LowersLikeJS asciiLib := by
  constructor
  · intro q hq
    simpa [asciiLib] using hq
  · intro q _
    rfl

theorem mem_of_mem_trim (cs : List Char) : ∀ c ∈ trim cs, c ∈ cs := by
  intro c hc
  unfold trim at hc
  have h1 : c ∈ (cs.dropWhile isWhiteSpace).reverse :=
    (List.dropWhile_sublist _).subset (List.mem_reverse.1 hc)
  exact (List.dropWhile_sublist _).subset (List.mem_reverse.1 h1)

/-- On ASCII text every `toLowerCase` that lowers like JavaScript's gives the same
answer as the ASCII stand-in. -/
theorem matchesUserPrefixes_ascii (lib : Lib) (h : LowersLikeJS lib) (n s : String)
    (hn : ∀ c ∈ n.toList, c.toNat < 128) (hs : ∀ c ∈ s.toList, c.toNat < 128) :
    matchesUserPrefixes lib (JVal.str n) (some s)
      = matchesUserPrefixes asciiLib (JVal.str n) (some s) := by
  have hmap : (split ',' s.toList).map (fun p => lib.toLowerCase (trim p)) =
      (split ',' s.toList).map (fun p => asciiLib.toLowerCase (trim p)) := by
    apply List.map_congr_left
    intro entry he
    exact h.2 _ (fun c hc => hs c (mem_of_mem_split ',' _ entry he c (mem_of_mem_trim _ c hc)))
  have hname : lib.toLowerCase n.toList = asciiLib.toLowerCase n.toList := h.2 _ hn
  unfold matchesUserPrefixes
  simp only [hmap, hname]

/-- C16. The access filter. For a `toLowerCase` that behaves like JavaScript's and
every device name n and sector string s, matchesUserPrefixes(n, s) is true if and
only if n starts, compared case-insensitively, with at least one of the
comma-separated prefixes of s (entries trimmed, empty entries ignored), and it is
false otherwise; with s = "LAB-,HR-" it is true for "LAB-07" and "HR-3" and false
for "IT-1"; for an absent, empty or whitespace-only s it is false for every n. -/
theorem access_filter_prefix_match (lib : Lib) (h : LowersLikeJS lib) :
    (∀ n s : String,
      (matchesUserPrefixes lib (JVal.str n) (some s) = some true ↔
        startsWithSomePrefix lib n s) ∧
      (matchesUserPrefixes lib (JVal.str n) (some s) = some false ↔
        ¬ startsWithSomePrefix lib n s)) ∧
    matchesUserPrefixes lib (JVal.str "LAB-07") (some "LAB-,HR-") = some true ∧
    matchesUserPrefixes lib (JVal.str "HR-3") (some "LAB-,HR-") = some true ∧
    matchesUserPrefixes lib (JVal.str "IT-1") (some "LAB-,HR-") = some false ∧
    (∀ n : String, matchesUserPrefixes lib (JVal.str n) none = some false) ∧
    (∀ n s : String, trim s.toList = [] →
      matchesUserPrefixes lib (JVal.str n) (some s) = some false) := by
  refine ⟨?_, ?_, ?_, ?_, ?_, ?_⟩
  · intro n s
    obtain ⟨⟨b, hb⟩, hiff⟩ :=
      matchesUserPrefixes_str lib (toLowerCase_eq_nil_iff lib h) n s
    refine ⟨hiff, ?_⟩
    rw [← hiff, hb]
    cases b <;> simp
  · rw [matchesUserPrefixes_ascii lib h _ _ (by decide) (by decide)]
    decide
  · rw [matchesUserPrefixes_ascii lib h _ _ (by decide) (by decide)]
    decide
  · rw [matchesUserPrefixes_ascii lib h _ _ (by decide) (by decide)]
    decide
  · intro n
    rfl
  · intro n s hs
    exact matchesUserPrefixes_blank lib _ s hs

theorem access_filter_prefix_match_witness :
    (∀ n s : String,
      (matchesUserPrefixes asciiLib (JVal.str n) (some s) = some true ↔
        startsWithSomePrefix asciiLib n s) ∧
      (matchesUserPrefixes asciiLib (JVal.str n) (some s) = some false ↔
        ¬ startsWithSomePrefix asciiLib n s)) ∧
    matchesUserPrefixes asciiLib (JVal.str "LAB-07") (some "LAB-,HR-") = some true ∧
    matchesUserPrefixes asciiLib (JVal.str "HR-3") (some "LAB-,HR-") = some true ∧
    matchesUserPrefixes asciiLib (JVal.str "IT-1") (some "LAB-,HR-") = some false ∧
    (∀ n : String, matchesUserPrefixes asciiLib (JVal.str n) none = some false) ∧
    (∀ n s : String, trim s.toList = [] →
      matchesUserPrefixes asciiLib (JVal.str n) (some s) = some false) :=
  access_filter_prefix_match asciiLib asciiLib_lowersLikeJS

/-! ## Theorems: the device listing -/

/-- C17 (counterexample). A non-administrative caller whose sector string is ","
has no non-empty prefix, and `GET /` answers 200 with an empty device list. -/
theorem listing_no_prefix_counterexample :
    ((split ',' ",".toList).map trim).filter (fun p => decide (p.length > 0)) = [] ∧
      getDevices asciiLib sourceEnv 0 commaUser
        none offlineStore.devices = { status := 200, devices := some [] } := by
  decide

/-- C17 (amended). For a non-administrative caller, `GET /` answers 403 when the
sector string is absent, empty or whitespace-only; when the sector string is not
blank but yields no non-empty prefix (it is made only of commas and whitespace,
such as ","), it answers 200 with an empty device list. -/
theorem listing_no_prefix (lib : Lib) (env : Env) (now : Int) (user : User)
    (search : Option String) (devices : List Device) (hrole : user.role = "user") :
    (user.sector = none ∨ (∃ s, user.sector = some s ∧ trim s.toList = []) →
      getDevices lib env now user search devices = { status := 403, devices := none }) ∧
    (∀ s, user.sector = some s → trim s.toList ≠ [] →
      (∀ entry ∈ split ',' s.toList, trim entry = []) →
      getDevices lib env now user search devices = { status := 200, devices := some [] }) := by
  constructor
  · rintro (hnone | ⟨s, hs, hblank⟩)
    · simp only [getDevices, hrole, if_true, hnone]
    · simp only [getDevices, hrole, if_true, hs,
        if_pos (Or.inr hblank : s = "" ∨ trim s.toList = [])]
  · intro s hs hne hall
    have hnb : ¬ (s = "" ∨ trim s.toList = []) := by
      rintro (rfl | h0)
      · exact hne rfl
      · exact hne h0
    have hP : (((split ',' s.toList).map trim).filter
        (fun p => decide (p.length > 0))).length = 0 := by
      rw [List.length_eq_zero, List.filter_eq_nil_iff]
      intro p hp
      obtain ⟨entry, he, rfl⟩ := List.mem_map.1 hp
      simp [hall entry he]
    simp only [getDevices, hrole, if_true, hs, if_neg hnb, if_pos hP]

theorem listing_no_prefix_witness :
    ((commaUser.sector = none ∨
        (∃ s, commaUser.sector
          = some s ∧ trim s.toList = [])) →
      getDevices asciiLib sourceEnv 0 commaUser
        none offlineStore.devices = { status := 403, devices := none }) ∧
    (∀ s, commaUser.sector = some s →
      trim s.toList ≠ [] → (∀ entry ∈ split ',' s.toList, trim entry = []) →
      getDevices asciiLib sourceEnv 0 commaUser
        none offlineStore.devices = { status := 200, devices := some [] }) :=
  listing_no_prefix asciiLib sourceEnv 0 commaUser
    none offlineStore.devices rfl

theorem isRegExpSpecial_backslash : isRegExpSpecial backslash = true := by decide

/-- A pattern produced by `escapeRegExp` denotes the text it was made from: every
syntax character of the text is matched literally. -/
theorem literalOfPattern_escapeRegExp (p : List Char) :
    literalOfPattern (escapeRegExp p) = some p := by
  induction p with
  | nil => rfl
  | cons c cs ih =>
    by_cases hc : isRegExpSpecial c = true
    · simp [escapeRegExp, hc, literalOfPattern, ih]
    · have hne : c ≠ backslash := by
        rintro rfl
        exact hc isRegExpSpecial_backslash
      have hc' : isRegExpSpecial c = false := by simpa using hc
      rw [escapeRegExp, if_neg hc, literalOfPattern.eq_def]
      simp only [if_neg hne, hc', Bool.false_eq_true, if_false, ih, Option.map_some']

theorem regexTest_prefixPattern (lib : Lib) (p subject : List Char) :
    regexTest lib ('^' :: escapeRegExp p) subject
      = (p.map lib.fold).isPrefixOf (subject.map lib.fold) := by
  simp [regexTest, literalOfPattern_escapeRegExp]

theorem matchesUserPrefixes_true_is_str (lib : Lib) (v : JVal) (sector : Option String)
    (h : matchesUserPrefixes lib v sector = some true) : ∃ name, v = JVal.str name := by
  unfold matchesUserPrefixes at h
  cases sector with
  | none => simp at h
  | some s =>
    simp only at h
    split at h
    · simp at h
    · split at h
      · simp at h
      · cases v <;> first | exact ⟨_, rfl⟩ | simp at h

theorem satisfiesPrefixQuery_str (lib : Lib) (prefixes : List (List Char)) (d : Device)
    (n : String) (hn : d.device_name = JVal.str n) :
    satisfiesPrefixQuery lib (prefixPatterns prefixes) d = true ↔
      ∃ p ∈ prefixes, p.map lib.fold <+: n.toList.map lib.fold := by
  simp only [satisfiesPrefixQuery, prefixPatterns, List.any_map, List.any_eq_true,
    Function.comp_apply, hn, matchesRegex, regexTest_prefixPattern,
    List.isPrefixOf_iff_prefix]

theorem satisfiesPrefixQuery_not_str (lib : Lib) (patterns : List (List Char)) (d : Device)
    (hn : ∀ n, d.device_name ≠ JVal.str n) :
    satisfiesPrefixQuery lib patterns d = false := by
  unfold satisfiesPrefixQuery
  rw [List.any_eq_false]
  intro source _
  cases hd : d.device_name <;> simp [matchesRegex]
  exact absurd hd (hn _)

/-- Two lists whose characters are related alike by two per-character maps are
prefixes of one another under the one map exactly when they are under the other. -/
theorem map_prefix_congr {β γ : Type} (f : Char → β) (g : Char → γ) :
    ∀ (p n : List Char), (∀ a ∈ p, ∀ b ∈ n, (f a = f b ↔ g a = g b)) →
      (p.map f <+: n.map f ↔ p.map g <+: n.map g) := by
  intro p
  induction p with
  | nil =>
    intro n _
    simp
  | cons a p ih =>
    intro n h
    cases n with
    | nil => simp
    | cons b n =>
      simp only [List.map_cons, List.cons_prefix_cons]
      rw [h a (List.mem_cons_self _ _) b (List.mem_cons_self _ _),
        ih n (fun x hx y hy => h x (List.mem_cons_of_mem _ hx) y (List.mem_cons_of_mem _ hy))]

theorem asciiLib_foldsAscii : FoldsAscii asciiLib := by
  intro a b _ _
  rfl

theorem dottedLib_lowersLikeJS : LowersLikeJS dottedLib := by
  constructor
  · intro q hq
    cases q with
    | nil => rfl
    | cons c cs =>
      exfalso
      by_cases hc : c = capitalDottedI
      · simp [dottedLib, hc] at hq
      · simp [dottedLib, hc] at hq
  · intro q hq
    show q.flatMap _ = q.map Char.toLower
    induction q with
    | nil => rfl
    | cons c cs ih =>
      have hc : c ≠ capitalDottedI := by
        rintro rfl
        exact absurd (hq _ (List.mem_cons_self _ _)) (by decide)
      simp only [List.flatMap_cons, if_neg hc, List.map_cons, List.singleton_append]
      rw [ih (fun x hx => hq x (List.mem_cons_of_mem _ hx))]

/-- Whenever `toLowerCase` turns the one-letter name U+0130 into the two
characters U+0069 U+0307 and leaves those two as they are, the access filter
accepts that name for the prefix U+0069 U+0307 and the listing query rejects it,
whatever the case folding of the expression engine is: the pattern has two
characters and the name one. -/
theorem filters_disagree_of_expansion (lib : Lib)
    (h1 : lib.toLowerCase [capitalDottedI] = ['i', combiningDot])
    (h2 : lib.toLowerCase ['i', combiningDot] = ['i', combiningDot]) :
    matchesUserPrefixes lib dottedDevice.device_name dottedUser.sector = some true ∧
      satisfiesPrefixQuery lib (prefixPatterns [['i', combiningDot]]) dottedDevice = false := by
  constructor
  · have ht : trim ['i', combiningDot] = ['i', combiningDot] := by decide
    have hsp : split ',' (String.mk ['i', combiningDot]).toList = [['i', combiningDot]] := by
      decide
    have hb : ¬ (String.mk ['i', combiningDot] = "" ∨
        trim (String.mk ['i', combiningDot]).toList = []) := by
      decide
    have hn : (String.mk [capitalDottedI]).toList = [capitalDottedI] := rfl
    simp only [matchesUserPrefixes, dottedUser, dottedDevice, if_neg hb, hsp, List.map_cons,
      List.map_nil, ht, h2, h1, hn]
    decide
  · rw [Bool.eq_false_iff, Ne, satisfiesPrefixQuery_str lib _ dottedDevice _ rfl]
    rintro ⟨p, hp, hpre⟩
    rw [List.mem_singleton] at hp
    subst hp
    have := hpre.length_le
    simp at this

/-- C18 (counterexample). With a `toLowerCase` that, like JavaScript's, turns the
letter U+0130 into the two characters U+0069 U+0307, a non-administrative caller
whose prefix is U+0069 U+0307 and a stored Device named U+0130: the post-lookup
check matchesUserPrefixes accepts the Device, the listing query built from the
same prefix does not match it, and `GET /` returns an empty list. -/
theorem listing_filter_counterexample :
    LowersLikeJS dottedLib ∧
      ((split ',' ['i', combiningDot]).map trim).filter (fun p => decide (p.length > 0))
        = [['i', combiningDot]] ∧
      matchesUserPrefixes dottedLib dottedDevice.device_name dottedUser.sector = some true ∧
      satisfiesPrefixQuery dottedLib (prefixPatterns [['i', combiningDot]]) dottedDevice
        = false ∧
      getDevices dottedLib sourceEnv 0 dottedUser none [dottedDevice]
        = { status := 200, devices := some [] } := by
  refine ⟨dottedLib_lowersLikeJS, ?_, ?_, ?_, ?_⟩ <;> decide

/-- C18 (amended). On ASCII text the listing pre-filter and the post-lookup check
are the same filter. For a non-administrative caller whose sector string is made
of ASCII characters and has at least one non-empty prefix, `GET /` (without a
search term) returns the stored Devices that satisfy the `$or` of anchored
case-insensitive regular expressions built from the prefixes; a Device whose
device_name is made of ASCII characters, or is not a string, satisfies that query
if and only if matchesUserPrefixes(device_name, sector) is true; and a prefix that
contains regular-expression syntax characters is matched literally. -/
theorem listing_filter_ascii (lib : Lib) (env : Env) (now : Int) (user : User)
    (s : String) (devices : List Device)
    (hlower : LowersLikeJS lib) (hfold : FoldsAscii lib)
    (hrole : user.role = "user") (hs : user.sector = some s)
    (hp : ∃ entry ∈ split ',' s.toList, trim entry ≠ [])
    (hascii : ∀ c ∈ s.toList, c.toNat < 128) :
    getDevices lib env now user none devices =
      respondWithDevices env now (devices.filter (satisfiesPrefixQuery lib (prefixPatterns
        (((split ',' s.toList).map trim).filter (fun p => decide (p.length > 0)))))) ∧
    (∀ d : Device, (∀ n, d.device_name = JVal.str n → ∀ c ∈ n.toList, c.toNat < 128) →
      (satisfiesPrefixQuery lib (prefixPatterns
        (((split ',' s.toList).map trim).filter (fun p => decide (p.length > 0)))) d = true ↔
      matchesUserPrefixes lib d.device_name (some s) = some true)) ∧
    (∀ p subject : List Char,
      literalOfPattern (escapeRegExp p) = some p ∧
      regexTest lib ('^' :: escapeRegExp p) subject
        = (p.map lib.fold).isPrefixOf (subject.map lib.fold)) := by
  obtain ⟨entry, he, hne⟩ := hp
  have hnb : ¬ (s = "" ∨ trim s.toList = []) := by
    intro hb
    apply hne
    rw [trim_eq_nil_iff]
    intro c hc
    exact (trim_eq_nil_iff _).1 (trim_toList_eq_nil_of_blank s hb) c
      (mem_of_mem_split ',' _ entry he c hc)
  have hP : ¬ (((split ',' s.toList).map trim).filter
      (fun p => decide (p.length > 0))).length = 0 := by
    rw [List.length_eq_zero, List.filter_eq_nil_iff]
    intro hall
    have := hall (trim entry) (List.mem_map.2 ⟨entry, he, rfl⟩)
    simp only [gt_iff_lt, decide_eq_true_eq, List.length_pos, ne_eq, not_not] at this
    exact hne this
  refine ⟨?_, ?_, fun p subject =>
    ⟨literalOfPattern_escapeRegExp p, regexTest_prefixPattern lib p subject⟩⟩
  · simp only [getDevices, hrole, if_true, hs, if_neg hnb, if_neg hP, findDevices]
    rfl
  · intro d hd
    by_cases hstr : ∃ n, d.device_name = JVal.str n
    · obtain ⟨n, hn⟩ := hstr
      have hnascii := hd n hn
      have hentry : ∀ e ∈ split ',' s.toList,
          (lib.toLowerCase (trim e) <+: lib.toLowerCase n.toList ↔
            (trim e).map lib.fold <+: n.toList.map lib.fold) := by
        intro e hem
        have hea : ∀ c ∈ trim e, c.toNat < 128 := fun c hc =>
          hascii c (mem_of_mem_split ',' _ e hem c (mem_of_mem_trim _ c hc))
        rw [hlower.2 _ hea, hlower.2 _ hnascii]
        exact (map_prefix_congr lib.fold Char.toLower (trim e) n.toList
          (fun a ha b hb => hfold a b (hea a ha) (hnascii b hb))).symm
      rw [satisfiesPrefixQuery_str lib _ d n hn, hn,
        (matchesUserPrefixes_str lib (toLowerCase_eq_nil_iff lib hlower) n s).2]
      unfold startsWithSomePrefix
      simp only [List.mem_filter, List.mem_map, gt_iff_lt, decide_eq_true_eq, List.length_pos,
        ne_eq]
      constructor
      · rintro ⟨p, ⟨⟨e, hem, rfl⟩, hpne⟩, hpre⟩
        exact ⟨e, hem, hpne, (hentry e hem).2 hpre⟩
      · rintro ⟨e, hem, hpne, hpre⟩
        exact ⟨_, ⟨⟨e, hem, rfl⟩, hpne⟩, (hentry e hem).1 hpre⟩
    · have hns : ∀ n, d.device_name ≠ JVal.str n := fun n hn => hstr ⟨n, hn⟩
      rw [satisfiesPrefixQuery_not_str lib _ d hns]
      constructor
      · intro hc
        exact absurd hc (by decide)
      · intro hm
        obtain ⟨n, hn⟩ := matchesUserPrefixes_true_is_str lib _ _ hm
        exact absurd hn (hns n)

theorem listing_filter_ascii_witness :
    getDevices asciiLib sourceEnv 0 labUser none offlineStore.devices =
      respondWithDevices sourceEnv 0 (offlineStore.devices.filter
        (satisfiesPrefixQuery asciiLib (prefixPatterns
          (((split ',' "LAB-,HR-".toList).map trim).filter
            (fun p => decide (p.length > 0)))))) ∧
    (∀ d : Device, (∀ n, d.device_name = JVal.str n → ∀ c ∈ n.toList, c.toNat < 128) →
      (satisfiesPrefixQuery asciiLib (prefixPatterns
        (((split ',' "LAB-,HR-".toList).map trim).filter
          (fun p => decide (p.length > 0)))) d = true ↔
      matchesUserPrefixes asciiLib d.device_name (some "LAB-,HR-") = some true)) ∧
    (∀ p subject : List Char,
      literalOfPattern (escapeRegExp p) = some p ∧
      regexTest asciiLib ('^' :: escapeRegExp p) subject
        = (p.map asciiLib.fold).isPrefixOf (subject.map asciiLib.fold)) :=
  listing_filter_ascii asciiLib sourceEnv 0 labUser "LAB-,HR-" offlineStore.devices
    asciiLib_lowersLikeJS asciiLib_foldsAscii rfl rfl ⟨"LAB-".toList, by decide, by decide⟩
    (by decide)

/-! ## Theorems: commands -/

theorem latestCreatedAt_eq_none (p : Command → Bool) (cs : List Command) :
    latestCreatedAt p cs = none ↔ ∀ c ∈ cs, p c = false := by
  induction cs with
  | nil => simp [latestCreatedAt]
  | cons a t ih =>
    unfold latestCreatedAt
    cases hl : latestCreatedAt p t with
    | none =>
      have hall := ih.1 hl
      by_cases ha : p a = true
      · simp [ha]
      · simp only [ha, Bool.false_eq_true, if_false, List.mem_cons, forall_eq_or_imp, true_iff]
        exact ⟨by simp [ha], hall⟩
    | some t0 =>
      have hne : ¬ ∀ c ∈ t, p c = false := fun hall => by
        rw [ih.2 hall] at hl
        exact Option.noConfusion hl
      constructor
      · intro h
        by_cases hc : (p a && decide (t0 < a.createdAt)) = true
        · simp [hc] at h
        · simp [hc] at h
      · intro hall
        exact absurd (fun c hc => hall c (List.mem_cons_of_mem _ hc)) hne

theorem latestCreatedAt_eq_some (p : Command → Bool) (cs : List Command) (t : Int)
    (h : latestCreatedAt p cs = some t) :
    (∃ c ∈ cs, p c = true ∧ c.createdAt = t) ∧ ∀ c ∈ cs, p c = true → c.createdAt ≤ t := by
  induction cs generalizing t with
  | nil => simp [latestCreatedAt] at h
  | cons a l ih =>
    unfold latestCreatedAt at h
    cases hl : latestCreatedAt p l with
    | none =>
      rw [hl] at h
      have hall := (latestCreatedAt_eq_none p l).1 hl
      by_cases ha : p a = true
      · simp only [ha, if_true, Option.some.injEq] at h
        refine ⟨⟨a, List.mem_cons_self _ _, ha, h⟩, ?_⟩
        intro c hc hpc
        rcases List.mem_cons.1 hc with rfl | hc'
        · exact le_of_eq h
        · rw [hall c hc'] at hpc
          exact absurd hpc (by decide)
      · simp [ha] at h
    | some t0 =>
      rw [hl] at h
      obtain ⟨⟨c0, hc0, hp0, ht0⟩, hmax⟩ := ih t0 hl
      by_cases hcond : (p a && decide (t0 < a.createdAt)) = true
      · simp only [hcond, if_true, Option.some.injEq] at h
        simp only [Bool.and_eq_true, decide_eq_true_eq] at hcond
        refine ⟨⟨a, List.mem_cons_self _ _, hcond.1, h⟩, ?_⟩
        intro c hc hpc
        rcases List.mem_cons.1 hc with rfl | hc'
        · exact le_of_eq h
        · have := hmax c hc' hpc
          omega
      · simp only [hcond, Bool.false_eq_true, if_false, Option.some.injEq] at h
        subst h
        refine ⟨⟨c0, List.mem_cons_of_mem _ hc0, hp0, ht0⟩, ?_⟩
        intro c hc hpc
        rcases List.mem_cons.1 hc with rfl | hc'
        · simp only [Bool.and_eq_true, decide_eq_true_eq, not_and, not_lt] at hcond
          exact hcond hpc
        · exact hmax c hc' hpc

/-- The update of the first match rewrites one position of the collection. -/
theorem updateFirstCommand_eq_set (q : Command → Bool) (f : Command → Command)
    (cs : List Command) (c : Command) (h : cs.find? q = some c) :
    ∃ i, cs[i]? = some c ∧ updateFirstCommand q f cs = cs.set i (f c) := by
  induction cs with
  | nil => simp at h
  | cons a l ih =>
    by_cases ha : q a = true
    · rw [List.find?_cons_of_pos _ ha, Option.some.injEq] at h
      subst h
      exact ⟨0, by simp, by simp [updateFirstCommand, ha]⟩
    · rw [List.find?_cons_of_neg _ ha] at h
      obtain ⟨i, hi, hset⟩ := ih h
      exact ⟨i + 1, by simpa using hi, by simp [updateFirstCommand, ha, hset]⟩

/-- The update of the first match leaves every document that does not match as
it was, at its position. -/
theorem updateFirstCommand_getElem?_of_not (q : Command → Bool) (f : Command → Command)
    (cs : List Command) (j : Nat) (c : Command) (hj : cs[j]? = some c) (hq : q c = false) :
    (updateFirstCommand q f cs)[j]? = some c := by
  induction cs generalizing j with
  | nil => simp at hj
  | cons a l ih =>
    cases j with
    | zero =>
      simp only [List.getElem?_cons_zero, Option.some.injEq] at hj
      subst hj
      simp [updateFirstCommand, hq]
    | succ k =>
      simp only [List.getElem?_cons_succ] at hj
      by_cases ha : q a = true
      · simp [updateFirstCommand, ha, hj]
      · simp [updateFirstCommand, ha, ih k hj]

/-- A report that passes the 400 check and is aimed at an existing Command
writes the update, whatever status is answered afterwards. -/
theorem postCommandResult_written (lib : Lib) (now : Int) (user : User)
    (report : ResultReport) (db : Db) (target : Command → Bool) (found : Command)
    (h400 : (!report.serial_number.truthy && !report.command_id.truthy) = false)
    (ht : reportTarget lib report db.commands = some target)
    (hf : db.commands.find? target = some found) :
    (postCommandResult lib now user report db).db =
      { db with
        commands := updateFirstCommand target (resolveCommand now report) db.commands } ∧
    ((postCommandResult lib now user report db).status = 200 ∨
      (postCommandResult lib now user report db).status = 403 ∨
      (postCommandResult lib now user report db).status = 500) := by
  unfold postCommandResult
  simp only [h400, Bool.false_eq_true, if_false, ht, hf]
  cases findOne db.devices (resolveCommand now report found).serial_number with
  | none => exact ⟨rfl, Or.inl rfl⟩
  | some device =>
    simp only
    cases outsidePrefixes lib user device with
    | none => exact ⟨rfl, Or.inr (Or.inr rfl)⟩
    | some b =>
      cases b
      · exact ⟨rfl, Or.inl rfl⟩
      · exact ⟨rfl, Or.inr (Or.inl rfl)⟩

/-- For a caller whose role is not 'user', a report that passes the 400 check
and is aimed at an existing Command is answered 200. -/
theorem postCommandResult_role (lib : Lib) (now : Int) (user : User)
    (report : ResultReport) (db : Db) (target : Command → Bool) (found : Command)
    (h400 : (!report.serial_number.truthy && !report.command_id.truthy) = false)
    (ht : reportTarget lib report db.commands = some target)
    (hf : db.commands.find? target = some found)
    (hrole : user.role ≠ "user") :
    (postCommandResult lib now user report db).status = 200 := by
  unfold postCommandResult
  simp only [h400, Bool.false_eq_true, if_false, ht, hf]
  cases findOne db.devices (resolveCommand now report found).serial_number with
  | none => rfl
  | some device => simp [outsidePrefixes, hrole]

theorem postCommandResult_not_found (lib : Lib) (now : Int) (user : User)
    (report : ResultReport) (db : Db) (target : Command → Bool)
    (h400 : (!report.serial_number.truthy && !report.command_id.truthy) = false)
    (ht : reportTarget lib report db.commands = some target)
    (hf : db.commands.find? target = none) :
    postCommandResult lib now user report db = { status := 404, db := db } := by
  unfold postCommandResult
  simp only [h400, Bool.false_eq_true, if_false, ht, hf]

theorem sentFor_iff (sn : JVal) (c : Command) :
    sentFor sn c = true ↔ c.serial_number = sn ∧ c.status = JVal.str "sent" := by
  simp [sentFor]

/-- C11. Result correlation by bare serial number. When at least one Command of
serial number s is 'sent', a result report that carries s and no command_id
updates exactly one Command, one with the greatest createdAt among the 'sent'
Commands of s: its status becomes 'completed' when the report's success flag is
truthy and 'failed' otherwise, its result the report's result (or, without one,
its error_message) and its executedAt the current time, its other fields staying
as they were. Every other Command and every Device is left unchanged; in
particular a 'sent' Command of s that is older than another 'sent' Command of s
stays as it was (of two commands enqueued at t1 < t2, the t2 command is resolved
and the t1 command stays 'sent'). -/
theorem report_by_serial_resolves_latest (lib : Lib) (now : Int) (user : User)
    (report : ResultReport) (db : Db)
    (hid : report.command_id.truthy = false) (hs : report.serial_number.truthy = true)
    (hsent : ∃ c ∈ db.commands,
      c.serial_number = report.serial_number ∧ c.status = JVal.str "sent") :
    ∃ i c, db.commands[i]? = some c ∧
      c.serial_number = report.serial_number ∧ c.status = JVal.str "sent" ∧
      (∀ other ∈ db.commands, other.serial_number = report.serial_number →
        other.status = JVal.str "sent" → other.createdAt ≤ c.createdAt) ∧
      (postCommandResult lib now user report db).db.commands
        = db.commands.set i
            { c with
              status := JVal.str (if report.success.truthy then "completed" else "failed")
              result := report.result.orElse report.error_message
              executedAt := some now } ∧
      (postCommandResult lib now user report db).db.devices = db.devices ∧
      (∀ (j : Nat) (c1 : Command), db.commands[j]? = some c1 →
        (∃ c2 ∈ db.commands, c2.serial_number = report.serial_number ∧
          c2.status = JVal.str "sent" ∧ c1.createdAt < c2.createdAt) →
        (postCommandResult lib now user report db).db.commands[j]? = some c1) := by
  have h400 : (!report.serial_number.truthy && !report.command_id.truthy) = false := by
    simp [hs]
  obtain ⟨c0, hc0, hc0s⟩ := hsent
  cases hl : latestCreatedAt (sentFor report.serial_number) db.commands with
  | none =>
    have := (latestCreatedAt_eq_none _ _).1 hl c0 hc0
    rw [(sentFor_iff _ _).2 hc0s] at this
    exact absurd this (by decide)
  | some t =>
    obtain ⟨⟨cm, hcm, hpm, htm⟩, hmax⟩ := latestCreatedAt_eq_some _ _ t hl
    have ht : reportTarget lib report db.commands
        = some (fun c => sentFor report.serial_number c && c.createdAt == t) := by
      simp only [reportTarget, hid, Bool.false_eq_true, if_false, hl]
    have hsome : (db.commands.find?
        (fun c => sentFor report.serial_number c && c.createdAt == t)).isSome = true := by
      rw [List.find?_isSome]
      exact ⟨cm, hcm, by simp [hpm, htm]⟩
    obtain ⟨found, hfound⟩ := Option.isSome_iff_exists.1 hsome
    have hq := List.find?_some hfound
    simp only [Bool.and_eq_true, beq_iff_eq] at hq
    obtain ⟨i, hi, hset⟩ := updateFirstCommand_eq_set _ (resolveCommand now report) _ _ hfound
    obtain ⟨hdb, -⟩ := postCommandResult_written lib now user report db _ found h400 ht hfound
    refine ⟨i, found, hi, ((sentFor_iff _ _).1 hq.1).1, ((sentFor_iff _ _).1 hq.1).2, ?_, ?_,
      ?_, ?_⟩
    · intro other ho hos hot
      rw [hq.2]
      exact hmax other ho ((sentFor_iff _ _).2 ⟨hos, hot⟩)
    · rw [hdb, hset]
      rfl
    · rw [hdb]
    · rintro j c1 hj ⟨c2, hc2, hc2s, hc2t, hlt⟩
      rw [hdb]
      refine updateFirstCommand_getElem?_of_not _ _ db.commands j c1 hj ?_
      have h2 := hmax c2 hc2 ((sentFor_iff _ _).2 ⟨hc2s, hc2t⟩)
      have hne : c1.createdAt ≠ t := by omega
      simp [hne]

theorem report_by_serial_resolves_latest_witness :
    ∃ i c, commandDb.commands[i]? = some c ∧
      c.serial_number = reportBySerial.serial_number ∧ c.status = JVal.str "sent" ∧
      (∀ other ∈ commandDb.commands, other.serial_number = reportBySerial.serial_number →
        other.status = JVal.str "sent" → other.createdAt ≤ c.createdAt) ∧
      (postCommandResult asciiLib 300 adminUser reportBySerial commandDb).db.commands
        = commandDb.commands.set i
            { c with
              status := JVal.str "completed"
              result := JVal.str "ok"
              executedAt := some 300 } ∧
      (postCommandResult asciiLib 300 adminUser reportBySerial commandDb).db.devices
        = commandDb.devices ∧
      (∀ (j : Nat) (c1 : Command), commandDb.commands[j]? = some c1 →
        (∃ c2 ∈ commandDb.commands, c2.serial_number = reportBySerial.serial_number ∧
          c2.status = JVal.str "sent" ∧ c1.createdAt < c2.createdAt) →
        (postCommandResult asciiLib 300 adminUser reportBySerial commandDb).db.commands[j]?
          = some c1) :=
  report_by_serial_resolves_latest asciiLib 300 adminUser reportBySerial commandDb
    (by decide) (by decide)
    ⟨{ _id := "c1", device_name := JVal.str "LAB-07", serial_number := JVal.str "SN-1",
       command := JVal.str "lock", status := JVal.str "sent", createdBy := "root",
       createdAt := 100 }, by decide, by decide⟩

/-- The two-command case of C11 on the example collection: the report resolves
`c2`, created at time 200, and leaves `c1`, created at time 100, 'sent'. -/
theorem report_by_serial_example :
    (postCommandResult asciiLib 300 adminUser reportBySerial commandDb).status = 200 ∧
      (postCommandResult asciiLib 300 adminUser reportBySerial commandDb).db.commands.map
        (fun c => (c._id, c.createdAt, c.status, c.result, c.executedAt))
        = [("c1", 100, JVal.str "sent", JVal.undef, none),
           ("c2", 200, JVal.str "completed", JVal.str "ok", some 300),
           ("c9", 150, JVal.str "sent", JVal.undef, none)] := by
  decide

theorem reportTarget_by_id (lib : Lib) (report : ResultReport) (commands : List Command)
    (id : String) (hid : report.command_id.truthy = true)
    (hcast : lib.castObjectId report.command_id = some id) :
    reportTarget lib report commands = some (fun c => c._id == id) := by
  simp [reportTarget, hid, hcast]

theorem not_400_of_command_id (report : ResultReport) (hid : report.command_id.truthy = true) :
    (!report.serial_number.truthy && !report.command_id.truthy) = false := by
  simp [hid]

/-- C12 (counterexample). The Command `c5` is already 'completed'. A failure
report that names it by command_id is answered 200, not 404, and overwrites its
status, result and executedAt. -/
theorem report_on_resolved_counterexample :
    resolvedDb.commands.map (fun c => (c._id, c.status, c.result, c.executedAt))
        = [("c5", JVal.str "completed", JVal.str "ok", some 250)] ∧
      (postCommandResult asciiLib 300 adminUser reportFailureById resolvedDb).status = 200 ∧
      (postCommandResult asciiLib 300 adminUser reportFailureById resolvedDb).db.commands.map
          (fun c => (c._id, c.status, c.result, c.executedAt))
        = [("c5", JVal.str "failed", JVal.str "timeout", some 300)] := by
  decide

/-- C12 (amended). A result report by serial number, when that serial number has
no Command in status 'sent', and a result report whose command_id names no
Command, are answered 404 and change nothing. A result report whose command_id
names an existing Command is never answered 404, whatever the status of the
Command (also 'completed' or 'failed'); it is answered 200 for every caller whose
role is not 'user', and whenever it is answered 200 the Command has been
overwritten: its status is 'completed' when the report's success flag is truthy
and 'failed' otherwise, its result the report's result (or, without one, its
error_message) and its executedAt the current time. -/
theorem report_not_found_or_overwrite (lib : Lib) (now : Int) (user : User)
    (report : ResultReport) (db : Db) :
    (report.command_id.truthy = false → report.serial_number.truthy = true →
      (∀ c ∈ db.commands,
        ¬ (c.serial_number = report.serial_number ∧ c.status = JVal.str "sent")) →
      postCommandResult lib now user report db = { status := 404, db := db }) ∧
    (∀ id, report.command_id.truthy = true → lib.castObjectId report.command_id = some id →
      (∀ c ∈ db.commands, c._id ≠ id) →
      postCommandResult lib now user report db = { status := 404, db := db }) ∧
    (∀ id c, report.command_id.truthy = true → lib.castObjectId report.command_id = some id →
      db.commands.find? (fun x => x._id == id) = some c →
      (postCommandResult lib now user report db).status ≠ 404 ∧
      (user.role ≠ "user" → (postCommandResult lib now user report db).status = 200) ∧
      ((postCommandResult lib now user report db).status = 200 →
        ∃ i, db.commands[i]? = some c ∧
          (postCommandResult lib now user report db).db.commands
            = db.commands.set i
                { c with
                  status := JVal.str (if report.success.truthy then "completed" else "failed")
                  result := report.result.orElse report.error_message
                  executedAt := some now })) := by
  refine ⟨?_, ?_, ?_⟩
  · intro hid hs hnone
    have h400 : (!report.serial_number.truthy && !report.command_id.truthy) = false := by
      simp [hs]
    have hl : latestCreatedAt (sentFor report.serial_number) db.commands = none := by
      rw [latestCreatedAt_eq_none]
      intro c hc
      rw [Bool.eq_false_iff, Ne, sentFor_iff]
      exact hnone c hc
    have ht : reportTarget lib report db.commands = some (fun _ => false) := by
      simp only [reportTarget, hid, Bool.false_eq_true, if_false, hl]
    exact postCommandResult_not_found lib now user report db _ h400 ht (by simp)
  · intro id hid hcast hnone
    refine postCommandResult_not_found lib now user report db _
      (not_400_of_command_id report hid) (reportTarget_by_id lib report _ id hid hcast) ?_
    rw [List.find?_eq_none]
    intro c hc
    simpa using hnone c hc
  · intro id c hid hcast hfind
    obtain ⟨hdb, hst⟩ := postCommandResult_written lib now user report db _ c
      (not_400_of_command_id report hid) (reportTarget_by_id lib report _ id hid hcast) hfind
    obtain ⟨i, hi, hset⟩ := updateFirstCommand_eq_set _ (resolveCommand now report) _ _ hfind
    refine ⟨?_, ?_, ?_⟩
    · rcases hst with h | h | h <;> rw [h] <;> decide
    · intro hrole
      exact postCommandResult_role lib now user report db _ c
        (not_400_of_command_id report hid) (reportTarget_by_id lib report _ id hid hcast) hfind
        hrole
    · intro _
      refine ⟨i, hi, ?_⟩
      rw [hdb, hset]
      rfl

theorem report_not_found_or_overwrite_witness :
    postCommandResult asciiLib 300 adminUser { serial_number := JVal.str "SN-1" } resolvedDb
        = { status := 404, db := resolvedDb } ∧
      postCommandResult asciiLib 300 adminUser { command_id := JVal.str "c404" } resolvedDb
        = { status := 404, db := resolvedDb } ∧
      ((postCommandResult asciiLib 300 adminUser reportFailureById resolvedDb).status ≠ 404 ∧
        (adminUser.role ≠ "user" →
          (postCommandResult asciiLib 300 adminUser reportFailureById resolvedDb).status = 200) ∧
        ((postCommandResult asciiLib 300 adminUser reportFailureById resolvedDb).status = 200 →
          ∃ i, resolvedDb.commands[i]? =
              some { _id := "c5", device_name := JVal.str "LAB-07",
                     serial_number := JVal.str "SN-1", command := JVal.str "lock",
                     status := JVal.str "completed", result := JVal.str "ok",
                     createdBy := "root", createdAt := 100, executedAt := some 250 } ∧
            (postCommandResult asciiLib 300 adminUser reportFailureById resolvedDb).db.commands
              = resolvedDb.commands.set i
                  { _id := "c5", device_name := JVal.str "LAB-07",
                    serial_number := JVal.str "SN-1", command := JVal.str "lock",
                    status := JVal.str "failed", result := JVal.str "timeout",
                    createdBy := "root", createdAt := 100, executedAt := some 300 })) :=
  ⟨(report_not_found_or_overwrite asciiLib 300 adminUser { serial_number := JVal.str "SN-1" }
      resolvedDb).1 (by decide) (by decide) (by decide),
   (report_not_found_or_overwrite asciiLib 300 adminUser { command_id := JVal.str "c404" }
      resolvedDb).2.1 "c404" (by decide) (by decide) (by decide),
   (report_not_found_or_overwrite asciiLib 300 adminUser reportFailureById
      resolvedDb).2.2 "c5" _ (by decide) (by decide) (by decide)⟩

/-- C13 (counterexample). `c1` (created at 100) and `c2` (created at 200) are both
'sent' for SN-1. Two result reports by bare serial number, neither carrying a
command_id, are both answered 200: the first resolves `c2`, the second resolves
`c1`. -/
theorem older_command_counterexample :
    reportBySerial.command_id = JVal.undef ∧
      commandDb.commands.map (fun c => (c._id, c.createdAt, c.status))
        = [("c1", 100, JVal.str "sent"), ("c2", 200, JVal.str "sent"),
           ("c9", 150, JVal.str "sent")] ∧
      (postCommandResultSeq asciiLib adminUser [(300, reportBySerial), (400, reportBySerial)]
          commandDb).1 = [200, 200] ∧
      (postCommandResultSeq asciiLib adminUser [(300, reportBySerial), (400, reportBySerial)]
          commandDb).2.commands.map (fun c => (c._id, c.status, c.executedAt))
        = [("c1", JVal.str "completed", some 400), ("c2", JVal.str "completed", some 300),
           ("c9", JVal.str "sent", none)] := by
  decide

/-- C13 (amended). A result report that does not carry the command_id of a Command
leaves that Command as it was whenever a Command of the same serial number
created later is 'sent' when the report arrives; so of two 'sent' Commands created
at t1 < t2, the t1 command is still 'sent' after the first report. Once the t1
command is the latest 'sent' Command of its serial number, a report by that bare
serial number resolves it: its status becomes 'completed' when the report's
success flag is truthy and 'failed' otherwise, its result the report's result
(or, without one, its error_message) and its executedAt the current time. -/
theorem older_command_sent_while_newer_sent (lib : Lib) (now : Int) (user : User)
    (report : ResultReport) (db : Db) (j : Nat) (c1 : Command)
    (hj : db.commands[j]? = some c1) :
    ((report.command_id.truthy = true → lib.castObjectId report.command_id ≠ some c1._id) →
      (∃ c2 ∈ db.commands, c2.serial_number = c1.serial_number ∧
        c2.status = JVal.str "sent" ∧ c1.createdAt < c2.createdAt) →
      (postCommandResult lib now user report db).db.commands[j]? = some c1) ∧
    (report.command_id.truthy = false → report.serial_number.truthy = true →
      c1.serial_number = report.serial_number → c1.status = JVal.str "sent" →
      (∀ (k : Nat) (c : Command), db.commands[k]? = some c →
        c.serial_number = report.serial_number → c.status = JVal.str "sent" →
        c1.createdAt ≤ c.createdAt → k = j) →
      (postCommandResult lib now user report db).db.commands[j]?
        = some
            { c1 with
              status := JVal.str (if report.success.truthy then "completed" else "failed")
              result := report.result.orElse report.error_message
              executedAt := some now }) := by
  constructor
  · rintro hnot ⟨c2, hc2, hser, hsent2, hlt⟩
    by_cases h400 : (!report.serial_number.truthy && !report.command_id.truthy) = true
    · simp only [postCommandResult, h400, if_true, hj]
    · have h400f : (!report.serial_number.truthy && !report.command_id.truthy) = false := by
        simpa using h400
      cases ht : reportTarget lib report db.commands with
      | none => simp only [postCommandResult, h400f, Bool.false_eq_true, if_false, ht, hj]
      | some target =>
        cases hf : db.commands.find? target with
        | none => rw [postCommandResult_not_found lib now user report db _ h400f ht hf, hj]
        | some found =>
          rw [(postCommandResult_written lib now user report db _ found h400f ht hf).1]
          refine updateFirstCommand_getElem?_of_not _ _ db.commands j c1 hj ?_
          by_cases hid : report.command_id.truthy = true
          · cases hcast : lib.castObjectId report.command_id with
            | none => simp [reportTarget, hid, hcast] at ht
            | some id =>
              rw [reportTarget_by_id lib report _ id hid hcast, Option.some.injEq] at ht
              subst ht
              have hne : c1._id ≠ id := fun e => hnot hid (by rw [hcast, e])
              simp [hne]
          · have hidf : report.command_id.truthy = false := by simpa using hid
            cases hl : latestCreatedAt (sentFor report.serial_number) db.commands with
            | none =>
              simp only [reportTarget, hidf, Bool.false_eq_true, if_false, hl,
                Option.some.injEq] at ht
              subst ht
              rfl
            | some t =>
              simp only [reportTarget, hidf, Bool.false_eq_true, if_false, hl,
                Option.some.injEq] at ht
              subst ht
              obtain ⟨-, hmax⟩ := latestCreatedAt_eq_some _ _ t hl
              by_cases hs1 : sentFor report.serial_number c1 = true
              · have hs2 : sentFor report.serial_number c2 = true := by
                  rw [sentFor_iff] at hs1 ⊢
                  exact ⟨hser.trans hs1.1, hsent2⟩
                have := hmax c2 hc2 hs2
                have hne : c1.createdAt ≠ t := by omega
                simp [hne]
              · simp [hs1]
  · intro hid hs hser hsent huniq
    have h400 : (!report.serial_number.truthy && !report.command_id.truthy) = false := by
      simp [hs]
    have hmem : c1 ∈ db.commands := List.getElem?_mem hj
    have hp1 : sentFor report.serial_number c1 = true := (sentFor_iff _ _).2 ⟨hser, hsent⟩
    cases hl : latestCreatedAt (sentFor report.serial_number) db.commands with
    | none =>
      have := (latestCreatedAt_eq_none _ _).1 hl c1 hmem
      rw [hp1] at this
      exact absurd this (by decide)
    | some t =>
      obtain ⟨⟨cm, hcm, hpm, htm⟩, hmax⟩ := latestCreatedAt_eq_some _ _ t hl
      have ht : reportTarget lib report db.commands
          = some (fun c => sentFor report.serial_number c && c.createdAt == t) := by
        simp only [reportTarget, hid, Bool.false_eq_true, if_false, hl]
      have hsome : (db.commands.find?
          (fun c => sentFor report.serial_number c && c.createdAt == t)).isSome = true := by
        rw [List.find?_isSome]
        exact ⟨cm, hcm, by simp [hpm, htm]⟩
      obtain ⟨found, hfound⟩ := Option.isSome_iff_exists.1 hsome
      have hq := List.find?_some hfound
      simp only [Bool.and_eq_true, beq_iff_eq] at hq
      obtain ⟨i, hi, hset⟩ :=
        updateFirstCommand_eq_set _ (resolveCommand now report) _ _ hfound
      have hle : c1.createdAt ≤ found.createdAt := by
        rw [hq.2]
        exact hmax c1 hmem hp1
      have hij : i = j :=
        huniq i found hi ((sentFor_iff _ _).1 hq.1).1 ((sentFor_iff _ _).1 hq.1).2 hle
      subst hij
      have hfc : found = c1 := by
        rw [hi] at hj
        exact Option.some.inj hj
      subst hfc
      rw [(postCommandResult_written lib now user report db _ found h400 ht hfound).1]
      show (updateFirstCommand _ _ db.commands)[i]? = _
      rw [hset, List.getElem?_set_self (List.getElem?_eq_some_iff.1 hi).1]
      rfl

theorem older_command_sent_while_newer_sent_witness :
    (postCommandResult asciiLib 300 adminUser reportBySerial commandDb).db.commands[0]?
        = some { _id := "c1", device_name := JVal.str "LAB-07",
                 serial_number := JVal.str "SN-1", command := JVal.str "lock",
                 status := JVal.str "sent", createdBy := "root", createdAt := 100 } ∧
      (postCommandResult asciiLib 300 adminUser reportBySerial commandDb).db.commands[1]?
        = some { _id := "c2", device_name := JVal.str "LAB-07",
                 serial_number := JVal.str "SN-1", command := JVal.str "reboot",
                 status := JVal.str "completed", result := JVal.str "ok",
                 createdBy := "root", createdAt := 200, executedAt := some 300 } :=
  ⟨(older_command_sent_while_newer_sent asciiLib 300 adminUser reportBySerial commandDb 0 _
      rfl).1 (by decide)
      ⟨{ _id := "c2", device_name := JVal.str "LAB-07", serial_number := JVal.str "SN-1",
         command := JVal.str "reboot", status := JVal.str "sent", createdBy := "root",
         createdAt := 200 }, by decide, by decide, by decide, by decide⟩,
   (older_command_sent_while_newer_sent asciiLib 300 adminUser reportBySerial commandDb 1 _
      rfl).2 (by decide) (by decide) (by decide) (by decide) (by
        intro k c hk hser hsent hle
        match k, hk with
        | 0, hk =>
          simp only [commandDb, List.getElem?_cons_zero, Option.some.injEq] at hk
          subst hk
          exact absurd hle (by decide)
        | 1, _ => rfl
        | 2, hk =>
          simp only [commandDb, List.getElem?_cons_succ, List.getElem?_cons_zero,
            Option.some.injEq] at hk
          subst hk
          exact absurd hser (by decide)
        | k + 3, hk =>
          simp [commandDb] at hk)⟩

/-- C19 (the code at the failing input). The caller is non-administrative with
the prefixes LAB- and HR-; the Command `c9` belongs to the Device IT-1, outside
those prefixes. The report that names `c9` is answered 403, and `c9` has
nevertheless been rewritten: the update runs before the prefix check. -/
theorem forbidden_report_still_writes :
    matchesUserPrefixes asciiLib (JVal.str "IT-1") labUser.sector = some false ∧
      commandDb.commands.map (fun c => (c._id, c.serial_number, c.status, c.result,
          c.executedAt))
        = [("c1", JVal.str "SN-1", JVal.str "sent", JVal.undef, none),
           ("c2", JVal.str "SN-1", JVal.str "sent", JVal.undef, none),
           ("c9", JVal.str "SN-9", JVal.str "sent", JVal.undef, none)] ∧
      (postCommandResult asciiLib 300 labUser reportForOtherDevice commandDb).status = 403 ∧
      (postCommandResult asciiLib 300 labUser reportForOtherDevice commandDb).db.commands.map
          (fun c => (c._id, c.serial_number, c.status, c.result, c.executedAt))
        = [("c1", JVal.str "SN-1", JVal.str "sent", JVal.undef, none),
           ("c2", JVal.str "SN-1", JVal.str "sent", JVal.undef, none),
           ("c9", JVal.str "SN-9", JVal.str "completed", JVal.str "done", some 300)] := by
  refine ⟨?_, ?_, ?_, ?_⟩ <;> decide

/-- The update of the first Device with a serial number rewrites one position of
the collection, the one `findOne` returns. -/
theorem updateFirst_eq_set (sn : JVal) (f : Device → Device) (ds : List Device) (d : Device)
    (h : findOne ds sn = some d) :
    ∃ i, ds[i]? = some d ∧
      updateFirst (fun x => x.serial_number == sn) f ds = ds.set i (f d) := by
  unfold findOne at h
  induction ds with
  | nil => simp at h
  | cons a l ih =>
    by_cases ha : (a.serial_number == sn) = true
    · have had : a = d := by simpa [List.find?_cons, ha] using h
      subst had
      exact ⟨0, by simp, by simp [updateFirst, ha]⟩
    · have hl : l.find? (fun x => x.serial_number == sn) = some d := by
        simpa [List.find?_cons, ha] using h
      obtain ⟨i, hi, hset⟩ := ih hl
      exact ⟨i + 1, by simpa using hi, by simp [updateFirst, ha, hset]⟩

/-- C14. Enqueue checks the target before acting. If no Device has the requested
serial_number, `POST /commands` answers 404; otherwise, if the caller has role
'user' and the Device's name does not match the caller's prefixes, it answers 403;
in both cases no Command is created and no Device is changed. -/
theorem enqueue_checks_target (lib : Lib) (now : Int) (newId : String) (user : User)
    (body : CommandRequest) (db : Db) :
    (findOne db.devices body.serial_number = none →
      postCommands lib now newId user body db = { status := 404, db := db }) ∧
    (∀ device, findOne db.devices body.serial_number = some device → user.role = "user" →
      matchesUserPrefixes lib device.device_name user.sector = some false →
      postCommands lib now newId user body db = { status := 403, db := db }) := by
  constructor
  · intro hnone
    simp only [postCommands, hnone]
  · intro device hdev hrole hmatch
    simp only [postCommands, hdev, outsidePrefixes, hrole, if_true, hmatch, Option.map_some',
      Bool.not_false]

theorem enqueue_checks_target_witness :
    postCommands asciiLib 300 "c10" labUser
        { serial_number := JVal.str "SN-404", command := JVal.str "lock" } commandDb
      = { status := 404, db := commandDb } ∧
    postCommands asciiLib 300 "c10" labUser
        { serial_number := JVal.str "SN-9", command := JVal.str "lock" } commandDb
      = { status := 403, db := commandDb } :=
  ⟨(enqueue_checks_target asciiLib 300 "c10" labUser
      { serial_number := JVal.str "SN-404", command := JVal.str "lock" } commandDb).1
      (by decide),
   (enqueue_checks_target asciiLib 300 "c10" labUser
      { serial_number := JVal.str "SN-9", command := JVal.str "lock" } commandDb).2
      { device_name := JVal.str "IT-1", serial_number := JVal.str "SN-9", _id := 2 }
      (by decide) rfl (by decide)⟩

/-- C15. The reserved command kind 'set_maintenance' bypasses the queue. For an
authorised enqueue request (the Device exists and the caller is administrative or
the Device matches the caller's prefixes): when the command is 'set_maintenance',
no Command is created and the target Device is changed only in maintenance_status
(true exactly when the request's maintenance_status is the string 'true' or
true), maintenance_ticket and maintenance_reason; for every other command kind
exactly one Command, with status 'sent', is appended and no Device is changed. -/
theorem enqueue_maintenance_bypasses_queue (lib : Lib) (now : Int) (newId : String)
    (user : User) (body : CommandRequest) (db : Db) (device : Device)
    (hdev : findOne db.devices body.serial_number = some device)
    (hauth : user.role ≠ "user" ∨
      matchesUserPrefixes lib device.device_name user.sector = some true) :
    (body.command = JVal.str "set_maintenance" →
      (postCommands lib now newId user body db).status = 200 ∧
      (postCommands lib now newId user body db).db.commands = db.commands ∧
      ∃ i, db.devices[i]? = some device ∧
        (postCommands lib now newId user body db).db.devices =
          db.devices.set i
            { device with
              maintenance_status :=
                JVal.bool (decide (body.maintenance_status = JVal.str "true" ∨
                  body.maintenance_status = JVal.bool true))
              maintenance_ticket := body.maintenance_ticket.orElse JVal.null
              maintenance_reason := body.maintenance_reason.orElse JVal.null }) ∧
    (body.command ≠ JVal.str "set_maintenance" →
      (postCommands lib now newId user body db).status = 200 ∧
      (postCommands lib now newId user body db).db.devices = db.devices ∧
      (postCommands lib now newId user body db).db.commands =
        db.commands ++
          [{ _id := newId
             device_name := body.device_name.orElse device.device_name
             serial_number := body.serial_number
             command := body.command
             packageName := body.packageName
             apkUrl := body.apkUrl
             status := JVal.str "sent"
             createdBy := user.username
             createdAt := now }]) := by
  have hout : outsidePrefixes lib user device = some false := by
    unfold outsidePrefixes
    rcases hauth with h | h
    · rw [if_neg h]
    · by_cases hr : user.role = "user"
      · rw [if_pos hr, h]
        rfl
      · rw [if_neg hr]
  constructor
  · intro hcmd
    obtain ⟨i, hi, hset⟩ := updateFirst_eq_set body.serial_number (setMaintenance body)
      db.devices device hdev
    simp only [postCommands, hdev, hout, hcmd, if_true]
    exact ⟨trivial, trivial, i, hi, hset⟩
  · intro hcmd
    simp only [postCommands, hdev, hout, if_neg hcmd]
    exact ⟨trivial, trivial, trivial⟩

theorem enqueue_maintenance_bypasses_queue_witness :
    ((postCommands asciiLib 300 "c10" labUser
        { serial_number := JVal.str "SN-1", command := JVal.str "set_maintenance",
          maintenance_status := JVal.str "true", maintenance_ticket := JVal.str "T-7" }
        commandDb).status = 200 ∧
      (postCommands asciiLib 300 "c10" labUser
        { serial_number := JVal.str "SN-1", command := JVal.str "set_maintenance",
          maintenance_status := JVal.str "true", maintenance_ticket := JVal.str "T-7" }
        commandDb).db.commands = commandDb.commands ∧
      ∃ i, commandDb.devices[i]?
          = some { device_name := JVal.str "LAB-07", serial_number := JVal.str "SN-1",
                   _id := 1 } ∧
        (postCommands asciiLib 300 "c10" labUser
          { serial_number := JVal.str "SN-1", command := JVal.str "set_maintenance",
            maintenance_status := JVal.str "true", maintenance_ticket := JVal.str "T-7" }
          commandDb).db.devices =
          commandDb.devices.set i
            { device_name := JVal.str "LAB-07", serial_number := JVal.str "SN-1", _id := 1,
              maintenance_status := JVal.bool true, maintenance_ticket := JVal.str "T-7",
              maintenance_reason := JVal.null }) ∧
    ((postCommands asciiLib 300 "c10" labUser
        { serial_number := JVal.str "SN-1", command := JVal.str "reboot" }
        commandDb).status = 200 ∧
      (postCommands asciiLib 300 "c10" labUser
        { serial_number := JVal.str "SN-1", command := JVal.str "reboot" }
        commandDb).db.devices = commandDb.devices ∧
      (postCommands asciiLib 300 "c10" labUser
        { serial_number := JVal.str "SN-1", command := JVal.str "reboot" }
        commandDb).db.commands =
        commandDb.commands ++
          [{ _id := "c10", device_name := JVal.str "LAB-07", serial_number := JVal.str "SN-1",
             command := JVal.str "reboot", status := JVal.str "sent", createdBy := "ana",
             createdAt := 300 }]) :=
  ⟨(enqueue_maintenance_bypasses_queue asciiLib 300 "c10" labUser
      { serial_number := JVal.str "SN-1", command := JVal.str "set_maintenance",
        maintenance_status := JVal.str "true", maintenance_ticket := JVal.str "T-7" }
      commandDb
      { device_name := JVal.str "LAB-07", serial_number := JVal.str "SN-1", _id := 1 }
      (by decide) (Or.inr (by decide))).1 rfl,
   (enqueue_maintenance_bypasses_queue asciiLib 300 "c10" labUser
      { serial_number := JVal.str "SN-1", command := JVal.str "reboot" }
      commandDb
      { device_name := JVal.str "LAB-07", serial_number := JVal.str "SN-1", _id := 1 }
      (by decide) (Or.inr (by decide))).2 (by decide)⟩

/-- A prefix with a regular-expression syntax character, "A.B", on the ASCII
stand-in: the listing query keeps the Device named "a.b-1" and not the Device
named "AxB-1", as `matchesUserPrefixes` does. -/
theorem listing_prefix_with_dot_example :
    prefixPatterns ["A.B".toList] = [['^', 'A', backslash, '.', 'B']] ∧
      satisfiesPrefixQuery asciiLib (prefixPatterns ["A.B".toList])
        { device_name := JVal.str "a.b-1" } = true ∧
      satisfiesPrefixQuery asciiLib (prefixPatterns ["A.B".toList])
        { device_name := JVal.str "AxB-1" } = false ∧
      matchesUserPrefixes asciiLib (JVal.str "a.b-1") (some "A.B") = some true ∧
      matchesUserPrefixes asciiLib (JVal.str "AxB-1") (some "A.B") = some false := by
  refine ⟨?_, ?_, ?_, ?_, ?_⟩ <;> decide

/-! ## Theorems: validation of the check-in -/

/-- C21 (counterexample). A payload with non-empty device_id, device_name and
imei and no serial_number fails validation on the field serial_number and is
answered 400, with nothing written, whether or not `unitName` is bound. -/
theorem checkin_imei_only_counterexample :
    checkInImeiOnly.imei = JVal.str "356938035643809" ∧
      checkInImeiOnly.serial_number = JVal.undef ∧
      validationErrors sourceEnv checkInImeiOnly = ["serial_number"] ∧
      postData sourceEnv 5 checkInImeiOnly emptyStore = { status := 400, store := emptyStore } ∧
      postData boundEnv 5 checkInImeiOnly offlineStore
        = { status := 400, store := offlineStore } := by
  refine ⟨?_, ?_, ?_, ?_, ?_⟩ <;> decide

/-- C21 (amended). Every check-in payload without a serial_number is rejected with
a validation error that names serial_number, also when it carries a non-empty
imei; when it has neither imei nor serial_number the body-level check fails as
well. The rejection is answered 400 before any Device or LocationHistory row is
written. -/
theorem checkin_needs_serial_number (env : Env) (now : Int) (body : Fields) (st : Store)
    (hs : body.serial_number = JVal.undef) :
    "serial_number" ∈ validationErrors env body ∧
      (body.imei.truthy = false → "" ∈ validationErrors env body) ∧
      postData env now body st = { status := 400, store := st } := by
  have h1 : "serial_number" ∈ validationErrors env body := by
    simp [validationErrors, validators, hs, passes, validatedStrings, stringify, notEmpty]
  refine ⟨h1, ?_, ?_⟩
  · intro hi
    have hu : JVal.undef.truthy = false := rfl
    simp [validationErrors, validators, hs, hi, hu]
  · exact postData_invalid env now body st (List.ne_nil_of_mem h1)

theorem checkin_needs_serial_number_witness :
    "serial_number" ∈ validationErrors sourceEnv checkInImeiOnly ∧
      (checkInImeiOnly.imei.truthy = false → "" ∈ validationErrors sourceEnv checkInImeiOnly) ∧
      postData sourceEnv 5 checkInImeiOnly emptyStore
        = { status := 400, store := emptyStore } :=
  checkin_needs_serial_number sourceEnv 5 checkInImeiOnly emptyStore rfl

/-! ## Theorems: IP-range resolution -/

/-- The loop returns the location of the first mapping whose range contains the
value, and the sentinel when there is none. -/
theorem scanMappings_eq_find (iplib : IpLib) (v : Nat) (mappings : List IpMapping) :
    scanMappings iplib v mappings =
      match mappings.find? (fun m =>
        decide (ipToBigInt iplib (some m.ipStart) ≤ v ∧ v ≤ ipToBigInt iplib (some m.ipEnd))) with
      | some m => m.location
      | none => "Localização Desconhecida" := by
  induction mappings with
  | nil => rfl
  | cons m rest ih =>
    by_cases h : ipToBigInt iplib (some m.ipStart) ≤ v ∧ v ≤ ipToBigInt iplib (some m.ipEnd)
    · simp [scanMappings, h]
    · have h2 : ¬ (v ≥ ipToBigInt iplib (some m.ipStart) ∧
          v ≤ ipToBigInt iplib (some m.ipEnd)) := h
      simp only [scanMappings, if_neg h2, ih, List.find?_cons, h, decide_False, if_false]

theorem getLocationFromIp_eq_scan (iplib : IpLib) (a : String) (mappings : List IpMapping)
    (ha : a ≠ "") :
    getLocationFromIp iplib (some a) (some mappings)
      = scanMappings iplib (ipToBigInt iplib (some a)) mappings := by
  unfold getLocationFromIp
  simp only [if_neg ha]
  cases mappings with
  | nil => rfl
  | cons m rest => simp

/-- C22. IP-range resolution is first-match inclusive containment. For every
non-empty client address a, of integer value v, and every list of mappings in the
order returned by the store, getLocationFromIp(a) is the location of the first
mapping in that order with start <= v <= end, bounds included, and the sentinel
'Localização Desconhecida' when no mapping contains v or the list is empty; for
the ranges [10, 20] -> "X" and [15, 25] -> "Y" in that order, the address of
value 17 resolves to "X". -/
theorem ip_resolution_first_match (iplib : IpLib) (a : String) (v : Nat)
    (mappings : List IpMapping) (ha : a ≠ "") (hv : ipToBigInt iplib (some a) = v) :
    getLocationFromIp iplib (some a) (some mappings) =
      (match mappings.find? (fun m =>
        decide (ipToBigInt iplib (some m.ipStart) ≤ v ∧ v ≤ ipToBigInt iplib (some m.ipEnd))) with
      | some m => m.location
      | none => "Localização Desconhecida") ∧
    getLocationFromIp iplib (some a) (some []) = "Localização Desconhecida" ∧
    ipToBigInt exampleIpLib (some "0.0.0.17") = 17 ∧
    overlappingMappings.map (fun m => (m.location, ipToBigInt exampleIpLib (some m.ipStart),
      ipToBigInt exampleIpLib (some m.ipEnd))) = [("X", 10, 20), ("Y", 15, 25)] ∧
    getLocationFromIp exampleIpLib (some "0.0.0.17") (some overlappingMappings) = "X" := by
  refine ⟨?_, ?_, by decide, by decide, by decide⟩
  · rw [getLocationFromIp_eq_scan iplib a mappings ha, hv, scanMappings_eq_find]
  · rw [getLocationFromIp_eq_scan iplib a [] ha]
    rfl

theorem ip_resolution_first_match_witness :
    getLocationFromIp exampleIpLib (some "0.0.0.17") (some overlappingMappings) =
      (match overlappingMappings.find? (fun m =>
        decide (ipToBigInt exampleIpLib (some m.ipStart) ≤ 17 ∧
          17 ≤ ipToBigInt exampleIpLib (some m.ipEnd))) with
      | some m => m.location
      | none => "Localização Desconhecida") ∧
    getLocationFromIp exampleIpLib (some "0.0.0.17") (some []) = "Localização Desconhecida" ∧
    ipToBigInt exampleIpLib (some "0.0.0.17") = 17 ∧
    overlappingMappings.map (fun m => (m.location, ipToBigInt exampleIpLib (some m.ipStart),
      ipToBigInt exampleIpLib (some m.ipEnd))) = [("X", 10, 20), ("Y", 15, 25)] ∧
    getLocationFromIp exampleIpLib (some "0.0.0.17") (some overlappingMappings) = "X" :=
  ip_resolution_first_match exampleIpLib "0.0.0.17" 17 overlappingMappings (by decide)
    (by decide)

/-- C23 (counterexample). The address "lixo" is neither a valid IPv4 nor a valid
IPv6 address; its value falls back to 0, and with a configured range that starts
at 0.0.0.0 getLocationFromIp returns the location of that range, not the
sentinel. -/
theorem ip_malformed_counterexample :
    exampleIpLib.address4 "lixo".toList = none ∧
      exampleIpLib.address6 "lixo".toList = none ∧
      ipToBigInt exampleIpLib (some "lixo") = 0 ∧
      getLocationFromIp exampleIpLib (some "lixo") (some zeroRangeMappings) = "Sede" := by
  refine ⟨?_, ?_, ?_, ?_⟩ <;> decide

/-- C23 (amended). A malformed address does not raise an error: it is given a
value and resolved like any other. For every non-empty client address that is
neither a valid IPv4 nor a valid IPv6 address, the value is 0 when the address
does not start with '::ffff:'; when it does, the value is that of the text after
this prefix if that text is a valid address (IPv4 first, then IPv6), and 0
otherwise. For every list of mappings, getLocationFromIp returns the location of
the first mapping whose range contains that value, and the sentinel
'Localização Desconhecida' when there is none; for the value 0 this is the first
mapping whose start has the value 0 (the start is 0.0.0.0, or is itself given the
value 0). -/
theorem ip_malformed_value (iplib : IpLib) (a : String) (mappings : List IpMapping)
    (ha : a ≠ "")
    (h4 : iplib.address4 a.toList = none) (h6 : iplib.address6 a.toList = none) :
    ("::ffff:".toList.isPrefixOf a.toList = false → ipToBigInt iplib (some a) = 0) ∧
    ("::ffff:".toList.isPrefixOf a.toList = true →
      ipToBigInt iplib (some a) =
        match iplib.address4 (a.toList.drop 7) with
        | some value => value
        | none =>
          match iplib.address6 (a.toList.drop 7) with
          | some value => value
          | none => 0) ∧
    getLocationFromIp iplib (some a) (some mappings) =
      (match mappings.find? (fun m =>
          decide (ipToBigInt iplib (some m.ipStart) ≤ ipToBigInt iplib (some a) ∧
            ipToBigInt iplib (some a) ≤ ipToBigInt iplib (some m.ipEnd))) with
      | some m => m.location
      | none => "Localização Desconhecida") ∧
    (ipToBigInt iplib (some a) = 0 →
      getLocationFromIp iplib (some a) (some mappings) =
        (match mappings.find? (fun m => ipToBigInt iplib (some m.ipStart) == 0) with
        | some m => m.location
        | none => "Localização Desconhecida")) := by
  refine ⟨?_, ?_, ?_, ?_⟩
  · intro hp
    simp only [ipToBigInt, if_neg ha, hp, Bool.false_eq_true, if_false, h4, h6]
  · intro hp
    simp only [ipToBigInt, if_neg ha, hp, if_true]
  · rw [getLocationFromIp_eq_scan iplib a mappings ha, scanMappings_eq_find]
  · intro hz
    rw [getLocationFromIp_eq_scan iplib a mappings ha, hz, scanMappings_eq_find]
    have hfun : (fun m : IpMapping =>
        decide (ipToBigInt iplib (some m.ipStart) ≤ 0 ∧ 0 ≤ ipToBigInt iplib (some m.ipEnd)))
        = (fun m => ipToBigInt iplib (some m.ipStart) == 0) := by
      funext m
      by_cases h0 : ipToBigInt iplib (some m.ipStart) = 0
      · simp [h0]
      · simp [h0]
    rw [hfun]

theorem ip_malformed_value_witness :
    (ipToBigInt loopbackIpLib (some "lixo") = 0 ∧
      getLocationFromIp loopbackIpLib (some "lixo") (some overlappingMappings) =
        (match overlappingMappings.find?
          (fun m => ipToBigInt loopbackIpLib (some m.ipStart) == 0) with
        | some m => m.location
        | none => "Localização Desconhecida")) ∧
    (loopbackIpLib.address4 "::ffff:::1".toList = none ∧
      loopbackIpLib.address6 "::ffff:::1".toList = none ∧
      ipToBigInt loopbackIpLib (some "::ffff:::1") =
        (match loopbackIpLib.address4 ("::ffff:::1".toList.drop 7) with
        | some value => value
        | none =>
          match loopbackIpLib.address6 ("::ffff:::1".toList.drop 7) with
          | some value => value
          | none => 0) ∧
      getLocationFromIp loopbackIpLib (some "::ffff:::1") (some zeroRangeMappings) =
        (match zeroRangeMappings.find? (fun m =>
            decide (ipToBigInt loopbackIpLib (some m.ipStart)
                ≤ ipToBigInt loopbackIpLib (some "::ffff:::1") ∧
              ipToBigInt loopbackIpLib (some "::ffff:::1")
                ≤ ipToBigInt loopbackIpLib (some m.ipEnd))) with
        | some m => m.location
        | none => "Localização Desconhecida")) :=
  ⟨⟨(ip_malformed_value loopbackIpLib "lixo" overlappingMappings (by decide) (by decide)
        (by decide)).1 (by decide),
      (ip_malformed_value loopbackIpLib "lixo" overlappingMappings (by decide) (by decide)
        (by decide)).2.2.2 (by decide)⟩,
    by decide, by decide,
    (ip_malformed_value loopbackIpLib "::ffff:::1" zeroRangeMappings (by decide) (by decide)
      (by decide)).2.1 (by decide),
    (ip_malformed_value loopbackIpLib "::ffff:::1" zeroRangeMappings (by decide) (by decide)
      (by decide)).2.2.1⟩

/-- The malformed address "::ffff:::1" on the stand-in library: it is neither a
valid IPv4 nor a valid IPv6 address, it gets the value 1 of the text "::1" that
follows the prefix, and it resolves to the mapping whose range contains 1. -/
theorem ip_malformed_prefixed_example :
    loopbackIpLib.address4 "::ffff:::1".toList = none ∧
      loopbackIpLib.address6 "::ffff:::1".toList = none ∧
      ipToBigInt loopbackIpLib (some "::ffff:::1") = 1 ∧
      getLocationFromIp loopbackIpLib (some "::ffff:::1") (some zeroRangeMappings) = "Sede" := by
  refine ⟨?_, ?_, ?_, ?_⟩ <;> decide

/-! ## Theorems: address normalisation -/

/-- C24 (counterexample). A proxy chain whose first entry carries the prefix
'::ffff:': cleanIpAddress returns at the prefix test, so the result is the whole
chain without its first 7 characters, commas included, and not the first entry
"10.0.0.1". A chain whose first entry has no such prefix is cut to its first
entry. -/
theorem cleanIpAddress_mapped_chain :
    cleanIpAddress (some "::ffff:10.0.0.1, 10.0.0.2") = some "10.0.0.1, 10.0.0.2" ∧
      "10.0.0.1, 10.0.0.2".toList.contains ',' = true ∧
      cleanIpAddress (some "10.0.0.1, ::ffff:10.0.0.2") = some "10.0.0.1" := by
  refine ⟨?_, ?_, ?_⟩ <;> decide

theorem not_mem_head_split (sep : Char) (cs : List Char) :
    sep ∉ (split sep cs).headD [] := by
  induction cs with
  | nil => simp [split]
  | cons a t ih =>
    unfold split
    by_cases ha : a = sep
    · simp [ha]
    · rw [if_neg ha]
      cases hsp : split sep t with
      | nil => simpa using fun h => ha h.symm
      | cons first rest =>
        rw [hsp] at ih
        simp only [List.headD_cons, List.mem_cons, not_or] at ih ⊢
        exact ⟨fun h => ha h.symm, ih⟩

/-- C24 (amended). Address normalisation. For every non-empty raw address string r:
when r starts with '::ffff:', cleanIpAddress(r) is r without its first 7
characters, whatever follows (a chain whose first entry carries the prefix is
not cut to its first entry); when r does not start with '::ffff:' and contains a
comma, cleanIpAddress(r) is the first entry of the chain with the surrounding
white space removed, and it contains no comma. -/
theorem cleanIpAddress_cases (r : String) (hr : r ≠ "") :
    ("::ffff:".toList.isPrefixOf r.toList = true →
      cleanIpAddress (some r) = some (String.mk (r.toList.drop 7))) ∧
    ("::ffff:".toList.isPrefixOf r.toList = false → r.toList.contains ',' = true →
      cleanIpAddress (some r) = some (String.mk (trim ((split ',' r.toList).headD []))) ∧
      ',' ∉ trim ((split ',' r.toList).headD [])) := by
  constructor
  · intro hp
    simp only [cleanIpAddress, if_neg hr, hp, if_true]
  · intro hp hc
    refine ⟨?_, ?_⟩
    · simp only [cleanIpAddress, if_neg hr, hp, Bool.false_eq_true, if_false, hc, if_true]
    · intro hmem
      exact not_mem_head_split ',' r.toList (mem_of_mem_trim _ _ hmem)

theorem cleanIpAddress_cases_witness :
    cleanIpAddress (some "::ffff:10.0.0.1") = some "10.0.0.1" ∧
      (cleanIpAddress (some "10.0.0.1 , 10.0.0.2") = some "10.0.0.1" ∧
        ',' ∉ trim ((split ',' "10.0.0.1 , 10.0.0.2".toList).headD [])) :=
  ⟨(cleanIpAddress_cases "::ffff:10.0.0.1" (by decide)).1 (by decide),
    (cleanIpAddress_cases "10.0.0.1 , 10.0.0.2" (by decide)).2 (by decide) (by decide)⟩

/-! ## Theorems: search in the device listing -/

/-- C25 (the code at the failing input). The caller has the prefixes LAB- and HR-
and the stored Device LAB-07 matches both the prefix LAB- and the search term
"LAB". Without a search term `GET /` returns that Device; with the search term
the handler builds a query that contains itself and the request is answered 500,
without a device list. -/
theorem listing_search_fails_for_user :
    offlineStore.devices.map (fun d => d.device_name) = [JVal.str "LAB-07"] ∧
      getDevices asciiLib sourceEnv 0 labUser none offlineStore.devices
        = { status := 200, devices := some (offlineStore.devices.map (fun d => (d, true))) } ∧
      getDevices asciiLib sourceEnv 0 labUser (some "LAB") offlineStore.devices
        = { status := 500, devices := none } := by
  refine ⟨?_, ?_, ?_⟩ <;> decide

/-- For every non-administrative caller with at least one non-empty prefix and
every non-empty search term, `GET /` is answered 500. -/
theorem getDevices_user_search (lib : Lib) (env : Env) (now : Int) (user : User)
    (s term : String) (devices : List Device)
    (hrole : user.role = "user") (hs : user.sector = some s)
    (hp : ∃ entry ∈ split ',' s.toList, trim entry ≠ []) (hterm : term ≠ "") :
    getDevices lib env now user (some term) devices = { status := 500, devices := none } := by
  obtain ⟨entry, he, hne⟩ := hp
  have hnb : ¬ (s = "" ∨ trim s.toList = []) := by
    intro hb
    apply hne
    rw [trim_eq_nil_iff]
    intro c hc
    exact (trim_eq_nil_iff _).1 (trim_toList_eq_nil_of_blank s hb) c
      (mem_of_mem_split ',' _ entry he c hc)
  have hP : ¬ (((split ',' s.toList).map trim).filter
      (fun p => decide (p.length > 0))).length = 0 := by
    rw [List.length_eq_zero, List.filter_eq_nil_iff]
    intro hall
    have := hall (trim entry) (List.mem_map.2 ⟨entry, he, rfl⟩)
    simp only [gt_iff_lt, decide_eq_true_eq, List.length_pos, ne_eq, not_not] at this
    exact hne this
  have hsearch : (term != "") = true := by simpa using hterm
  simp only [getDevices, hrole, if_true, hs, if_neg hnb, if_neg hP, findDevices, hsearch]

theorem getDevices_user_search_witness :
    getDevices asciiLib sourceEnv 0 labUser (some "LAB") offlineStore.devices
      = { status := 500, devices := none } :=
  getDevices_user_search asciiLib sourceEnv 0 labUser "LAB-,HR-" "LAB" offlineStore.devices
    rfl rfl ⟨"LAB-".toList, by decide, by decide⟩ (by decide)

/-! ## Theorems: the sweep under storage failures -/

theorem updateManyInterrupted_zero (filter : Device → Bool) (set : Device → Device)
    (ds : List Device) : updateManyInterrupted filter set 0 ds = ds := by
  cases ds <;> rfl

/-- An interrupted update leaves each document at its position, either untouched
or, if it matches, updated. -/
theorem updateManyInterrupted_getElem? (filter : Device → Bool) (set : Device → Device)
    (written : Nat) (ds : List Device) (i : Nat) (d : Device) (hd : ds[i]? = some d) :
    (updateManyInterrupted filter set written ds)[i]? = some d ∨
      (filter d = true ∧ (updateManyInterrupted filter set written ds)[i]? = some (set d)) := by
  induction ds generalizing written i with
  | nil => simp at hd
  | cons a t ih =>
    cases written with
    | zero =>
      left
      rw [updateManyInterrupted_zero]
      exact hd
    | succ k =>
      unfold updateManyInterrupted
      by_cases ha : filter a = true
      · rw [if_pos ha]
        cases i with
        | zero =>
          simp only [List.getElem?_cons_zero, Option.some.injEq] at hd
          subst hd
          right
          exact ⟨ha, by simp⟩
        | succ j =>
          simp only [List.getElem?_cons_succ] at hd ⊢
          exact ih k j hd
      · rw [if_neg ha]
        cases i with
        | zero =>
          left
          simpa using hd
        | succ j =>
          simp only [List.getElem?_cons_succ] at hd ⊢
          exact ih (k + 1) j hd

/-- C26 (counterexample). Stage 1 of the sweep marks the stale Device 'offline';
the update of stage 2 then fails before writing anything. The failure is logged,
and the Device stays 'offline' with is_online false, not 'online' as before the
run. -/
theorem failed_sweep_counterexample :
    [staleOnlineDevice].map (fun d => (d.status, d.is_online))
        = [(JVal.str "online", JVal.bool true)] ∧
      (runUpdateDeviceStatus 4200000 4200000 none (some 0) [staleOnlineDevice]).log
        = [LogEntry.markedOffline 1, LogEntry.error] ∧
      (runUpdateDeviceStatus 4200000 4200000 none (some 0) [staleOnlineDevice]).devices.map
          (fun d => (d.status, d.is_online))
        = [(JVal.str "offline", JVal.bool false)] := by
  refine ⟨?_, ?_, ?_⟩ <;> decide

/-- C26 (amended). A storage failure during a run of the sweep is caught and
logged and the run returns, but what was written stays written. Without a
failure the run is the sweep. A failure of stage 1 before its first write leaves
every Device unchanged. A failure of stage 2 before its first write leaves the
collection as stage 1 made it; and after any failure of stage 2, every Device that
stage 1 matched is no longer 'online' and has is_online = false. -/
theorem failed_sweep_keeps_writes (now1 now2 : Int) (ds : List Device) :
    (runUpdateDeviceStatus now1 now2 none none ds).devices
      = (updateDeviceStatus now1 now2 ds).devices ∧
    (∀ written fault2,
      LogEntry.error ∈ (runUpdateDeviceStatus now1 now2 (some written) fault2 ds).log) ∧
    (∀ written, LogEntry.error ∈ (runUpdateDeviceStatus now1 now2 none (some written) ds).log) ∧
    (∀ fault2, (runUpdateDeviceStatus now1 now2 (some 0) fault2 ds).devices = ds) ∧
    (runUpdateDeviceStatus now1 now2 none (some 0) ds).devices = (markOffline now1 ds).devices ∧
    (∀ (written i : Nat) (d : Device), ds[i]? = some d →
      offlineFilter (now1 - OFFLINE_THRESHOLD_MINUTES * 60 * 1000) d = true →
      ∃ d', (runUpdateDeviceStatus now1 now2 none (some written) ds).devices[i]? = some d' ∧
        d'.status ≠ JVal.str "online" ∧ d'.is_online = JVal.bool false) := by
  refine ⟨rfl, ?_, ?_, ?_, ?_, ?_⟩
  · intro written fault2
    simp [runUpdateDeviceStatus]
  · intro written
    simp [runUpdateDeviceStatus]
  · intro fault2
    simp only [runUpdateDeviceStatus, updateManyInterrupted_zero]
  · simp only [runUpdateDeviceStatus, updateManyInterrupted_zero]
  · intro written i d hd hf
    have h1 : (markOffline now1 ds).devices[i]? = some (offlineSet d) := by
      simp only [markOffline, updateMany_devices, List.getElem?_map, hd, Option.map_some', hf,
        if_true]
    simp only [runUpdateDeviceStatus]
    rcases updateManyInterrupted_getElem?
        (unmonitoredFilter (now2 - UNMONITORED_THRESHOLD_DAYS * 24 * 60 * 60 * 1000))
        unmonitoredSet written _ i _ h1 with h | ⟨-, h⟩
    · exact ⟨_, h, by simp, by simp⟩
    · exact ⟨_, h, by simp, by simp⟩

theorem failed_sweep_keeps_writes_witness :
    ∃ d', (runUpdateDeviceStatus 4200000 4200000 none (some 0)
        [staleOnlineDevice]).devices[0]? = some d' ∧
      d'.status ≠ JVal.str "online" ∧ d'.is_online = JVal.bool false :=
  (failed_sweep_keeps_writes 4200000 4200000 [staleOnlineDevice]).2.2.2.2.2 0 0
    staleOnlineDevice rfl (by decide)

end ServidorUnificado
